import Mathlib

/-!
# Bedrock Agent flow resource: union converters, schema validators and CRUD handlers

A shallow embedding of `internal/service/bedrockagent/flow.go`.

* Diagnostics and nested-object list values are the host framework's value types.
* The reflective payload converters `fwflex.Expand` / `fwflex.Flatten` are not part of the
  embedded sources; every union converter takes them as parameters (a record of functions).
* Remote calls are given by their results, so handlers are pure functions of those results.
-/

namespace bedrockagent

/-! ## Diagnostics -/

/-- Severity of a diagnostic (`diag.SeverityError`, `diag.SeverityWarning`). -/
inductive Severity where
  | Error
  | Warning
  deriving DecidableEq, Repr

/-- One diagnostic: severity, summary and detail. -/
structure Diagnostic where
  Severity : Severity
  Summary : String
  Detail : String
  deriving DecidableEq, Repr

/-- The type `diag.Diagnostics`: an ordered collection of diagnostics. -/
abbrev Diagnostics := List Diagnostic

/-- `diags.HasError()`: some diagnostic has error severity. -/
def Diagnostics.HasError (diags : Diagnostics) : Bool :=
  diags.any (fun d => d.Severity == Severity.Error)

/-- `diags.Append(in...)`: adds the diagnostics of `ins` in order, skipping one that is
already contained. -/
def Diagnostics.Append (diags : Diagnostics) (ins : Diagnostics) : Diagnostics :=
  ins.foldl (fun acc d => if acc.contains d then acc else acc ++ [d]) diags

/-- `diags.AddError(summary, detail)`. -/
def Diagnostics.AddError (diags : Diagnostics) (summary detail : String) : Diagnostics :=
  Diagnostics.Append diags [⟨Severity.Error, summary, detail⟩]

/-- Number of diagnostics of error severity (`len(diags.Errors())`). -/
def Diagnostics.ErrorsCount (diags : Diagnostics) : Nat :=
  diags.countP (fun d => d.Severity == Severity.Error)

/-- Some diagnostic has warning severity. -/
def Diagnostics.HasWarning (diags : Diagnostics) : Bool :=
  diags.any (fun d => d.Severity == Severity.Warning)

/-! ## Nested-object list values -/

/-- The type `fwtypes.ListNestedObjectValueOf[T]`: a list block value, which is null (the
zero value of the Go type), unknown, or a known list of nested objects. -/
inductive ListNestedObjectValueOf (T : Type) where
  | null
  | unknown
  | known (elements : List T)
  deriving DecidableEq, Repr

/-- `v.IsNull()`. -/
def ListNestedObjectValueOf.IsNull {T : Type} : ListNestedObjectValueOf T → Bool
  | .null => true
  | _ => false

/-- `v.Elements()`: the elements of a known list, none for null and unknown. -/
def ListNestedObjectValueOf.Elements {T : Type} : ListNestedObjectValueOf T → List T
  | .known es => es
  | _ => []

/-- Modelled from the spec: `ListNestedObjectValueOf[T].ToPtr` lives in
`internal/framework/types`, which is not among the embedded sources. It converts a block to
a single object: no element gives a nil pointer, one element gives a pointer to it, more
than one element gives an error diagnostic and a nil pointer. -/
def ListNestedObjectValueOf.ToPtr {T : Type} (v : ListNestedObjectValueOf T) :
    Option T × Diagnostics :=
  match v.Elements with
  | [] => (none, [])
  | [x] => (some x, [])
  | es => (none, [⟨Severity.Error, "Invalid list",
      "too many elements: want 1, got " ++ toString es.length⟩])

/-- Modelled from the spec: `fwtypes.NewListNestedObjectValueOfPtrMust(ctx, &model)` from
`internal/framework/types`: the known list holding exactly the given object. -/
def NewListNestedObjectValueOfPtrMust {T : Type} (model : T) : ListNestedObjectValueOf T :=
  .known [model]

/-- A Go value of static type `any` handed to a `Flatten` method whose type switch lists the
member types of the union `U`: either a value of one of the member types, or a value of some
other dynamic type (a pointer to a member, an unknown union member, nil), of which only the
printed type name `%T` is used. -/
inductive GoAny (U : Type) where
  | member (v : U)
  | other (typeName : String)
  deriving DecidableEq, Repr

/-- The error recorded by the `default` case of every `Flatten` type switch. -/
def unsupportedConfigurationType (diags : Diagnostics) (typeName : String) : Diagnostics :=
  Diagnostics.AddError diags "Unsupported configuration type"
    ("Unsupported configuration type: " ++ typeName)

/-- The body shared by every case of the `Expand` switches:
`data, d := block.ToPtr(ctx)`, append, stop on error; `fwflex.Expand(ctx, data, &r.Value)`,
append, stop on error; `return &r, diags`. `expand` is the reflective payload converter and
`mk` wraps the converted payload `r.Value` into the union member `r`. -/
def expandMember {M W U : Type} (diags : Diagnostics) (block : ListNestedObjectValueOf M)
    (expand : Option M → W × Diagnostics) (mk : W → U) : Option U × Diagnostics :=
  let (data, d) := block.ToPtr
  let diags := Diagnostics.Append diags d
  if Diagnostics.HasError diags then (none, diags)
  else
    let (rValue, d2) := expand data
    let diags := Diagnostics.Append diags d2
    if Diagnostics.HasError diags then (none, diags)
    else (some (mk rValue), diags)

/-- The body shared by every case of the `Flatten` type switches:
`var model T; d := fwflex.Flatten(ctx, t.Value, &model)`, append, return on error without
assigning; otherwise assign `NewListNestedObjectValueOfPtrMust(ctx, &model)` through `set`. -/
def flattenMember {W M S : Type} (diags : Diagnostics) (m : S) (value : W)
    (flatten : W → M × Diagnostics) (set : S → ListNestedObjectValueOf M → S) :
    S × Diagnostics :=
  let (model, d) := flatten value
  let diags := Diagnostics.Append diags d
  if Diagnostics.HasError diags then (m, diags)
  else (set m (NewListNestedObjectValueOfPtrMust model), diags)

/-! ## Container model for FlowNodeConfiguration -/

/-- The payload types of the eight `FlowNodeConfiguration` members: the wire structs of the
API (`awstypes.*FlowNodeConfiguration`) and the models they are flattened into
(`*FlowNodeConfigurationModel`). They are left abstract: the union converters only move
payloads around. -/
structure FlowNodePayloads where
  PromptFlowNodeConfiguration : Type
  LambdaFunctionFlowNodeConfiguration : Type
  KnowledgeBaseFlowNodeConfiguration : Type
  ConditionFlowNodeConfiguration : Type
  AgentFlowNodeConfiguration : Type
  InputFlowNodeConfiguration : Type
  OutputFlowNodeConfiguration : Type
  RetrievalFlowNodeConfiguration : Type
  promptFlowNodeConfigurationModel : Type
  lambdaFunctionFlowNodeConfigurationModel : Type
  knowledgeBaseFlowNodeConfigurationModel : Type
  conditionFlowNodeConfigurationModel : Type
  agentFlowNodeConfigurationModel : Type
  inputFlowNodeConfigurationModel : Type
  outputFlowNodeConfigurationModel : Type
  retrievalFlowNodeConfigurationModel : Type

/-- The wire union `awstypes.FlowNodeConfiguration` with its eight member types, each
carrying its payload in `Value`. -/
inductive FlowNodeConfiguration (P : FlowNodePayloads) where
  | MemberPrompt (Value : P.PromptFlowNodeConfiguration)
  | MemberLambdaFunction (Value : P.LambdaFunctionFlowNodeConfiguration)
  | MemberKnowledgeBase (Value : P.KnowledgeBaseFlowNodeConfiguration)
  | MemberCondition (Value : P.ConditionFlowNodeConfiguration)
  | MemberAgent (Value : P.AgentFlowNodeConfiguration)
  | MemberInput (Value : P.InputFlowNodeConfiguration)
  | MemberOutput (Value : P.OutputFlowNodeConfiguration)
  | MemberRetrieval (Value : P.RetrievalFlowNodeConfiguration)

/-- The struct `flowNodeConfigurationModel`: one list block per member of the union. -/
structure flowNodeConfigurationModel (P : FlowNodePayloads) where
  Prompt : ListNestedObjectValueOf P.promptFlowNodeConfigurationModel
  Lambda : ListNestedObjectValueOf P.lambdaFunctionFlowNodeConfigurationModel
  KnowledgeBase : ListNestedObjectValueOf P.knowledgeBaseFlowNodeConfigurationModel
  Condition : ListNestedObjectValueOf P.conditionFlowNodeConfigurationModel
  Agent : ListNestedObjectValueOf P.agentFlowNodeConfigurationModel
  Input : ListNestedObjectValueOf P.inputFlowNodeConfigurationModel
  Output : ListNestedObjectValueOf P.outputFlowNodeConfigurationModel
  Retrieval : ListNestedObjectValueOf P.retrievalFlowNodeConfigurationModel

/-- The zero value of `flowNodeConfigurationModel`: every block null. -/
def flowNodeConfigurationModel.empty (P : FlowNodePayloads) : flowNodeConfigurationModel P :=
  ⟨.null, .null, .null, .null, .null, .null, .null, .null⟩

/-- The reflective payload converters used by the node-configuration union, one pair per
member: `expandX data` is `fwflex.Expand(ctx, data, &r.Value)` on a fresh `r` (the payload
written to `r.Value` and the diagnostics), `flattenX value` is
`fwflex.Flatten(ctx, t.Value, &model)` on a fresh `model`. -/
structure FlowNodeConverters (P : FlowNodePayloads) where
  expandPrompt : Option P.promptFlowNodeConfigurationModel →
    P.PromptFlowNodeConfiguration × Diagnostics
  expandLambda : Option P.lambdaFunctionFlowNodeConfigurationModel →
    P.LambdaFunctionFlowNodeConfiguration × Diagnostics
  expandKnowledgeBase : Option P.knowledgeBaseFlowNodeConfigurationModel →
    P.KnowledgeBaseFlowNodeConfiguration × Diagnostics
  expandCondition : Option P.conditionFlowNodeConfigurationModel →
    P.ConditionFlowNodeConfiguration × Diagnostics
  expandAgent : Option P.agentFlowNodeConfigurationModel →
    P.AgentFlowNodeConfiguration × Diagnostics
  expandInput : Option P.inputFlowNodeConfigurationModel →
    P.InputFlowNodeConfiguration × Diagnostics
  expandOutput : Option P.outputFlowNodeConfigurationModel →
    P.OutputFlowNodeConfiguration × Diagnostics
  expandRetrieval : Option P.retrievalFlowNodeConfigurationModel →
    P.RetrievalFlowNodeConfiguration × Diagnostics
  flattenPrompt : P.PromptFlowNodeConfiguration →
    P.promptFlowNodeConfigurationModel × Diagnostics
  flattenLambda : P.LambdaFunctionFlowNodeConfiguration →
    P.lambdaFunctionFlowNodeConfigurationModel × Diagnostics
  flattenKnowledgeBase : P.KnowledgeBaseFlowNodeConfiguration →
    P.knowledgeBaseFlowNodeConfigurationModel × Diagnostics
  flattenCondition : P.ConditionFlowNodeConfiguration →
    P.conditionFlowNodeConfigurationModel × Diagnostics
  flattenAgent : P.AgentFlowNodeConfiguration →
    P.agentFlowNodeConfigurationModel × Diagnostics
  flattenInput : P.InputFlowNodeConfiguration →
    P.inputFlowNodeConfigurationModel × Diagnostics
  flattenOutput : P.OutputFlowNodeConfiguration →
    P.outputFlowNodeConfigurationModel × Diagnostics
  flattenRetrieval : P.RetrievalFlowNodeConfiguration →
    P.retrievalFlowNodeConfigurationModel × Diagnostics

/-- The method `flowNodeConfigurationModel.Expand` (flow.go:1157): the first non-null block,
in the order of the `switch`, is converted to its union member; no non-null block gives
`nil` with empty diagnostics. -/
def flowNodeConfigurationModel.Expand {P : FlowNodePayloads} (c : FlowNodeConverters P)
    (m : flowNodeConfigurationModel P) : Option (FlowNodeConfiguration P) × Diagnostics :=
  let diags : Diagnostics := []
  if !m.Prompt.IsNull then
    expandMember diags m.Prompt c.expandPrompt FlowNodeConfiguration.MemberPrompt
  else if !m.Lambda.IsNull then
    expandMember diags m.Lambda c.expandLambda FlowNodeConfiguration.MemberLambdaFunction
  else if !m.KnowledgeBase.IsNull then
    expandMember diags m.KnowledgeBase c.expandKnowledgeBase
      FlowNodeConfiguration.MemberKnowledgeBase
  else if !m.Condition.IsNull then
    expandMember diags m.Condition c.expandCondition FlowNodeConfiguration.MemberCondition
  else if !m.Agent.IsNull then
    expandMember diags m.Agent c.expandAgent FlowNodeConfiguration.MemberAgent
  else if !m.Input.IsNull then
    expandMember diags m.Input c.expandInput FlowNodeConfiguration.MemberInput
  else if !m.Output.IsNull then
    expandMember diags m.Output c.expandOutput FlowNodeConfiguration.MemberOutput
  else if !m.Retrieval.IsNull then
    expandMember diags m.Retrieval c.expandRetrieval FlowNodeConfiguration.MemberRetrieval
  else
    (none, diags)

/-- The method `(*flowNodeConfigurationModel).Flatten` (flow.go:1283): the type switch over
the eight member types; the receiver after the call and the diagnostics. -/
def flowNodeConfigurationModel.Flatten {P : FlowNodePayloads} (c : FlowNodeConverters P)
    (m : flowNodeConfigurationModel P) (v : GoAny (FlowNodeConfiguration P)) :
    flowNodeConfigurationModel P × Diagnostics :=
  let diags : Diagnostics := []
  match v with
  | .member (.MemberPrompt value) =>
    flattenMember diags m value c.flattenPrompt (fun m l => { m with Prompt := l })
  | .member (.MemberLambdaFunction value) =>
    flattenMember diags m value c.flattenLambda (fun m l => { m with Lambda := l })
  | .member (.MemberKnowledgeBase value) =>
    flattenMember diags m value c.flattenKnowledgeBase
      (fun m l => { m with KnowledgeBase := l })
  | .member (.MemberCondition value) =>
    flattenMember diags m value c.flattenCondition (fun m l => { m with Condition := l })
  | .member (.MemberAgent value) =>
    flattenMember diags m value c.flattenAgent (fun m l => { m with Agent := l })
  | .member (.MemberInput value) =>
    flattenMember diags m value c.flattenInput (fun m l => { m with Input := l })
  | .member (.MemberOutput value) =>
    flattenMember diags m value c.flattenOutput (fun m l => { m with Output := l })
  | .member (.MemberRetrieval value) =>
    flattenMember diags m value c.flattenRetrieval (fun m l => { m with Retrieval := l })
  | .other typeName => (m, unsupportedConfigurationType diags typeName)

/-! ## Container model for FlowConnectionConfiguration -/

/-- The payload types of the two `FlowConnectionConfiguration` members: wire structs and
models. -/
structure FlowConnectionPayloads where
  FlowConditionalConnectionConfiguration : Type
  FlowDataConnectionConfiguration : Type
  flowConditionalConnectionConfigurationModel : Type
  flowDataConnectionConfigurationModel : Type

/-- The wire union `awstypes.FlowConnectionConfiguration`. -/
inductive FlowConnectionConfiguration (P : FlowConnectionPayloads) where
  | MemberConditional (Value : P.FlowConditionalConnectionConfiguration)
  | MemberData (Value : P.FlowDataConnectionConfiguration)

/-- The struct `flowConnectionConfigurationModel`. -/
structure flowConnectionConfigurationModel (P : FlowConnectionPayloads) where
  Conditional : ListNestedObjectValueOf P.flowConditionalConnectionConfigurationModel
  Data : ListNestedObjectValueOf P.flowDataConnectionConfigurationModel

/-- The zero value of `flowConnectionConfigurationModel`. -/
def flowConnectionConfigurationModel.empty (P : FlowConnectionPayloads) :
    flowConnectionConfigurationModel P :=
  ⟨.null, .null⟩

/-- The reflective payload converters used by the connection-configuration union. -/
structure FlowConnectionConverters (P : FlowConnectionPayloads) where
  expandConditional : Option P.flowConditionalConnectionConfigurationModel →
    P.FlowConditionalConnectionConfiguration × Diagnostics
  expandData : Option P.flowDataConnectionConfigurationModel →
    P.FlowDataConnectionConfiguration × Diagnostics
  flattenConditional : P.FlowConditionalConnectionConfiguration →
    P.flowConditionalConnectionConfigurationModel × Diagnostics
  flattenData : P.FlowDataConnectionConfiguration →
    P.flowDataConnectionConfigurationModel × Diagnostics

/-- The method `flowConnectionConfigurationModel.Expand` (flow.go:1420). -/
def flowConnectionConfigurationModel.Expand {P : FlowConnectionPayloads}
    (c : FlowConnectionConverters P) (m : flowConnectionConfigurationModel P) :
    Option (FlowConnectionConfiguration P) × Diagnostics :=
  let diags : Diagnostics := []
  if !m.Conditional.IsNull then
    expandMember diags m.Conditional c.expandConditional
      FlowConnectionConfiguration.MemberConditional
  else if !m.Data.IsNull then
    expandMember diags m.Data c.expandData FlowConnectionConfiguration.MemberData
  else
    (none, diags)

/-- The method `(*flowConnectionConfigurationModel).Flatten` (flow.go:1456). -/
def flowConnectionConfigurationModel.Flatten {P : FlowConnectionPayloads}
    (c : FlowConnectionConverters P) (m : flowConnectionConfigurationModel P)
    (v : GoAny (FlowConnectionConfiguration P)) :
    flowConnectionConfigurationModel P × Diagnostics :=
  let diags : Diagnostics := []
  match v with
  | .member (.MemberConditional value) =>
    flattenMember diags m value c.flattenConditional (fun m l => { m with Conditional := l })
  | .member (.MemberData value) =>
    flattenMember diags m value c.flattenData (fun m l => { m with Data := l })
  | .other typeName => (m, unsupportedConfigurationType diags typeName)

/-! ## Container model for PromptFlowNodeSourceConfiguration -/

/-- The payload types of the two `PromptFlowNodeSourceConfiguration` members. -/
structure PromptSourcePayloads where
  PromptFlowNodeInlineConfiguration : Type
  PromptFlowNodeResourceConfiguration : Type
  promptFlowNodeInlineConfigurationModel : Type
  promptFlowNodeResourceConfigurationModel : Type

/-- The wire union `awstypes.PromptFlowNodeSourceConfiguration`. -/
inductive PromptFlowNodeSourceConfiguration (P : PromptSourcePayloads) where
  | MemberInline (Value : P.PromptFlowNodeInlineConfiguration)
  | MemberResource (Value : P.PromptFlowNodeResourceConfiguration)

/-- The struct `promptFlowNodeSourceConfigurationModel`. -/
structure promptFlowNodeSourceConfigurationModel (P : PromptSourcePayloads) where
  Inline : ListNestedObjectValueOf P.promptFlowNodeInlineConfigurationModel
  Resource : ListNestedObjectValueOf P.promptFlowNodeResourceConfigurationModel

/-- The zero value of `promptFlowNodeSourceConfigurationModel`. -/
def promptFlowNodeSourceConfigurationModel.empty (P : PromptSourcePayloads) :
    promptFlowNodeSourceConfigurationModel P :=
  ⟨.null, .null⟩

/-- The reflective payload converters used by the prompt-source union. -/
structure PromptSourceConverters (P : PromptSourcePayloads) where
  expandInline : Option P.promptFlowNodeInlineConfigurationModel →
    P.PromptFlowNodeInlineConfiguration × Diagnostics
  expandResource : Option P.promptFlowNodeResourceConfigurationModel →
    P.PromptFlowNodeResourceConfiguration × Diagnostics
  flattenInline : P.PromptFlowNodeInlineConfiguration →
    P.promptFlowNodeInlineConfigurationModel × Diagnostics
  flattenResource : P.PromptFlowNodeResourceConfiguration →
    P.promptFlowNodeResourceConfigurationModel × Diagnostics

/-- The method `promptFlowNodeSourceConfigurationModel.Expand` (flow.go:940). -/
def promptFlowNodeSourceConfigurationModel.Expand {P : PromptSourcePayloads}
    (c : PromptSourceConverters P) (m : promptFlowNodeSourceConfigurationModel P) :
    Option (PromptFlowNodeSourceConfiguration P) × Diagnostics :=
  let diags : Diagnostics := []
  if !m.Inline.IsNull then
    expandMember diags m.Inline c.expandInline PromptFlowNodeSourceConfiguration.MemberInline
  else if !m.Resource.IsNull then
    expandMember diags m.Resource c.expandResource
      PromptFlowNodeSourceConfiguration.MemberResource
  else
    (none, diags)

/-- The method `(*promptFlowNodeSourceConfigurationModel).Flatten` (flow.go:976). -/
def promptFlowNodeSourceConfigurationModel.Flatten {P : PromptSourcePayloads}
    (c : PromptSourceConverters P) (m : promptFlowNodeSourceConfigurationModel P)
    (v : GoAny (PromptFlowNodeSourceConfiguration P)) :
    promptFlowNodeSourceConfigurationModel P × Diagnostics :=
  let diags : Diagnostics := []
  match v with
  | .member (.MemberInline value) =>
    flattenMember diags m value c.flattenInline (fun m l => { m with Inline := l })
  | .member (.MemberResource value) =>
    flattenMember diags m value c.flattenResource (fun m l => { m with Resource := l })
  | .other typeName => (m, unsupportedConfigurationType diags typeName)

/-! ## Container model for RetrievalFlowNodeServiceConfiguration -/

/-- The wire union `awstypes.RetrievalFlowNodeServiceConfiguration`, of which the converter
knows the single member `S3`; `W` is the wire payload
`awstypes.RetrievalFlowNodeS3Configuration`. -/
inductive RetrievalFlowNodeServiceConfiguration (W : Type) where
  | MemberS3 (Value : W)

/-- The struct `retrievalFlowNodeServiceConfigurationModel`; `M` is
`retrievalFlowNodeS3ConfigurationModel`. -/
structure retrievalFlowNodeServiceConfigurationModel (M : Type) where
  S3 : ListNestedObjectValueOf M

/-- The zero value of `retrievalFlowNodeServiceConfigurationModel`. -/
def retrievalFlowNodeServiceConfigurationModel.empty (M : Type) :
    retrievalFlowNodeServiceConfigurationModel M :=
  ⟨.null⟩

/-- The reflective payload converters used by the retrieval-service union. -/
structure RetrievalServiceConverters (W M : Type) where
  expandS3 : Option M → W × Diagnostics
  flattenS3 : W → M × Diagnostics

/-- The method `retrievalFlowNodeServiceConfigurationModel.Expand` (flow.go:1096). -/
def retrievalFlowNodeServiceConfigurationModel.Expand {W M : Type}
    (c : RetrievalServiceConverters W M) (m : retrievalFlowNodeServiceConfigurationModel M) :
    Option (RetrievalFlowNodeServiceConfiguration W) × Diagnostics :=
  let diags : Diagnostics := []
  if !m.S3.IsNull then
    expandMember diags m.S3 c.expandS3 RetrievalFlowNodeServiceConfiguration.MemberS3
  else
    (none, diags)

/-- The method `(*retrievalFlowNodeServiceConfigurationModel).Flatten` (flow.go:1117). -/
def retrievalFlowNodeServiceConfigurationModel.Flatten {W M : Type}
    (c : RetrievalServiceConverters W M) (m : retrievalFlowNodeServiceConfigurationModel M)
    (v : GoAny (RetrievalFlowNodeServiceConfiguration W)) :
    retrievalFlowNodeServiceConfigurationModel M × Diagnostics :=
  let diags : Diagnostics := []
  match v with
  | .member (.MemberS3 value) =>
    flattenMember diags m value c.flattenS3 (fun m l => { m with S3 := l })
  | .other typeName => (m, unsupportedConfigurationType diags typeName)

/-! ## Single-block models and payload conversion of a member -/

/-- One block of a `flowNodeConfigurationModel` together with the single element it holds. -/
inductive FlowNodeBlock (P : FlowNodePayloads) where
  | prompt (x : P.promptFlowNodeConfigurationModel)
  | lambda (x : P.lambdaFunctionFlowNodeConfigurationModel)
  | knowledge_base (x : P.knowledgeBaseFlowNodeConfigurationModel)
  | condition (x : P.conditionFlowNodeConfigurationModel)
  | agent (x : P.agentFlowNodeConfigurationModel)
  | input (x : P.inputFlowNodeConfigurationModel)
  | output (x : P.outputFlowNodeConfigurationModel)
  | retrieval (x : P.retrievalFlowNodeConfigurationModel)

/-- The `tfsdk` name of a block. -/
def FlowNodeBlock.name {P : FlowNodePayloads} : FlowNodeBlock P → String
  | .prompt _ => "prompt"
  | .lambda _ => "lambda"
  | .knowledge_base _ => "knowledge_base"
  | .condition _ => "condition"
  | .agent _ => "agent"
  | .input _ => "input"
  | .output _ => "output"
  | .retrieval _ => "retrieval"

/-- The Go type name of a union member. -/
def FlowNodeConfiguration.memberName {P : FlowNodePayloads} : FlowNodeConfiguration P → String
  | .MemberPrompt _ => "FlowNodeConfigurationMemberPrompt"
  | .MemberLambdaFunction _ => "FlowNodeConfigurationMemberLambdaFunction"
  | .MemberKnowledgeBase _ => "FlowNodeConfigurationMemberKnowledgeBase"
  | .MemberCondition _ => "FlowNodeConfigurationMemberCondition"
  | .MemberAgent _ => "FlowNodeConfigurationMemberAgent"
  | .MemberInput _ => "FlowNodeConfigurationMemberInput"
  | .MemberOutput _ => "FlowNodeConfigurationMemberOutput"
  | .MemberRetrieval _ => "FlowNodeConfigurationMemberRetrieval"

/-- The correspondence between block names and union members that the specification
states. -/
def memberNamedAfter : String → Option String
  | "prompt" => some "FlowNodeConfigurationMemberPrompt"
  | "lambda" => some "FlowNodeConfigurationMemberLambdaFunction"
  | "knowledge_base" => some "FlowNodeConfigurationMemberKnowledgeBase"
  | "condition" => some "FlowNodeConfigurationMemberCondition"
  | "agent" => some "FlowNodeConfigurationMemberAgent"
  | "input" => some "FlowNodeConfigurationMemberInput"
  | "output" => some "FlowNodeConfigurationMemberOutput"
  | "retrieval" => some "FlowNodeConfigurationMemberRetrieval"
  | _ => none

/-- The model in which exactly the given block is non-null, holding exactly the given
element, and the other seven blocks are null. -/
def flowNodeConfigurationModel.single {P : FlowNodePayloads} :
    FlowNodeBlock P → flowNodeConfigurationModel P
  | .prompt x => { flowNodeConfigurationModel.empty P with Prompt := .known [x] }
  | .lambda x => { flowNodeConfigurationModel.empty P with Lambda := .known [x] }
  | .knowledge_base x => { flowNodeConfigurationModel.empty P with KnowledgeBase := .known [x] }
  | .condition x => { flowNodeConfigurationModel.empty P with Condition := .known [x] }
  | .agent x => { flowNodeConfigurationModel.empty P with Agent := .known [x] }
  | .input x => { flowNodeConfigurationModel.empty P with Input := .known [x] }
  | .output x => { flowNodeConfigurationModel.empty P with Output := .known [x] }
  | .retrieval x => { flowNodeConfigurationModel.empty P with Retrieval := .known [x] }

/-- The payload converter applied to the element of a block: the member of the block's
variant holding the expanded payload, and the converter's diagnostics. -/
def FlowNodeConverters.expandPayload {P : FlowNodePayloads} (c : FlowNodeConverters P) :
    FlowNodeBlock P → FlowNodeConfiguration P × Diagnostics
  | .prompt x => (.MemberPrompt (c.expandPrompt (some x)).1, (c.expandPrompt (some x)).2)
  | .lambda x => (.MemberLambdaFunction (c.expandLambda (some x)).1, (c.expandLambda (some x)).2)
  | .knowledge_base x =>
    (.MemberKnowledgeBase (c.expandKnowledgeBase (some x)).1, (c.expandKnowledgeBase (some x)).2)
  | .condition x =>
    (.MemberCondition (c.expandCondition (some x)).1, (c.expandCondition (some x)).2)
  | .agent x => (.MemberAgent (c.expandAgent (some x)).1, (c.expandAgent (some x)).2)
  | .input x => (.MemberInput (c.expandInput (some x)).1, (c.expandInput (some x)).2)
  | .output x => (.MemberOutput (c.expandOutput (some x)).1, (c.expandOutput (some x)).2)
  | .retrieval x =>
    (.MemberRetrieval (c.expandRetrieval (some x)).1, (c.expandRetrieval (some x)).2)

/-- The payload converter applied to the payload of a member: the block of the member's
variant holding the flattened payload, and the converter's diagnostics. -/
def FlowNodeConverters.flattenPayload {P : FlowNodePayloads} (c : FlowNodeConverters P) :
    FlowNodeConfiguration P → FlowNodeBlock P × Diagnostics
  | .MemberPrompt w => (.prompt (c.flattenPrompt w).1, (c.flattenPrompt w).2)
  | .MemberLambdaFunction w => (.lambda (c.flattenLambda w).1, (c.flattenLambda w).2)
  | .MemberKnowledgeBase w =>
    (.knowledge_base (c.flattenKnowledgeBase w).1, (c.flattenKnowledgeBase w).2)
  | .MemberCondition w => (.condition (c.flattenCondition w).1, (c.flattenCondition w).2)
  | .MemberAgent w => (.agent (c.flattenAgent w).1, (c.flattenAgent w).2)
  | .MemberInput w => (.input (c.flattenInput w).1, (c.flattenInput w).2)
  | .MemberOutput w => (.output (c.flattenOutput w).1, (c.flattenOutput w).2)
  | .MemberRetrieval w => (.retrieval (c.flattenRetrieval w).1, (c.flattenRetrieval w).2)

/-- The model `m` with the given block assigned the one-element list of the given element
and every other block as it was. -/
def flowNodeConfigurationModel.withBlock {P : FlowNodePayloads}
    (m : flowNodeConfigurationModel P) : FlowNodeBlock P → flowNodeConfigurationModel P
  | .prompt x => { m with Prompt := .known [x] }
  | .lambda x => { m with Lambda := .known [x] }
  | .knowledge_base x => { m with KnowledgeBase := .known [x] }
  | .condition x => { m with Condition := .known [x] }
  | .agent x => { m with Agent := .known [x] }
  | .input x => { m with Input := .known [x] }
  | .output x => { m with Output := .known [x] }
  | .retrieval x => { m with Retrieval := .known [x] }

/-! ## A concrete instance of the payload converters

The prompt block is instantiated with its `source_configuration` block, whose conversion is
delegated to the `Expand` and `Flatten` methods of `promptFlowNodeSourceConfigurationModel`
(flow.go:935 registers the model as `fwflex.Expander` and `fwflex.Flattener`). All other
payloads are plain strings (an ARN, an identifier, a bucket name) or empty structs. -/

/-- A string payload, converted from the model: a nil pointer gives the zero value. -/
def expandString (data : Option String) : String × Diagnostics :=
  (data.getD "", [])

/-- A string payload, converted to the model. -/
def flattenString (value : String) : String × Diagnostics :=
  (value, [])

/-- A payload without fields, converted from the model. -/
def expandUnit (_ : Option Unit) : Unit × Diagnostics :=
  ((), [])

/-- A payload without fields, converted to the model. -/
def flattenUnit (_ : Unit) : Unit × Diagnostics :=
  ((), [])

/-- Payloads of the prompt-source union: `model_id` for inline, `prompt_arn` for resource. -/
def examplePromptSourcePayloads : PromptSourcePayloads :=
  ⟨String, String, String, String⟩

/-- Converters of the example prompt-source payloads. -/
def examplePromptSourceConverters : PromptSourceConverters examplePromptSourcePayloads :=
  ⟨expandString, expandString, flattenString, flattenString⟩

/-- Modelled from the spec: `fwflex.Expand` (internal/framework/flex) is not among the
embedded sources. On the `source_configuration` block of a prompt payload it takes the single
element of the block and converts it through the element's own `Expand` method, passing on
its diagnostics; a nil pointer or a null block gives a nil union value. -/
def expandSourceConfiguration {Q : PromptSourcePayloads} (c : PromptSourceConverters Q)
    (data : Option (ListNestedObjectValueOf (promptFlowNodeSourceConfigurationModel Q))) :
    Option (PromptFlowNodeSourceConfiguration Q) × Diagnostics :=
  match data with
  | none => (none, [])
  | some block =>
    let (src, d) := block.ToPtr
    if Diagnostics.HasError d then (none, d)
    else
      match src with
      | none => (none, d)
      | some model =>
        let r := promptFlowNodeSourceConfigurationModel.Expand c model
        (r.1, Diagnostics.Append d r.2)

/-- Modelled from the spec: `fwflex.Flatten` (internal/framework/flex) is not among the
embedded sources. On the `SourceConfiguration` union of a prompt payload it flattens the
member into a fresh model through the model's own `Flatten` method and stores that model as
the single element of the block; a nil union value gives a null block. -/
def flattenSourceConfiguration {Q : PromptSourcePayloads} (c : PromptSourceConverters Q)
    (value : Option (PromptFlowNodeSourceConfiguration Q)) :
    ListNestedObjectValueOf (promptFlowNodeSourceConfigurationModel Q) × Diagnostics :=
  match value with
  | none => (.null, [])
  | some v =>
    let r := promptFlowNodeSourceConfigurationModel.Flatten c
      (promptFlowNodeSourceConfigurationModel.empty Q) (.member v)
    (NewListNestedObjectValueOfPtrMust r.1, r.2)

/-- Payloads of the example node-configuration union. -/
def examplePayloads : FlowNodePayloads where
  PromptFlowNodeConfiguration :=
    Option (PromptFlowNodeSourceConfiguration examplePromptSourcePayloads)
  LambdaFunctionFlowNodeConfiguration := String
  KnowledgeBaseFlowNodeConfiguration := String
  ConditionFlowNodeConfiguration := String
  AgentFlowNodeConfiguration := String
  InputFlowNodeConfiguration := Unit
  OutputFlowNodeConfiguration := Unit
  RetrievalFlowNodeConfiguration := String
  promptFlowNodeConfigurationModel :=
    ListNestedObjectValueOf (promptFlowNodeSourceConfigurationModel examplePromptSourcePayloads)
  lambdaFunctionFlowNodeConfigurationModel := String
  knowledgeBaseFlowNodeConfigurationModel := String
  conditionFlowNodeConfigurationModel := String
  agentFlowNodeConfigurationModel := String
  inputFlowNodeConfigurationModel := Unit
  outputFlowNodeConfigurationModel := Unit
  retrievalFlowNodeConfigurationModel := String

/-- Converters of the example node-configuration payloads. -/
def exampleConverters : FlowNodeConverters examplePayloads where
  expandPrompt := expandSourceConfiguration examplePromptSourceConverters
  expandLambda := expandString
  expandKnowledgeBase := expandString
  expandCondition := expandString
  expandAgent := expandString
  expandInput := expandUnit
  expandOutput := expandUnit
  expandRetrieval := expandString
  flattenPrompt := flattenSourceConfiguration examplePromptSourceConverters
  flattenLambda := flattenString
  flattenKnowledgeBase := flattenString
  flattenCondition := flattenString
  flattenAgent := flattenString
  flattenInput := flattenUnit
  flattenOutput := flattenUnit
  flattenRetrieval := flattenString

/-- Payloads of the example connection union: the condition name, and the pair
`source_output`, `target_input`. -/
def exampleConnectionPayloads : FlowConnectionPayloads :=
  ⟨String, String × String, String, String × String⟩

/-- Converters of the example connection payloads. -/
def exampleConnectionConverters : FlowConnectionConverters exampleConnectionPayloads where
  expandConditional := expandString
  expandData := fun data => (data.getD ("", ""), [])
  flattenConditional := flattenString
  flattenData := fun value => (value, [])

/-- Converters of the example retrieval-service payload, the bucket name. -/
def exampleRetrievalConverters : RetrievalServiceConverters String String :=
  ⟨expandString, flattenString⟩

/-! ## The flow schema and its validators

The schema of `resourceFlow.Schema` is embedded as a table with one entry per block, in the
order of the source. Validation is the host framework's: its path expressions, its walk over
the configuration and its `ExactlyOneOf` validator are described here as far as the schema
uses them. -/

/-- A step of a path or of a path expression: an attribute or block name, a list index, or
(in expressions only) the step to the parent. -/
inductive Step where
  | AttributeName (name : String)
  | ElementKeyInt (index : Nat)
  | Parent
  deriving DecidableEq, Repr

/-- A path expression (`path.Expression`): whether it starts at the root, and its steps. -/
structure Expression where
  root : Bool
  steps : List Step
  deriving DecidableEq, Repr

/-- `path.MatchRelative()`. -/
def MatchRelative : Expression := ⟨false, []⟩

/-- `path.MatchRoot(name)`. -/
def MatchRoot (name : String) : Expression := ⟨true, [.AttributeName name]⟩

/-- `e.AtParent()`. -/
def Expression.AtParent (e : Expression) : Expression :=
  { e with steps := e.steps ++ [.Parent] }

/-- `e.AtName(name)`. -/
def Expression.AtName (e : Expression) (name : String) : Expression :=
  { e with steps := e.steps ++ [.AttributeName name] }

/-- `e.AtListIndex(index)`. -/
def Expression.AtListIndex (e : Expression) (index : Nat) : Expression :=
  { e with steps := e.steps ++ [.ElementKeyInt index] }

/-- `e.Merge(other)`: the steps of `other` are added to those of `e`, unless `other` is a
root expression, which replaces `e`. -/
def Expression.Merge (e other : Expression) : Expression :=
  if other.root then other else { e with steps := e.steps ++ other.steps }

/-- `e.MergeExpressions(others...)`. -/
def Expression.MergeExpressions (e : Expression) (others : List Expression) :
    List Expression :=
  others.map e.Merge

/-- `steps.Resolve()`: a parent step removes the step before it. -/
def resolveSteps (steps : List Step) : List Step :=
  steps.foldl (fun acc st =>
    match st with
    | .Parent => acc.dropLast
    | other => acc ++ [other]) []

/-- `e.Resolve()`. -/
def Expression.Resolve (e : Expression) : Expression :=
  { e with steps := resolveSteps e.steps }

/-- The printed form of a step. -/
def Step.render : Step → String
  | .AttributeName name => "." ++ name
  | .ElementKeyInt index => "[" ++ toString index ++ "]"
  | .Parent => ".<"

/-- The printed form of an expression. -/
def Expression.render (e : Expression) : String :=
  String.join (e.steps.map Step.render)

/-- A list validator of a block (`listvalidator.*`). -/
inductive ListValidator where
  | SizeAtMost (max : Nat)
  | SizeAtLeast (min : Nat)
  | SizeBetween (min max : Nat)
  | IsRequired
  | ExactlyOneOf (expressions : List Expression)
  deriving DecidableEq, Repr

/-- An object validator of a block's nested object (`objectvalidator.*`). -/
inductive ObjectValidator where
  | ExactlyOneOf (expressions : List Expression)
  deriving DecidableEq, Repr

/-- One `schema.ListNestedBlock` of the schema: the names of the blocks leading to it from
the root (its own name last), its list validators, the attribute names of its nested object
and the object validators of its nested object. -/
structure BlockDecl where
  path : List String
  Validators : List ListValidator
  Attributes : List String
  ObjectValidators : List ObjectValidator
  deriving DecidableEq, Repr

/-- A schema: the attribute names of the root object and the table of blocks. -/
structure Schema where
  Attributes : List String
  Blocks : List BlockDecl
  deriving Repr

/-- The `ExactlyOneOf` of the node `configuration` block (flow.go:481). -/
def nodeConfigurationExactlyOneOf : ObjectValidator :=
  .ExactlyOneOf [
    MatchRelative.AtParent.AtName "prompt",
    MatchRelative.AtParent.AtName "lambda",
    MatchRelative.AtParent.AtName "knowledge_base",
    MatchRelative.AtParent.AtName "condition",
    MatchRelative.AtParent.AtName "agent",
    MatchRelative.AtParent.AtName "input",
    MatchRelative.AtParent.AtName "output",
    MatchRelative.AtParent.AtName "retrieval"]

/-- The `ExactlyOneOf` of the `source_configuration` block (flow.go:170). -/
def sourceConfigurationExactlyOneOf : ObjectValidator :=
  .ExactlyOneOf [
    MatchRelative.AtParent.AtName "inline",
    MatchRelative.AtParent.AtName "resource"]

/-- The `ExactlyOneOf` of the connection `configuration` block (flow.go:583). -/
def connectionConfigurationExactlyOneOf : ObjectValidator :=
  .ExactlyOneOf [
    MatchRelative.AtParent.AtName "conditional",
    MatchRelative.AtParent.AtName "data"]

/-- Path of the node `configuration` block. -/
def nodeConfigurationBlock : List String := ["definition", "nodes", "configuration"]

/-- Path of the prompt `source_configuration` block. -/
def sourceConfigurationBlock : List String :=
  nodeConfigurationBlock ++ ["prompt", "source_configuration"]

/-- Path of the connection `configuration` block. -/
def connectionConfigurationBlock : List String := ["definition", "connections", "configuration"]

/-- The sibling expressions `path.MatchRelative().AtParent().AtName(name)` of a list-level
`ExactlyOneOf`. -/
def siblings (names : List String) : List Expression :=
  names.map (fun n => MatchRelative.AtParent.AtName n)

/-- The function `templateConfigurationBlock` (schema_blocks.go:23): the
`template_configuration` block and the blocks below it, as entries of the table, for a block
that is mounted in the nested object reached by `base`. -/
def templateConfigurationBlock (base : List String) : List BlockDecl :=
  let tc := base ++ ["template_configuration"]
  let chat := tc ++ ["chat"]
  let tool := chat ++ ["tool_configuration", "tool"]
  let choice := chat ++ ["tool_configuration", "tool_choice"]
  [ ⟨tc, [.SizeAtMost 1], [], []⟩,
    ⟨chat, [.SizeAtMost 1, .ExactlyOneOf (siblings ["chat", "text"])], [], []⟩,
    ⟨chat ++ ["input_variable"], [.SizeBetween 0 20], ["name"], []⟩,
    ⟨chat ++ ["message"], [.IsRequired, .SizeAtLeast 1], ["role"], []⟩,
    ⟨chat ++ ["message", "content"], [.SizeAtMost 1], ["text"], []⟩,
    ⟨chat ++ ["message", "content", "cache_point"],
      [.SizeAtMost 1, .ExactlyOneOf (siblings ["cache_point", "text"])], ["type"], []⟩,
    ⟨chat ++ ["system"], [], ["text"], []⟩,
    ⟨chat ++ ["system", "cache_point"],
      [.ExactlyOneOf (siblings ["cache_point", "text"]), .SizeAtMost 1], ["type"], []⟩,
    ⟨chat ++ ["tool_configuration"], [.SizeAtMost 1], [], []⟩,
    ⟨tool, [], [], []⟩,
    ⟨tool ++ ["cache_point"],
      [.SizeAtMost 1, .ExactlyOneOf (siblings ["cache_point", "tool_spec"])], ["type"], []⟩,
    ⟨tool ++ ["tool_spec"], [.SizeAtMost 1], ["description", "name"], []⟩,
    ⟨tool ++ ["tool_spec", "input_schema"], [.SizeAtMost 1], ["json"], []⟩,
    ⟨choice, [.SizeAtMost 1], [], []⟩,
    ⟨choice ++ ["any"], [.SizeAtMost 1, .ExactlyOneOf (siblings ["any", "auto", "tool"])],
      [], []⟩,
    ⟨choice ++ ["auto"], [.SizeAtMost 1], [], []⟩,
    ⟨choice ++ ["tool"], [.SizeAtMost 1], ["name"], []⟩,
    ⟨tc ++ ["text"], [.SizeAtMost 1], ["text"], []⟩,
    ⟨tc ++ ["text", "cache_point"], [.SizeAtMost 1], ["type"], []⟩,
    ⟨tc ++ ["text", "input_variable"], [], ["name"], []⟩ ]

/-- The function `inferenceConfigurationBlock` (schema_blocks.go:298). -/
def inferenceConfigurationBlock (base : List String) : List BlockDecl :=
  let ic := base ++ ["inference_configuration"]
  [ ⟨ic, [.SizeAtMost 1], [], []⟩,
    ⟨ic ++ ["text"], [.SizeAtMost 1, .ExactlyOneOf (siblings ["text"])],
      ["max_tokens", "stop_sequences", "temperature", "top_p"], []⟩ ]

/-- The blocks of `resourceFlow.Schema` (flow.go:90-602), in source order; the two blocks of
`inline` that are built by `templateConfigurationBlock` and `inferenceConfigurationBlock`
come with the blocks below them. -/
def flowSchemaBlocks : List BlockDecl :=
  let kb := nodeConfigurationBlock ++ ["knowledge_base"]
  let text := ["max_tokens", "stop_sequences", "temperature", "top_p"]
  [ ⟨["definition"], [.SizeAtMost 1], [], []⟩,
    ⟨["definition", "nodes"], [], ["name", "type"], []⟩,
    ⟨nodeConfigurationBlock, [.SizeAtMost 1], [], [nodeConfigurationExactlyOneOf]⟩,
    ⟨nodeConfigurationBlock ++ ["prompt"], [.SizeAtMost 1], [], []⟩,
    ⟨sourceConfigurationBlock, [.SizeAtMost 1], [], [sourceConfigurationExactlyOneOf]⟩,
    ⟨sourceConfigurationBlock ++ ["inline"], [.SizeAtMost 1],
      ["model_id", "template_type", "additional_model_request_fields"], []⟩ ] ++
  templateConfigurationBlock (sourceConfigurationBlock ++ ["inline"]) ++
  inferenceConfigurationBlock (sourceConfigurationBlock ++ ["inline"]) ++
  [ ⟨sourceConfigurationBlock ++ ["resource"], [.SizeAtMost 1], ["prompt_arn"], []⟩,
    ⟨nodeConfigurationBlock ++ ["prompt", "guardrail_configuration"], [.SizeAtMost 1],
      ["guardrail_identifier", "guardrail_version"], []⟩,
    ⟨nodeConfigurationBlock ++ ["lambda"], [.SizeAtMost 1], ["lambda_arn"], []⟩,
    ⟨kb, [.SizeAtMost 1], ["knowledge_base_id", "model_id", "number_of_results"], []⟩,
    ⟨kb ++ ["guardrail_configuration"], [.SizeAtMost 1],
      ["guardrail_identifier", "guardrail_version"], []⟩,
    ⟨kb ++ ["inference_configuration"], [.SizeAtMost 1], [], []⟩,
    ⟨kb ++ ["inference_configuration", "text"], [.SizeAtMost 1], text, []⟩,
    ⟨kb ++ ["orchestration_configuration"], [.SizeAtMost 1],
      ["additional_model_request_fields"], []⟩,
    ⟨kb ++ ["orchestration_configuration", "inference_config"], [.SizeAtMost 1], [], []⟩,
    ⟨kb ++ ["orchestration_configuration", "inference_config", "text"], [.SizeAtMost 1],
      text, []⟩,
    ⟨kb ++ ["orchestration_configuration", "performance_config"], [.SizeAtMost 1],
      ["latency"], []⟩,
    ⟨kb ++ ["orchestration_configuration", "prompt_template"], [.SizeAtMost 1],
      ["text_prompt_template"], []⟩,
    ⟨kb ++ ["prompt_template"], [.SizeAtMost 1], ["text_prompt_template"], []⟩,
    ⟨kb ++ ["reranking_configuration"], [.SizeAtMost 1], ["type"], []⟩,
    ⟨kb ++ ["reranking_configuration", "bedrock_reranking_configuration"], [.SizeAtMost 1],
      ["number_of_reranked_results"], []⟩,
    ⟨kb ++ ["reranking_configuration", "bedrock_reranking_configuration",
      "model_configuration"], [.SizeAtMost 1], [], []⟩,
    ⟨kb ++ ["reranking_configuration", "bedrock_reranking_configuration",
      "metadata_configuration"], [.SizeAtMost 1], [], []⟩,
    ⟨nodeConfigurationBlock ++ ["condition"], [.SizeAtMost 1], [], []⟩,
    ⟨nodeConfigurationBlock ++ ["condition", "conditions"], [], ["name", "expression"], []⟩,
    ⟨nodeConfigurationBlock ++ ["agent"], [.SizeAtMost 1], ["agent_alias_arn"], []⟩,
    ⟨nodeConfigurationBlock ++ ["input"], [.SizeAtMost 1], [], []⟩,
    ⟨nodeConfigurationBlock ++ ["output"], [.SizeAtMost 1], [], []⟩,
    ⟨nodeConfigurationBlock ++ ["retrieval"], [.SizeAtMost 1], [], []⟩,
    ⟨nodeConfigurationBlock ++ ["retrieval", "service_configuration"], [.SizeAtMost 1], [], []⟩,
    ⟨nodeConfigurationBlock ++ ["retrieval", "service_configuration", "s3"], [.SizeAtMost 1],
      ["bucket_name"], []⟩,
    ⟨["definition", "nodes", "inputs"], [], ["name", "type", "category", "expression"], []⟩,
    ⟨["definition", "nodes", "outputs"], [], ["name", "type"], []⟩,
    ⟨["definition", "connections"], [], ["name", "source", "target", "type"], []⟩,
    ⟨connectionConfigurationBlock, [.SizeAtMost 1], [], [connectionConfigurationExactlyOneOf]⟩,
    ⟨connectionConfigurationBlock ++ ["conditional"], [.SizeAtMost 1], ["condition"], []⟩,
    ⟨connectionConfigurationBlock ++ ["data"], [.SizeAtMost 1],
      ["source_output", "target_input"], []⟩ ]

/-- The schema of the flow resource (flow.go:62). -/
def flowSchema : Schema where
  Attributes := ["arn", "description", "id", "name", "execution_role_arn",
    "customer_encryption_key_arn", "tags", "tags_all"]
  Blocks := flowSchemaBlocks

/-- The declaration of the block with the given path. -/
def Schema.block? (s : Schema) (path : List String) : Option BlockDecl :=
  s.Blocks.find? (fun b => b.path == path)

/-- The attribute names of the object reached by the given block path (the root for the
empty path). -/
def Schema.attributesAt (s : Schema) (path : List String) : List String :=
  if path.isEmpty then s.Attributes
  else match s.block? path with
    | some b => b.Attributes
    | none => []

/-- Where a path has arrived in the schema: at the nested object of a block (the root object
for the empty block path), at the list of a block, or at an attribute. -/
inductive SchemaPos where
  | object (block : List String)
  | list (block : List String)
  | attribute
  deriving DecidableEq, Repr

/-- One step through the types of the schema: a name applies to an object and leads to the
block or attribute of that name, an index applies to a list and leads to its nested object;
nothing else applies. -/
def Schema.applyStep (s : Schema) : SchemaPos → Step → Option SchemaPos
  | .object block, .AttributeName name =>
    if (s.block? (block ++ [name])).isSome then some (.list (block ++ [name]))
    else if (s.attributesAt block).contains name then some .attribute
    else none
  | .list block, .ElementKeyInt _ => some (.object block)
  | _, _ => none

/-- All steps of a path apply to the schema, starting from the given position. -/
def Schema.applySteps (s : Schema) : SchemaPos → List Step → Bool
  | _, [] => true
  | pos, st :: rest =>
    match s.applyStep pos st with
    | some next => s.applySteps next rest
    | none => false

/-- `Data.ValidPathExpression`: the resolved steps of the expression can be applied to the
type of the schema. -/
def Schema.ValidPathExpression (s : Schema) (e : Expression) : Bool :=
  s.applySteps (.object []) e.Resolve.steps

/-- A configuration value: null, unknown, a string, a list, or an object with named
fields. A block that is not configured is null. -/
inductive Value where
  | null
  | unknown
  | string (s : String)
  | list (elements : List Value)
  | object (fields : List (String × Value))

/-- `v.IsNull()`. -/
def Value.IsNull : Value → Bool
  | .null => true
  | _ => false

/-- `v.IsUnknown()`. -/
def Value.IsUnknown : Value → Bool
  | .unknown => true
  | _ => false

/-- The value one step below a value. -/
def Value.child : Value → Step → Option Value
  | .object fields, .AttributeName name => fields.lookup name
  | .list elements, .ElementKeyInt index => elements[index]?
  | _, _ => none

/-- The walk of `Data.PathMatches` along the steps of a resolved expression: the full path
when the configuration holds it; the path of a null or unknown parent when the walk meets
one; nothing when a step leads nowhere. `done` are the steps taken so far. -/
def walkMatches : Value → List Step → List Step → List (List Step)
  | _, done, [] => [done]
  | v, done, st :: rest =>
    if v.IsNull || v.IsUnknown then [done]
    else match v.child st with
      | some c => walkMatches c (done ++ [st]) rest
      | none => []

/-- `Data.PathMatches`: an expression that cannot be applied to the schema gives an error
diagnostic and no path; otherwise the paths found by the walk. -/
def PathMatches (s : Schema) (config : Value) (e : Expression) :
    List (List Step) × Diagnostics :=
  if !s.ValidPathExpression e then
    ([], [⟨Severity.Error, "Invalid Configuration Path Expression for Schema",
      "Path Expression: " ++ e.render⟩])
  else (walkMatches config [] e.Resolve.steps, [])

/-- `Config.GetAttribute`: the value at a path. -/
def GetAttribute : Value → List Step → Option Value
  | v, [] => some v
  | v, st :: rest =>
    match v.child st with
    | some c => GetAttribute c rest
    | none => none

/-- The state of the loop of the `ExactlyOneOf` validator: the number of non-null values
counted, the diagnostics so far, and whether validation was put off because a value is
unknown. -/
structure ExactlyOneOfState where
  count : Nat
  diags : Diagnostics
  delayed : Bool

/-- The inner loop of the `ExactlyOneOf` validator over the matched paths of one
expression. -/
def exactlyOneOfPaths (config : Value) (reqPath : List Step) :
    ExactlyOneOfState → List (List Step) → ExactlyOneOfState
  | st, [] => st
  | st, mp :: rest =>
    if st.delayed then st
    else if mp == reqPath then exactlyOneOfPaths config reqPath st rest
    else match GetAttribute config mp with
      | none =>
        let diags := Diagnostics.AddError st.diags "Value Read Error"
          (String.join (mp.map Step.render))
        exactlyOneOfPaths config reqPath { st with diags := diags } rest
      | some v =>
        if v.IsUnknown then { st with delayed := true }
        else if !v.IsNull then
          exactlyOneOfPaths config reqPath { st with count := st.count + 1 } rest
        else exactlyOneOfPaths config reqPath st rest

/-- The outer loop of the `ExactlyOneOf` validator over the merged expressions. -/
def exactlyOneOfExpressions (s : Schema) (config : Value) (reqPath : List Step) :
    ExactlyOneOfState → List Expression → ExactlyOneOfState
  | st, [] => st
  | st, e :: rest =>
    if st.delayed then st
    else
      let (matched, d) := PathMatches s config e
      let st := { st with diags := Diagnostics.Append st.diags d }
      if Diagnostics.HasError d then exactlyOneOfExpressions s config reqPath st rest
      else
        exactlyOneOfExpressions s config reqPath
          (exactlyOneOfPaths config reqPath st matched) rest

/-- The `ExactlyOneOf` validator of the framework's validator library, run for the value
`reqValue` at `reqPath`: nothing when the value is unknown; otherwise the value counts when
it is not null, every other matched path counts when its value is not null, and a count
other than one is an error. Diagnostics of the path matching are kept. -/
def ExactlyOneOf.Validate (s : Schema) (config : Value) (reqPath : List Step)
    (reqValue : Value) (expressions : List Expression) : Diagnostics :=
  if reqValue.IsUnknown then []
  else
    let merged := (Expression.mk true reqPath).MergeExpressions expressions
    let start : ExactlyOneOfState := ⟨if !reqValue.IsNull then 1 else 0, [], false⟩
    let final := exactlyOneOfExpressions s config reqPath start merged
    if final.delayed then final.diags
    else if final.count == 0 then
      Diagnostics.AddError final.diags "Invalid Attribute Combination"
        "No attribute specified when one (and only one) is required"
    else if final.count > 1 then
      Diagnostics.AddError final.diags "Invalid Attribute Combination"
        (toString final.count ++ " attributes specified when one (and only one) is required")
    else final.diags

/-- An object validator run for the object at `reqPath`. -/
def ObjectValidator.ValidateObject (s : Schema) (config : Value) (reqPath : List Step)
    (reqValue : Value) : ObjectValidator → Diagnostics
  | .ExactlyOneOf expressions => ExactlyOneOf.Validate s config reqPath reqValue expressions

/-- The object validators of the block `block`, run for its element at `reqPath` (the path
of the block's list followed by the index of the element), as the framework does for every
element of a configured list block. An element that the configuration does not hold is not
validated. -/
def NestedBlockObjectValidate (s : Schema) (config : Value) (block : List String)
    (reqPath : List Step) : Diagnostics :=
  match s.block? block, GetAttribute config reqPath with
  | some b, some v =>
    b.ObjectValidators.foldl
      (fun diags ov => Diagnostics.Append diags (ov.ValidateObject s config reqPath v)) []
  | _, _ => []

/-- The elements of a list value; a null or unknown value has none. -/
def Value.elements : Value → List Value
  | .list es => es
  | _ => []

/-- A list validator run for the value `reqValue` of a block at `reqPath`. The size
validators say nothing about a null or unknown value; `IsRequired` rejects a null value;
`ExactlyOneOf` is the validator shared with the object validators. -/
def ListValidator.ValidateList (s : Schema) (config : Value) (reqPath : List Step)
    (reqValue : Value) : ListValidator → Diagnostics
  | .SizeAtMost max =>
    if reqValue.IsNull || reqValue.IsUnknown then []
    else if reqValue.elements.length > max then
      [⟨Severity.Error, "Invalid Attribute Value",
        "list must contain at most " ++ toString max ++ " elements"⟩]
    else []
  | .SizeAtLeast min =>
    if reqValue.IsNull || reqValue.IsUnknown then []
    else if reqValue.elements.length < min then
      [⟨Severity.Error, "Invalid Attribute Value",
        "list must contain at least " ++ toString min ++ " elements"⟩]
    else []
  | .SizeBetween min max =>
    if reqValue.IsNull || reqValue.IsUnknown then []
    else if reqValue.elements.length < min || reqValue.elements.length > max then
      [⟨Severity.Error, "Invalid Attribute Value",
        "list must contain at least " ++ toString min ++ " elements and at most " ++
          toString max ++ " elements"⟩]
    else []
  | .IsRequired =>
    if reqValue.IsNull then
      [⟨Severity.Error, "Missing Attribute Value", "must have a configuration value"⟩]
    else []
  | .ExactlyOneOf expressions => ExactlyOneOf.Validate s config reqPath reqValue expressions

/-- The list validators of the block `block`, run for the value of the block at `reqPath`,
as the framework does for every block of a configured object, null blocks included. A
value that the configuration does not hold is not validated. -/
def BlockValidate (s : Schema) (config : Value) (block : List String) (reqPath : List Step) :
    Diagnostics :=
  match s.block? block, GetAttribute config reqPath with
  | some b, some v =>
    b.Validators.foldl
      (fun diags lv => Diagnostics.Append diags (lv.ValidateList s config reqPath v)) []
  | _, _ => []

/-- The value of a block: null when the block is not configured, else the list of its
elements. -/
def blockValue : Option (List Value) → Value
  | none => .null
  | some es => .list es

/-- A schema whose root holds the block built by `templateConfigurationBlock`. -/
def templateSchema : Schema := ⟨[], templateConfigurationBlock []⟩

/-- A configuration of `templateSchema` with one `template_configuration` element, holding
the given `chat` and `text` blocks. -/
def templateConfigurationConfig (chat text : Option (List Value)) : Value :=
  .object [("template_configuration",
    .list [.object [("chat", blockValue chat), ("text", blockValue text)]])]

/-- The path of a member block of the first `template_configuration` element. -/
def templateMemberPath (name : String) : List Step :=
  [.AttributeName "template_configuration", .ElementKeyInt 0, .AttributeName name]

/-- The validation of the member blocks of a `template_configuration` element: the list
validators of `chat` and of `text`, each run for the value of its block. -/
def validateTemplateConfiguration (chat text : Option (List Value)) : Diagnostics :=
  Diagnostics.Append
    (BlockValidate templateSchema (templateConfigurationConfig chat text)
      ["template_configuration", "chat"] (templateMemberPath "chat"))
    (BlockValidate templateSchema (templateConfigurationConfig chat text)
      ["template_configuration", "text"] (templateMemberPath "text"))

/-- A configuration of `templateSchema` whose `chat` block has one element, holding the
given `input_variable` and `message` blocks. -/
def chatTemplateConfig (inputVariable message : Option (List Value)) : Value :=
  .object [("template_configuration",
    .list [.object [
      ("chat", .list [.object [("input_variable", blockValue inputVariable),
        ("message", blockValue message), ("system", .null), ("tool_configuration", .null)]]),
      ("text", .null)]])]

/-- The path of a block of the first `chat` element. -/
def chatMemberPath (name : String) : List Step :=
  templateMemberPath "chat" ++ [.ElementKeyInt 0, .AttributeName name]

/-- The blocks declared directly in the nested object of the block `block`. -/
def Schema.childBlocks (s : Schema) (block : List String) : List BlockDecl :=
  s.Blocks.filter (fun b => !b.path.isEmpty && b.path.dropLast == block)

/-- The length of the longest block path of the schema. -/
def Schema.depth (s : Schema) : Nat :=
  (s.Blocks.map (fun b => b.path.length)).foldl max 0

/-- The validation of a list block and of everything below it, as the framework runs it:
the list validators of the block, then for every element of a configured list the object
validators of the nested object and the validation of each block declared in it. `fuel`
bounds the depth of nesting. Validators of attributes are left out: they add diagnostics
and remove none. -/
def ValidateBlockTree (s : Schema) (config : Value) :
    Nat → List String → List Step → Diagnostics
  | 0, _, _ => []
  | fuel + 1, block, reqPath =>
    match GetAttribute config reqPath with
    | some (.list es) =>
      (List.range es.length).foldl
        (fun diags i =>
          (s.childBlocks block).foldl
            (fun diags b =>
              Diagnostics.Append diags
                (ValidateBlockTree s config fuel b.path
                  (reqPath ++ [.ElementKeyInt i, .AttributeName (b.path.getLastD "")])))
            (Diagnostics.Append diags
              (NestedBlockObjectValidate s config block (reqPath ++ [.ElementKeyInt i]))))
        (BlockValidate s config block reqPath)
    | _ => BlockValidate s config block reqPath

/-- The validation of the `template_configuration` block of `templateSchema` and of
everything below it. -/
def validateTemplateConfigurationTree (config : Value) : Diagnostics :=
  ValidateBlockTree templateSchema config (templateSchema.depth + 1)
    ["template_configuration"] [.AttributeName "template_configuration"]

/-- An element of the `text` block with its `text` attribute set and none of its blocks
configured. -/
def exampleTextElement : Value :=
  .object [("text", .string "Hello"), ("cache_point", .null), ("input_variable", .null)]

/-- An element of the `chat` block with none of its blocks configured. -/
def emptyChatElement : Value :=
  .object [("input_variable", .null), ("message", .null), ("system", .null),
    ("tool_configuration", .null)]

/-- The path of element `k` of the `configuration` block of node `i`. -/
def nodeConfigurationPath (i k : Nat) : List Step :=
  [.AttributeName "definition", .ElementKeyInt 0, .AttributeName "nodes", .ElementKeyInt i,
    .AttributeName "configuration", .ElementKeyInt k]

/-- The path of element `k` of the `configuration` block of connection `i`. -/
def connectionConfigurationPath (i k : Nat) : List Step :=
  [.AttributeName "definition", .ElementKeyInt 0, .AttributeName "connections",
    .ElementKeyInt i, .AttributeName "configuration", .ElementKeyInt k]

/-- The path of element `k` of the `source_configuration` block of the prompt of node `i`. -/
def sourceConfigurationPath (i k : Nat) : List Step :=
  nodeConfigurationPath i 0 ++ [.AttributeName "prompt", .ElementKeyInt 0,
    .AttributeName "source_configuration", .ElementKeyInt k]

/-- A node `configuration` object with all eight member blocks null except those given. -/
def nodeConfigurationObject (present : List (String × Value)) : Value :=
  .object (["prompt", "lambda", "knowledge_base", "condition", "agent", "input", "output",
    "retrieval"].map (fun n => (n, (present.lookup n).getD .null)))

/-- The configuration of the acceptance test `testAccFlowConfig_definition`
(flow_test.go:473), with the given `configuration` object in its first node. -/
def testAccFlowConfig_definition (firstNodeConfiguration : Value) : Value :=
  .object [
    ("name", .string "tf-acc-test"),
    ("description", .string "Test flow with definition"),
    ("execution_role_arn", .string "arn:aws:iam::123456789012:role/tf-acc-test"),
    ("definition", .list [.object [
      ("nodes", .list [
        .object [("name", .string "input"), ("type", .string "INPUT"),
          ("configuration", .list [firstNodeConfiguration]),
          ("inputs", .null),
          ("outputs", .list [.object [("name", .string "output"), ("type", .string "TEXT")]])],
        .object [("name", .string "output"), ("type", .string "OUTPUT"),
          ("configuration", .list [nodeConfigurationObject [("output", .list [.object []])]]),
          ("inputs", .list [.object [("name", .string "input"), ("type", .string "TEXT"),
            ("category", .null), ("expression", .null)]]),
          ("outputs", .null)]]),
      ("connections", .list [
        .object [("name", .string "connection1"), ("source", .string "input"),
          ("target", .string "output"), ("type", .string "DATA"),
          ("configuration", .list [.object [
            ("conditional", .null),
            ("data", .list [.object [("source_output", .string "output"),
              ("target_input", .string "input")]])]])]])]])]

/-! ## Errors, finder, status function and waiters -/

/-- The request `bedrockagent.GetFlowInput`. -/
structure GetFlowInput where
  FlowIdentifier : String
  deriving DecidableEq, Repr

/-- The request `bedrockagent.DeleteFlowInput`. -/
structure DeleteFlowInput where
  FlowIdentifier : Option String
  deriving DecidableEq, Repr

/-- The response `bedrockagent.GetFlowOutput`, of which the resource reads the status (a
string type in the API) besides the fields the reflective flattener copies. -/
structure GetFlowOutput where
  Id : String
  Name : String
  Status : String
  deriving DecidableEq, Repr

/-- Go error values as the flow resource meets them. `Wrapped` is any error that wraps
another one (the API client wraps service errors in operation errors); `Other` is an error
of a type the resource does not look for. The last five are the error types of the retry
helper and of `tfresource`. -/
inductive GoError where
  | ResourceNotFoundException (Message : String)
  | Other (text : String)
  | Wrapped (text : String) (err : GoError)
  | NotFoundError (LastError : GoError) (LastRequest : GetFlowInput)
  | NotFoundErrorRetries (Retries : Nat)
  | EmptyResultError (LastRequest : GetFlowInput)
  | UnexpectedStateError (State : String) (ExpectedState : List String)
  | TimeoutError (LastState : String) (ExpectedState : List String)
  deriving DecidableEq, Repr

/-- `errs.IsA[*awstypes.ResourceNotFoundException](err)`: the error, or one it wraps, is a
`ResourceNotFoundException` (Go `errors.As` along the `Unwrap` chain). -/
def IsAResourceNotFoundException : GoError → Bool
  | .ResourceNotFoundException _ => true
  | .Wrapped _ err => IsAResourceNotFoundException err
  | .NotFoundError last _ => IsAResourceNotFoundException last
  | _ => false

/-- Modelled from the spec: `tfresource.NotFound` (internal/tfresource) is not among the
embedded sources. It reports a "resource not found" condition: the error, or one it wraps,
is a `retry.NotFoundError`, or is the empty-result error, which presents itself as one. -/
def NotFoundErr : GoError → Bool
  | .NotFoundError _ _ => true
  | .NotFoundErrorRetries _ => true
  | .EmptyResultError _ => true
  | .Wrapped _ err => NotFoundErr err
  | _ => false

/-- `tfresource.NotFound(err)` for an error value that may be nil. -/
def NotFound : Option GoError → Bool
  | some err => NotFoundErr err
  | none => false

/-- Modelled from the spec: `tfresource.NewEmptyResultError(&input)`. -/
def NewEmptyResultError (input : GetFlowInput) : GoError :=
  .EmptyResultError input

/-- The API client as far as the flow resource calls it at one moment: the result pair
`(out, err)` of `conn.GetFlow(ctx, &input)`. -/
abbrev GetFlowAPI := GetFlowInput → Option GetFlowOutput × Option GoError

/-- The function `findFlowByID` (flow.go:861). -/
def findFlowByID (conn : GetFlowAPI) (id : String) : Option GetFlowOutput × Option GoError :=
  let input : GetFlowInput := ⟨id⟩
  let (out, err) := conn input
  match err with
  | some e =>
    if IsAResourceNotFoundException e then
      (none, some (.NotFoundError e input))
    else
      (none, some e)
  | none =>
    match out with
    | none => (none, some (NewEmptyResultError input))
    | some o => (some o, none)

/-- What a `retry.StateRefreshFunc` returns: the result, the state string and the error. -/
structure RefreshResult where
  Result : Option GetFlowOutput
  State : String
  Error : Option GoError
  deriving DecidableEq, Repr

/-- The closure returned by `statusFlow` (flow.go:846), called once. The last case, a nil
output with a nil error, does not arise from `findFlowByID`; Go would dereference nil
there. -/
def statusFlow (conn : GetFlowAPI) (id : String) : RefreshResult :=
  let (out, err) := findFlowByID conn id
  if NotFound err then ⟨none, "", none⟩
  else
    match err, out with
    | some e, _ => ⟨none, "", some e⟩
    | none, some o => ⟨some o, o.Status, none⟩
    | none, none => ⟨none, "", none⟩

/-- The constant `statusChangePending`. -/
def statusChangePending : String := "PENDING"

/-- The constant `statusDeleting`. -/
def statusDeleting : String := "DELETING"

/-- The constant `statusNormal`. -/
def statusNormal : String := "ACTIVE"

/-- The constant `statusUpdated`. -/
def statusUpdated : String := "ACTIVE"

/-- The fields of `retry.StateChangeConf` that the waiters set, with the defaults the retry
helper substitutes for zero (`NotFoundChecks` 20, `ContinuousTargetOccurence` 1) applied by
`StateChangeConf.normalize`. `Refresh` and `Timeout` are given to the wait as the sequence
of refresh results received before the timeout. -/
structure StateChangeConf where
  Pending : List String
  Target : List String
  NotFoundChecks : Nat
  ContinuousTargetOccurence : Nat
  deriving DecidableEq, Repr

/-- The defaults of `WaitForStateContext` for unset counters. -/
def StateChangeConf.normalize (conf : StateChangeConf) : StateChangeConf :=
  { conf with
    NotFoundChecks := if conf.NotFoundChecks == 0 then 20 else conf.NotFoundChecks
    ContinuousTargetOccurence :=
      if conf.ContinuousTargetOccurence == 0 then 1 else conf.ContinuousTargetOccurence }

/-- The counters of the refresh loop and the last result received. -/
structure WaitState where
  notfoundTick : Nat
  targetOccurence : Nat
  lastState : String
  deriving DecidableEq, Repr

/-- The loop over `conf.Target` for a found resource: every entry equal to the current state
increments `targetOccurence`, and the wait is done as soon as it reaches
`ContinuousTargetOccurence`. Returns the counter and whether the wait is done, and whether
the state was found. -/
def targetLoop (conf : StateChangeConf) (currentState : String) :
    List String → Nat → Bool → Nat × Bool × Bool
  | [], occ, found => (occ, false, found)
  | allowed :: rest, occ, found =>
    if currentState == allowed then
      if conf.ContinuousTargetOccurence == occ + 1 then (occ + 1, true, true)
      else targetLoop conf currentState rest (occ + 1) true
    else targetLoop conf currentState rest occ found

/-- The refresh loop of `StateChangeConf.WaitForStateContext` of the retry helper, run over
the refresh results received before the timeout, in order. A refresh error ends the wait
with that error. A nil result with an empty target counts as a target occurrence. A nil
result otherwise counts as not found, and more than `NotFoundChecks` of them in a row are an
error. A found result is matched against `Target`, then against `Pending`, which resets the
target counter; a state in neither is an error when `Pending` is not empty. When the results
run out the wait times out. -/
def waitLoop (conf : StateChangeConf) :
    WaitState → List RefreshResult → Option GetFlowOutput × Option GoError
  | st, [] => (none, some (.TimeoutError st.lastState conf.Target))
  | st, r :: rest =>
    match r.Error with
    | some e => (r.Result, some e)
    | none =>
      if r.Result.isNone && conf.Target.isEmpty then
        if conf.ContinuousTargetOccurence == st.targetOccurence + 1 then (r.Result, none)
        else waitLoop conf
          { st with targetOccurence := st.targetOccurence + 1, lastState := r.State } rest
      else if r.Result.isNone then
        if st.notfoundTick + 1 > conf.NotFoundChecks then
          (r.Result, some (.NotFoundErrorRetries (st.notfoundTick + 1)))
        else waitLoop conf
          { st with notfoundTick := st.notfoundTick + 1, lastState := r.State } rest
      else
        let (occ, done, foundTarget) := targetLoop conf r.State conf.Target st.targetOccurence false
        if done then (r.Result, none)
        else
          let inPending := conf.Pending.contains r.State
          let occ := if inPending then 0 else occ
          if !(foundTarget || inPending) && !conf.Pending.isEmpty then
            (r.Result, some (.UnexpectedStateError r.State conf.Target))
          else waitLoop conf ⟨0, occ, r.State⟩ rest

/-- `stateConf.WaitForStateContext(ctx)`. -/
def StateChangeConf.WaitForStateContext (conf : StateChangeConf)
    (refreshes : List RefreshResult) : Option GetFlowOutput × Option GoError :=
  waitLoop conf.normalize ⟨0, 0, ""⟩ refreshes

/-- The end of every waiter: `if out, ok := outputRaw.(*bedrockagent.GetFlowOutput); ok
{ return out, err }; return nil, err`. The raw result of the wait is what the refresh
function returned, a `*GetFlowOutput` or nil; the assertion fails on nil. -/
def outputAsGetFlowOutput (outputRaw : Option GetFlowOutput) (err : Option GoError) :
    Option GetFlowOutput × Option GoError :=
  match outputRaw with
  | some out => (some out, err)
  | none => (none, err)

/-- The function `waitFlowCreated` (flow.go:794); `polls` is the API as seen by each refresh
before the timeout. -/
def waitFlowCreated (polls : List GetFlowAPI) (id : String) :
    Option GetFlowOutput × Option GoError :=
  let stateConf : StateChangeConf :=
    { Pending := [], Target := [statusNormal], NotFoundChecks := 20,
      ContinuousTargetOccurence := 2 }
  let (outputRaw, err) := stateConf.WaitForStateContext (polls.map (fun conn => statusFlow conn id))
  outputAsGetFlowOutput outputRaw err

/-- The function `waitFlowUpdated` (flow.go:812). -/
def waitFlowUpdated (polls : List GetFlowAPI) (id : String) :
    Option GetFlowOutput × Option GoError :=
  let stateConf : StateChangeConf :=
    { Pending := [statusChangePending], Target := [statusUpdated], NotFoundChecks := 20,
      ContinuousTargetOccurence := 2 }
  let (outputRaw, err) := stateConf.WaitForStateContext (polls.map (fun conn => statusFlow conn id))
  outputAsGetFlowOutput outputRaw err

/-- The function `waitFlowDeleted` (flow.go:830). -/
def waitFlowDeleted (polls : List GetFlowAPI) (id : String) :
    Option GetFlowOutput × Option GoError :=
  let stateConf : StateChangeConf :=
    { Pending := [statusDeleting, statusNormal], Target := [], NotFoundChecks := 0,
      ContinuousTargetOccurence := 0 }
  let (outputRaw, err) := stateConf.WaitForStateContext (polls.map (fun conn => statusFlow conn id))
  outputAsGetFlowOutput outputRaw err

/-- The configuration of the deletion waiter after the defaults are applied. -/
def deletedConf : StateChangeConf :=
  ⟨[statusDeleting, statusNormal], [], 20, 1⟩

/-- The configuration of the creation waiter after the defaults are applied. -/
def createdConf : StateChangeConf :=
  ⟨[], [statusNormal], 20, 2⟩

/-- A refresh result that reports a found flow in status ACTIVE. -/
def RefreshResult.isActive (r : RefreshResult) : Bool :=
  r.Error.isNone && r.Result.isSome && r.State == statusNormal

/-! ## The resource model and the Read and Delete handlers -/

/-- A framework string value (`types.String`): null, unknown or known. -/
inductive TypesString where
  | null
  | unknown
  | value (s : String)
  deriving DecidableEq, Repr

/-- `v.ValueString()`: the known string, the empty string for null and unknown. -/
def TypesString.ValueString : TypesString → String
  | .value s => s
  | _ => ""

/-- `v.ValueStringPointer()`: nil for null, else a pointer to the value string. -/
def TypesString.ValueStringPointer : TypesString → Option String
  | .null => none
  | .unknown => some ""
  | .value s => some s

/-- The value of the `timeouts` block: the configured durations, in seconds. -/
structure TimeoutsValue where
  Create : Option Nat
  Update : Option Nat
  Delete : Option Nat
  deriving DecidableEq, Repr

/-- The struct `resourceFlowModel` (flow.go:885); `D` is `flowDefinitionModel`. -/
structure resourceFlowModel (D : Type) where
  ARN : TypesString
  Definition : ListNestedObjectValueOf D
  Description : TypesString
  ID : TypesString
  Name : TypesString
  ExecutionRoleArn : TypesString
  CustomerEncryptionKeyArn : TypesString
  Tags : Option (List (String × String))
  TagsAll : Option (List (String × String))
  Timeouts : TimeoutsValue

/-- The actions named in error summaries (`create.ErrAction*`). -/
inductive ErrAction where
  | ErrActionCreating
  | ErrActionReading
  | ErrActionUpdating
  | ErrActionDeleting
  | ErrActionWaitingForCreation
  | ErrActionWaitingForUpdate
  | ErrActionWaitingForDeletion
  deriving DecidableEq, Repr

/-- The texts the handlers put into diagnostics, produced outside the embedded sources:
`create.ProblemStandardMessage(names.BedrockAgent, action, ResNameFlow, id, err)` with the
printed identifier given as the value it is printed from, and `err.Error()`. -/
structure Messages where
  ProblemStandardMessage : ErrAction → TypesString → Option GoError → String
  Error : GoError → String

/-- Modelled from the spec: `fwdiag.NewResourceNotFoundWarningDiagnostic(err)`
(internal/errs/fwdiag) is not among the embedded sources; it is the warning that a resource
was not found during refresh and is removed from state. -/
def NewResourceNotFoundWarningDiagnostic (msgs : Messages) (err : Option GoError) :
    Diagnostic :=
  ⟨Severity.Warning, "AWS resource not found during refresh",
    "Automatically removing from Terraform State instead of returning the error, " ++
    "which may trigger resource recreation. Original error: " ++
    (match err with
     | some e => msgs.Error e
     | none => "")⟩

/-- A handler's response: its diagnostics and its state, `none` once the resource has been
removed from state. -/
structure Response (M : Type) where
  Diagnostics : Diagnostics
  State : Option M

/-- What a handler does to the outside, in order. -/
inductive Call where
  | PlanGet
  | StateGet
  | FlexExpand
  | FlexFlatten
  | FlexDiff
  | FindFlowByID (id : String)
  | CreateFlow
  | UpdateFlow
  | DeleteFlow (input : DeleteFlowInput)
  | WaitFlowCreated (id : String)
  | WaitFlowUpdated (id : String)
  | WaitFlowDeleted (id : String)
  | StateRemoveResource
  | StateSet
  deriving DecidableEq, Repr

/-- The method `resourceFlow.Read` (flow.go:657). `stateGet` is the model and diagnostics
of `req.State.Get`, `conn` the API, `flatten` is `flex.Flatten(ctx, out, &state)` and
`stateSet` the diagnostics of `resp.State.Set`, which stores the model unless it reports an
error. The result is the response and the calls made. -/
def Read {D : Type} (msgs : Messages)
    (stateGet : resourceFlowModel D × Diagnostics) (conn : GetFlowAPI)
    (flatten : Option GetFlowOutput → resourceFlowModel D → resourceFlowModel D × Diagnostics)
    (stateSet : resourceFlowModel D → Diagnostics)
    (resp : Response (resourceFlowModel D)) :
    Response (resourceFlowModel D) × List Call :=
  let state := stateGet.1
  let resp := { resp with Diagnostics := Diagnostics.Append resp.Diagnostics stateGet.2 }
  let calls := [Call.StateGet]
  if Diagnostics.HasError resp.Diagnostics then (resp, calls)
  else
    let (out, err) := findFlowByID conn state.ID.ValueString
    let calls := calls ++ [Call.FindFlowByID state.ID.ValueString]
    if NotFound err then
      let diags :=
        Diagnostics.Append resp.Diagnostics [NewResourceNotFoundWarningDiagnostic msgs err]
      let resp := { resp with Diagnostics := diags }
      let resp := { resp with State := none }
      (resp, calls ++ [Call.StateRemoveResource])
    else
      match err with
      | some e =>
        let diags := Diagnostics.AddError resp.Diagnostics
          (msgs.ProblemStandardMessage .ErrActionReading state.ID (some e)) (msgs.Error e)
        ({ resp with Diagnostics := diags }, calls)
      | none =>
        let (state, d) := flatten out state
        let resp := { resp with Diagnostics := Diagnostics.Append resp.Diagnostics d }
        let calls := calls ++ [Call.FlexFlatten]
        if Diagnostics.HasError resp.Diagnostics then (resp, calls)
        else
          let d := stateSet state
          let resp : Response (resourceFlowModel D) :=
            { Diagnostics := Diagnostics.Append resp.Diagnostics d
              State := if Diagnostics.HasError d then resp.State else some state }
          (resp, calls ++ [Call.StateSet])

/-- The method `resourceFlow.Delete` (flow.go:746). `deleteFlow` is the error of
`conn.DeleteFlow(ctx, &input)` and `polls` is the API as seen by each refresh of the
deletion waiter before the delete timeout. -/
def Delete {D : Type} (msgs : Messages)
    (stateGet : resourceFlowModel D × Diagnostics)
    (deleteFlow : DeleteFlowInput → Option GoError) (polls : List GetFlowAPI)
    (resp : Response (resourceFlowModel D)) :
    Response (resourceFlowModel D) × List Call :=
  let state := stateGet.1
  let resp := { resp with Diagnostics := Diagnostics.Append resp.Diagnostics stateGet.2 }
  let calls := [Call.StateGet]
  if Diagnostics.HasError resp.Diagnostics then (resp, calls)
  else
    let input : DeleteFlowInput := ⟨state.ID.ValueStringPointer⟩
    let err := deleteFlow input
    let calls := calls ++ [Call.DeleteFlow input]
    match err with
    | some e =>
      if IsAResourceNotFoundException e then (resp, calls)
      else
        let diags := Diagnostics.AddError resp.Diagnostics
          (msgs.ProblemStandardMessage .ErrActionDeleting state.ID (some e)) (msgs.Error e)
        ({ resp with Diagnostics := diags }, calls)
    | none =>
      let (_, err) := waitFlowDeleted polls state.ID.ValueString
      let calls := calls ++ [Call.WaitFlowDeleted state.ID.ValueString]
      match err with
      | some e =>
        let diags := Diagnostics.AddError resp.Diagnostics
          (msgs.ProblemStandardMessage .ErrActionWaitingForDeletion state.ID (some e))
          (msgs.Error e)
        ({ resp with Diagnostics := diags }, calls)
      | none => (resp, calls)

/-- Whether a call is a run of the deletion waiter. -/
def Call.isWaitFlowDeleted : Call → Bool
  | .WaitFlowDeleted _ => true
  | _ => false

/-- Example texts. -/
def exampleMessages : Messages where
  ProblemStandardMessage := fun _ id _ => "problem with Bedrock Agent Flow " ++ id.ValueString
  Error := fun e =>
    match e with
    | .ResourceNotFoundException m => "ResourceNotFoundException: " ++ m
    | .Other t => t
    | _ => "error"

/-- An example state: a flow with identifier `FLOW123456`. -/
def exampleState : resourceFlowModel Unit where
  ARN := .value "arn:aws:bedrock:us-west-2:123456789012:flow/FLOW123456"
  Definition := .null
  Description := .null
  ID := .value "FLOW123456"
  Name := .value "tf-acc-test"
  ExecutionRoleArn := .value "arn:aws:iam::123456789012:role/tf-acc-test"
  CustomerEncryptionKeyArn := .null
  Tags := none
  TagsAll := none
  Timeouts := ⟨none, none, none⟩

/-- An API that answers `GetFlow` with a flow in the given status. -/
def apiWithStatus (status : String) : GetFlowAPI :=
  fun input => (some ⟨input.FlowIdentifier, "tf-acc-test", status⟩, none)

/-- An API that answers `GetFlow` with the given error. -/
def apiWithError (err : GoError) : GetFlowAPI :=
  fun _ => (none, some err)

/-- The service error for a flow that does not exist, as the client returns it. -/
def flowNotFoundError : GoError :=
  .Wrapped "operation error Bedrock Agent: GetFlow"
    (.ResourceNotFoundException "flow not found")

/-- A flattener of the read output that copies the name. -/
def exampleFlatten (out : Option GetFlowOutput) (m : resourceFlowModel Unit) :
    resourceFlowModel Unit × Diagnostics :=
  match out with
  | some o => ({ m with Name := .value o.Name }, [])
  | none => (m, [])

/-! ## The Create and Update handlers -/

/-- The method `resourceFlow.Create` (flow.go:606). `planGet` is the model and diagnostics
of `req.Plan.Get`, `expand` is `flex.Expand(ctx, plan, &input)`, `getTagsIn` the assignment
`input.Tags = getTagsIn(ctx)`, `createFlow` the result pair of `conn.CreateFlow`, `flatten`
is `flex.Flatten(ctx, out, &plan)`, `polls` is the API as seen by each refresh of the
creation waiter before the create timeout, and `stateSet` the diagnostics of
`resp.State.Set`, which stores the model unless it reports an error. -/
def Create {D I O : Type} (msgs : Messages)
    (planGet : resourceFlowModel D × Diagnostics)
    (expand : resourceFlowModel D → I × Diagnostics) (getTagsIn : I → I)
    (createFlow : I → Option O × Option GoError)
    (flatten : O → resourceFlowModel D → resourceFlowModel D × Diagnostics)
    (polls : List GetFlowAPI) (stateSet : resourceFlowModel D → Diagnostics)
    (resp : Response (resourceFlowModel D)) :
    Response (resourceFlowModel D) × List Call :=
  let plan := planGet.1
  let resp := { resp with Diagnostics := Diagnostics.Append resp.Diagnostics planGet.2 }
  let calls := [Call.PlanGet]
  if Diagnostics.HasError resp.Diagnostics then (resp, calls)
  else
    let (input, d) := expand plan
    let resp := { resp with Diagnostics := Diagnostics.Append resp.Diagnostics d }
    let calls := calls ++ [Call.FlexExpand]
    if Diagnostics.HasError resp.Diagnostics then (resp, calls)
    else
      let input := getTagsIn input
      let (out, err) := createFlow input
      let calls := calls ++ [Call.CreateFlow]
      match err with
      | some e =>
        let diags := Diagnostics.AddError resp.Diagnostics
          (msgs.ProblemStandardMessage .ErrActionCreating plan.Name (some e)) (msgs.Error e)
        ({ resp with Diagnostics := diags }, calls)
      | none =>
        match out with
        | none =>
          let diags := Diagnostics.AddError resp.Diagnostics
            (msgs.ProblemStandardMessage .ErrActionCreating plan.Name none) "empty output"
          ({ resp with Diagnostics := diags }, calls)
        | some o =>
          let (plan, d) := flatten o plan
          let resp := { resp with Diagnostics := Diagnostics.Append resp.Diagnostics d }
          let calls := calls ++ [Call.FlexFlatten]
          if Diagnostics.HasError resp.Diagnostics then (resp, calls)
          else
            let (_, err) := waitFlowCreated polls plan.ID.ValueString
            let calls := calls ++ [Call.WaitFlowCreated plan.ID.ValueString]
            match err with
            | some e =>
              let diags := Diagnostics.AddError resp.Diagnostics
                (msgs.ProblemStandardMessage .ErrActionWaitingForCreation plan.Name (some e))
                (msgs.Error e)
              ({ resp with Diagnostics := diags }, calls)
            | none =>
              let d := stateSet plan
              let resp : Response (resourceFlowModel D) :=
                { Diagnostics := Diagnostics.Append resp.Diagnostics d
                  State := if Diagnostics.HasError d then resp.State else some plan }
              (resp, calls ++ [Call.StateSet])

/-- The part of `resourceFlow.Update` inside `if diff.HasChanges()` (flow.go:704): either
the response and calls with which `Update` returns, or the response, calls and plan with
which it goes on. -/
def updateChanges {D I O : Type} (msgs : Messages) (plan : resourceFlowModel D)
    (expand : resourceFlowModel D → I × Diagnostics)
    (updateFlow : I → Option O × Option GoError)
    (flatten : O → resourceFlowModel D → resourceFlowModel D × Diagnostics)
    (resp : Response (resourceFlowModel D)) (calls : List Call) :
    (Response (resourceFlowModel D) × List Call) ⊕
      (Response (resourceFlowModel D) × List Call × resourceFlowModel D) :=
  let (input, d) := expand plan
  let resp := { resp with Diagnostics := Diagnostics.Append resp.Diagnostics d }
  let calls := calls ++ [Call.FlexExpand]
  if Diagnostics.HasError resp.Diagnostics then .inl (resp, calls)
  else
    let (out, err) := updateFlow input
    let calls := calls ++ [Call.UpdateFlow]
    match err with
    | some e =>
      let diags := Diagnostics.AddError resp.Diagnostics
        (msgs.ProblemStandardMessage .ErrActionUpdating plan.ID (some e)) (msgs.Error e)
      .inl ({ resp with Diagnostics := diags }, calls)
    | none =>
      match out with
      | none =>
        let diags := Diagnostics.AddError resp.Diagnostics
          (msgs.ProblemStandardMessage .ErrActionUpdating plan.ID none) "empty output"
        .inl ({ resp with Diagnostics := diags }, calls)
      | some o =>
        let (plan, d) := flatten o plan
        let resp := { resp with Diagnostics := Diagnostics.Append resp.Diagnostics d }
        let calls := calls ++ [Call.FlexFlatten]
        if Diagnostics.HasError resp.Diagnostics then .inl (resp, calls)
        else .inr (resp, calls, plan)

/-- The end of `resourceFlow.Update`, from the call of `waitFlowUpdated` on (flow.go:733). -/
def updateWait {D : Type} (msgs : Messages) (plan : resourceFlowModel D)
    (polls : List GetFlowAPI) (stateSet : resourceFlowModel D → Diagnostics)
    (resp : Response (resourceFlowModel D)) (calls : List Call) :
    Response (resourceFlowModel D) × List Call :=
  let (_, err) := waitFlowUpdated polls plan.ID.ValueString
  let calls := calls ++ [Call.WaitFlowUpdated plan.ID.ValueString]
  match err with
  | some e =>
    let diags := Diagnostics.AddError resp.Diagnostics
      (msgs.ProblemStandardMessage .ErrActionWaitingForUpdate plan.ID (some e)) (msgs.Error e)
    ({ resp with Diagnostics := diags }, calls)
  | none =>
    let d := stateSet plan
    let resp : Response (resourceFlowModel D) :=
      { Diagnostics := Diagnostics.Append resp.Diagnostics d
        State := if Diagnostics.HasError d then resp.State else some plan }
    (resp, calls ++ [Call.StateSet])

/-- The method `resourceFlow.Update` (flow.go:688). `diff` gives `diff.HasChanges()` and
the diagnostics of `flex.Diff(ctx, plan, state)`; `updateFlow` is the result pair of
`conn.UpdateFlow`; the other parameters are as for `Create`. -/
def Update {D I O : Type} (msgs : Messages)
    (planGet stateGet : resourceFlowModel D × Diagnostics)
    (diff : resourceFlowModel D → resourceFlowModel D → Bool × Diagnostics)
    (expand : resourceFlowModel D → I × Diagnostics)
    (updateFlow : I → Option O × Option GoError)
    (flatten : O → resourceFlowModel D → resourceFlowModel D × Diagnostics)
    (polls : List GetFlowAPI) (stateSet : resourceFlowModel D → Diagnostics)
    (resp : Response (resourceFlowModel D)) :
    Response (resourceFlowModel D) × List Call :=
  let plan := planGet.1
  let state := stateGet.1
  let resp := { resp with Diagnostics := Diagnostics.Append resp.Diagnostics planGet.2 }
  let resp := { resp with Diagnostics := Diagnostics.Append resp.Diagnostics stateGet.2 }
  let calls := [Call.PlanGet, Call.StateGet]
  if Diagnostics.HasError resp.Diagnostics then (resp, calls)
  else
    let (hasChanges, d) := diff plan state
    let resp := { resp with Diagnostics := Diagnostics.Append resp.Diagnostics d }
    let calls := calls ++ [Call.FlexDiff]
    if Diagnostics.HasError resp.Diagnostics then (resp, calls)
    else if hasChanges then
      match updateChanges msgs plan expand updateFlow flatten resp calls with
      | .inl returned => returned
      | .inr (resp, calls, plan) => updateWait msgs plan polls stateSet resp calls
    else updateWait msgs plan polls stateSet resp calls

/-- Whether a call is a run of the update waiter. -/
def Call.isWaitFlowUpdated : Call → Bool
  | .WaitFlowUpdated _ => true
  | _ => false

/-- An example plan: the example state with a new description. -/
def examplePlan : resourceFlowModel Unit :=
  { exampleState with Description := .value "Updated description" }

/-- A difference of plan and state by their descriptions. -/
def exampleDiff (plan state : resourceFlowModel Unit) : Bool × Diagnostics :=
  (plan.Description != state.Description, [])

/-- An expander of the example plan to a request that carries the description. -/
def exampleExpand (plan : resourceFlowModel Unit) : String × Diagnostics :=
  (plan.Description.ValueString, [])

/-- A flattener of a create or update output, which carries the identifier. -/
def exampleFlattenId (out : String) (plan : resourceFlowModel Unit) :
    resourceFlowModel Unit × Diagnostics :=
  ({ plan with ID := .value out }, [])

/-- A comparison of plan and state that looks at every field but `Tags` and `TagsAll`, which
the resource leaves to the tagging of the provider (`@Tags(identifierAttribute="arn")`,
flow.go:42). -/
def diffIgnoringTags (plan state : resourceFlowModel Unit) : Bool × Diagnostics :=
  (plan.ARN != state.ARN || plan.Definition != state.Definition ||
    plan.Description != state.Description || plan.ID != state.ID ||
    plan.Name != state.Name || plan.ExecutionRoleArn != state.ExecutionRoleArn ||
    plan.CustomerEncryptionKeyArn != state.CustomerEncryptionKeyArn ||
    plan.Timeouts != state.Timeouts, [])

/-- An example plan: the example state with a tag added. -/
def planWithNewTags : resourceFlowModel Unit :=
  { exampleState with Tags := some [("Environment", "test")] }

/-- Every step of `Create` before the write of the state succeeds: reading the plan and
expanding it report no error, `CreateFlow` returns a non-nil output and no error, flattening
that output into the plan reports no error, and `waitFlowCreated` returns no error. -/
def createStepsSucceed {D I O : Type}
    (planGet : resourceFlowModel D × Diagnostics)
    (expand : resourceFlowModel D → I × Diagnostics) (getTagsIn : I → I)
    (createFlow : I → Option O × Option GoError)
    (flatten : O → resourceFlowModel D → resourceFlowModel D × Diagnostics)
    (polls : List GetFlowAPI) : Prop :=
  Diagnostics.HasError planGet.2 = false ∧
  Diagnostics.HasError (expand planGet.1).2 = false ∧
  ∃ o, createFlow (getTagsIn (expand planGet.1).1) = (some o, none) ∧
    Diagnostics.HasError (flatten o planGet.1).2 = false ∧
    (waitFlowCreated polls (flatten o planGet.1).1.ID.ValueString).2 = none

/-- The request of `Update` succeeds: the plan expands without error, `UpdateFlow` returns
the non-nil output `o` and no error, and `o` flattens into the plan without error. -/
def updateRequestSucceeds {D I O : Type} (plan : resourceFlowModel D)
    (expand : resourceFlowModel D → I × Diagnostics)
    (updateFlow : I → Option O × Option GoError)
    (flatten : O → resourceFlowModel D → resourceFlowModel D × Diagnostics) (o : O) : Prop :=
  Diagnostics.HasError (expand plan).2 = false ∧
  updateFlow (expand plan).1 = (some o, none) ∧
  Diagnostics.HasError (flatten o plan).2 = false

/-! ## Non-null blocks and the first non-null block of a union model -/

/-- The name of a block when it is not null. -/
def nonNullName {T : Type} (name : String) (block : ListNestedObjectValueOf T) : List String :=
  if block.IsNull then [] else [name]

/-- The names of the non-null blocks of a `flowNodeConfigurationModel`, in the order of the
struct. -/
def flowNodeConfigurationModel.nonNullBlocks {P : FlowNodePayloads}
    (m : flowNodeConfigurationModel P) : List String :=
  nonNullName "prompt" m.Prompt ++ nonNullName "lambda" m.Lambda ++
  nonNullName "knowledge_base" m.KnowledgeBase ++ nonNullName "condition" m.Condition ++
  nonNullName "agent" m.Agent ++ nonNullName "input" m.Input ++
  nonNullName "output" m.Output ++ nonNullName "retrieval" m.Retrieval

/-- The names of the non-null blocks of a `flowConnectionConfigurationModel`. -/
def flowConnectionConfigurationModel.nonNullBlocks {P : FlowConnectionPayloads}
    (m : flowConnectionConfigurationModel P) : List String :=
  nonNullName "conditional" m.Conditional ++ nonNullName "data" m.Data

/-- The names of the non-null blocks of a `promptFlowNodeSourceConfigurationModel`. -/
def promptFlowNodeSourceConfigurationModel.nonNullBlocks {P : PromptSourcePayloads}
    (m : promptFlowNodeSourceConfigurationModel P) : List String :=
  nonNullName "inline" m.Inline ++ nonNullName "resource" m.Resource

/-- The names of the non-null blocks of a `retrievalFlowNodeServiceConfigurationModel`. -/
def retrievalFlowNodeServiceConfigurationModel.nonNullBlocks {M : Type}
    (m : retrievalFlowNodeServiceConfigurationModel M) : List String :=
  nonNullName "s3" m.S3

/-- The model that keeps only the first non-null block of `m`, in the order prompt, lambda,
knowledge_base, condition, agent, input, output, retrieval, and has every other block
null. -/
def flowNodeConfigurationModel.firstNonNull {P : FlowNodePayloads}
    (m : flowNodeConfigurationModel P) : flowNodeConfigurationModel P :=
  let e := flowNodeConfigurationModel.empty P
  if !m.Prompt.IsNull then { e with Prompt := m.Prompt }
  else if !m.Lambda.IsNull then { e with Lambda := m.Lambda }
  else if !m.KnowledgeBase.IsNull then { e with KnowledgeBase := m.KnowledgeBase }
  else if !m.Condition.IsNull then { e with Condition := m.Condition }
  else if !m.Agent.IsNull then { e with Agent := m.Agent }
  else if !m.Input.IsNull then { e with Input := m.Input }
  else if !m.Output.IsNull then { e with Output := m.Output }
  else if !m.Retrieval.IsNull then { e with Retrieval := m.Retrieval }
  else e

/-- The model that keeps only the first non-null block of `m`, in the order conditional,
data. -/
def flowConnectionConfigurationModel.firstNonNull {P : FlowConnectionPayloads}
    (m : flowConnectionConfigurationModel P) : flowConnectionConfigurationModel P :=
  if !m.Conditional.IsNull then ⟨m.Conditional, .null⟩
  else if !m.Data.IsNull then ⟨.null, m.Data⟩
  else ⟨.null, .null⟩

/-- The model that keeps only the first non-null block of `m`, in the order inline,
resource. -/
def promptFlowNodeSourceConfigurationModel.firstNonNull {P : PromptSourcePayloads}
    (m : promptFlowNodeSourceConfigurationModel P) : promptFlowNodeSourceConfigurationModel P :=
  if !m.Inline.IsNull then ⟨m.Inline, .null⟩
  else if !m.Resource.IsNull then ⟨.null, m.Resource⟩
  else ⟨.null, .null⟩

/-- A `lambda` block of the example payloads. -/
def lambdaBlock : FlowNodeBlock examplePayloads := .lambda "arn:aws:lambda:fn"

/-- An `agent` block of the example payloads. -/
def agentBlock : FlowNodeBlock examplePayloads := .agent "arn:aws:bedrock:agent-alias/A1"

/-- A connection model that holds a `conditional` block and a `data` block. -/
def connectionModelBoth : flowConnectionConfigurationModel exampleConnectionPayloads :=
  ⟨.known ["HighScore"], .known [("document", "modelInput")]⟩

/-- A model that holds a `lambda` block and an `agent` block. -/
def modelLambdaAndAgent : flowNodeConfigurationModel examplePayloads :=
  (flowNodeConfigurationModel.single lambdaBlock).withBlock agentBlock

/-! ## Payloads with nested blocks: reranking model configuration and service configuration

A second instance of the payload converters. The knowledge-base payload carries the model
configuration of its Bedrock reranking configuration, whose model declares no field
(flow.go:1054); the retrieval payload carries its `service_configuration` block, whose
conversion is delegated to the `Expand` and `Flatten` methods of
`retrievalFlowNodeServiceConfigurationModel` (flow.go:1091 registers the model as
`fwflex.Expander` and `fwflex.Flattener`). -/

/-- The struct `vectorSearchBedrockRerankingModelConfigModel` (flow.go:1054): it declares no
field. -/
structure vectorSearchBedrockRerankingModelConfigModel where
  deriving DecidableEq, Repr

/-- The API type `awstypes.VectorSearchBedrockRerankingModelConfiguration`, which the comment
at flow.go:1055 names as having fields that the model is yet to declare; the model ARN stands
for them. -/
structure VectorSearchBedrockRerankingModelConfiguration where
  ModelArn : String
  deriving DecidableEq, Repr

/-- The part of `awstypes.KnowledgeBaseFlowNodeConfiguration` kept in this instance: the
knowledge base id and the model configuration of the Bedrock reranking configuration, nil
when the value has none. -/
structure KnowledgeBaseFlowNodeConfiguration where
  KnowledgeBaseId : String
  ModelConfiguration : Option VectorSearchBedrockRerankingModelConfiguration
  deriving DecidableEq, Repr

/-- The part of the struct `knowledgeBaseFlowNodeConfigurationModel` (flow.go:1014) kept in
this instance: `knowledge_base_id` and the `model_configuration` block reached through
`reranking_configuration` and `bedrock_reranking_configuration`. -/
structure knowledgeBaseFlowNodeConfigurationModel where
  KnowledgeBaseId : String
  ModelConfiguration : ListNestedObjectValueOf vectorSearchBedrockRerankingModelConfigModel
  deriving DecidableEq, Repr

/-- Modelled from the spec: `fwflex.Flatten` (internal/framework/flex) is not among the
embedded sources. On a knowledge-base payload it copies the knowledge base id and stores a
model configuration as the single element of the `model_configuration` block; the element
keeps nothing of the value, its model having no field. -/
def flattenKnowledgeBaseReranking (value : KnowledgeBaseFlowNodeConfiguration) :
    knowledgeBaseFlowNodeConfigurationModel × Diagnostics :=
  (⟨value.KnowledgeBaseId,
    match value.ModelConfiguration with
    | none => .null
    | some _ => NewListNestedObjectValueOfPtrMust ⟨⟩⟩, [])

/-- Modelled from the spec: `fwflex.Expand` (internal/framework/flex) is not among the
embedded sources. On a knowledge-base model it copies the knowledge base id and expands the
element of the `model_configuration` block, when there is one, to a model configuration with
the zero value in every field. -/
def expandKnowledgeBaseReranking (data : Option knowledgeBaseFlowNodeConfigurationModel) :
    KnowledgeBaseFlowNodeConfiguration × Diagnostics :=
  match data with
  | none => (⟨"", none⟩, [])
  | some model =>
    (⟨model.KnowledgeBaseId, model.ModelConfiguration.ToPtr.1.map (fun _ => ⟨""⟩)⟩,
      model.ModelConfiguration.ToPtr.2)

/-- Modelled from the spec: `fwflex.Expand` (internal/framework/flex) is not among the
embedded sources. On the `service_configuration` block of a retrieval payload it takes the
single element of the block and converts it through the element's own `Expand` method,
passing on its diagnostics; a nil pointer or a null block gives a nil union value.
`nilIsError` selects what the converter does when the element's `Expand` returns nil without
an error: report an error (true) or leave the union value nil (false). -/
def expandServiceConfiguration {W M : Type} (nilIsError : Bool)
    (c : RetrievalServiceConverters W M)
    (data : Option (ListNestedObjectValueOf (retrievalFlowNodeServiceConfigurationModel M))) :
    Option (RetrievalFlowNodeServiceConfiguration W) × Diagnostics :=
  match data with
  | none => (none, [])
  | some block =>
    let (elem, d) := block.ToPtr
    if Diagnostics.HasError d then (none, d)
    else
      match elem with
      | none => (none, d)
      | some model =>
        let r := retrievalFlowNodeServiceConfigurationModel.Expand c model
        let diags := Diagnostics.Append d r.2
        match r.1 with
        | some v => (some v, diags)
        | none =>
          if nilIsError && !Diagnostics.HasError diags then
            (none, Diagnostics.AddError diags "Incompatible Types"
              "Expanding retrievalFlowNodeServiceConfigurationModel returned nil.")
          else (none, diags)

/-- Modelled from the spec: `fwflex.Flatten` (internal/framework/flex) is not among the
embedded sources. On the `ServiceConfiguration` union of a retrieval payload it flattens the
member into a fresh model through the model's own `Flatten` method and stores that model as
the single element of the block; a nil union value gives a null block. -/
def flattenServiceConfiguration {W M : Type} (c : RetrievalServiceConverters W M)
    (value : Option (RetrievalFlowNodeServiceConfiguration W)) :
    ListNestedObjectValueOf (retrievalFlowNodeServiceConfigurationModel M) × Diagnostics :=
  match value with
  | none => (.null, [])
  | some v =>
    let r := retrievalFlowNodeServiceConfigurationModel.Flatten c
      (retrievalFlowNodeServiceConfigurationModel.empty M) (.member v)
    (NewListNestedObjectValueOfPtrMust r.1, r.2)

/-- Payloads of the node-configuration union with the nested knowledge-base and retrieval
payloads; the other payloads are those of `examplePayloads`. -/
def nestedPayloads : FlowNodePayloads where
  PromptFlowNodeConfiguration :=
    Option (PromptFlowNodeSourceConfiguration examplePromptSourcePayloads)
  LambdaFunctionFlowNodeConfiguration := String
  KnowledgeBaseFlowNodeConfiguration := KnowledgeBaseFlowNodeConfiguration
  ConditionFlowNodeConfiguration := String
  AgentFlowNodeConfiguration := String
  InputFlowNodeConfiguration := Unit
  OutputFlowNodeConfiguration := Unit
  RetrievalFlowNodeConfiguration := Option (RetrievalFlowNodeServiceConfiguration String)
  promptFlowNodeConfigurationModel :=
    ListNestedObjectValueOf (promptFlowNodeSourceConfigurationModel examplePromptSourcePayloads)
  lambdaFunctionFlowNodeConfigurationModel := String
  knowledgeBaseFlowNodeConfigurationModel := knowledgeBaseFlowNodeConfigurationModel
  conditionFlowNodeConfigurationModel := String
  agentFlowNodeConfigurationModel := String
  inputFlowNodeConfigurationModel := Unit
  outputFlowNodeConfigurationModel := Unit
  retrievalFlowNodeConfigurationModel :=
    ListNestedObjectValueOf (retrievalFlowNodeServiceConfigurationModel String)

/-- Converters of the nested payloads. -/
def nestedConverters (nilIsError : Bool) : FlowNodeConverters nestedPayloads where
  expandPrompt := expandSourceConfiguration examplePromptSourceConverters
  expandLambda := expandString
  expandKnowledgeBase := expandKnowledgeBaseReranking
  expandCondition := expandString
  expandAgent := expandString
  expandInput := expandUnit
  expandOutput := expandUnit
  expandRetrieval := expandServiceConfiguration nilIsError exampleRetrievalConverters
  flattenPrompt := flattenSourceConfiguration examplePromptSourceConverters
  flattenLambda := flattenString
  flattenKnowledgeBase := flattenKnowledgeBaseReranking
  flattenCondition := flattenString
  flattenAgent := flattenString
  flattenInput := flattenUnit
  flattenOutput := flattenUnit
  flattenRetrieval := flattenServiceConfiguration exampleRetrievalConverters

/-- A knowledge-base member whose reranking configuration names a reranking model. -/
def knowledgeBaseMemberWithRerankingModel : FlowNodeConfiguration nestedPayloads :=
  .MemberKnowledgeBase ⟨"KB12345678",
    some ⟨"arn:aws:bedrock:us-west-2::foundation-model/amazon.rerank-v1:0"⟩⟩

/-- The block `retrieval { service_configuration {} }`: one element whose
`service_configuration` block holds one element without an `s3` block. -/
def retrievalBlockNoS3 : FlowNodeBlock nestedPayloads :=
  .retrieval (.known [⟨.null⟩])

/-- The configuration of the acceptance test with `retrieval { service_configuration {} }`
as the `configuration` of its first node. -/
def configRetrievalNoS3 : Value :=
  testAccFlowConfig_definition (nodeConfigurationObject [("retrieval",
    .list [.object [("service_configuration", .list [.object [("s3", .null)]])]])])

/-- The validation of the `retrieval` block of the first node and of everything below it. -/
def validateRetrievalTree (config : Value) : Diagnostics :=
  ValidateBlockTree flowSchema config (flowSchema.depth + 1)
    (nodeConfigurationBlock ++ ["retrieval"])
    (nodeConfigurationPath 0 0 ++ [.AttributeName "retrieval"])

/-- Converters of the connection payloads that report no error and keep nothing of a
condition name. -/
def lossyConnectionConverters : FlowConnectionConverters exampleConnectionPayloads where
  expandConditional := fun _ => ("", [])
  expandData := fun data => (data.getD ("", ""), [])
  flattenConditional := flattenString
  flattenData := fun value => (value, [])

/-- Converters of the prompt-source payloads that report no error and keep nothing of a
prompt ARN. -/
def lossyPromptSourceConverters : PromptSourceConverters examplePromptSourcePayloads :=
  ⟨expandString, fun _ => ("", []), flattenString, flattenString⟩

/-- Converters of the retrieval-service payload that report no error and keep nothing of a
bucket name. -/
def lossyRetrievalConverters : RetrievalServiceConverters String String :=
  ⟨fun _ => ("", []), flattenString⟩

/-! ## Models and configurations for the error cases and the single-object blocks -/

/-- A node model whose `lambda` block holds two elements. -/
def modelTwoLambda : flowNodeConfigurationModel examplePayloads :=
  { flowNodeConfigurationModel.empty examplePayloads with
    Lambda := .known ["arn:aws:lambda:fn1", "arn:aws:lambda:fn2"] }

/-- Converters of the retrieval-service payload whose flattening fails. -/
def failingRetrievalConverters : RetrievalServiceConverters String String :=
  ⟨expandString, fun _ => ("", [⟨Severity.Error, "Incompatible Types", "bucket name"⟩])⟩

/-- The paths of the blocks that the `Expand` methods convert to a single object with
`ToPtr`: the eight blocks of `flowNodeConfigurationModel` (flow.go:1160-1268), the two of
`promptFlowNodeSourceConfigurationModel` (flow.go:943, 957), the one of
`retrievalFlowNodeServiceConfigurationModel` (flow.go:1099) and the two of
`flowConnectionConfigurationModel` (flow.go:1423, 1437), each under the block that holds its
model. -/
def toPtrBlocks : List (List String) :=
  ["prompt", "lambda", "knowledge_base", "condition", "agent", "input", "output",
      "retrieval"].map (fun n => nodeConfigurationBlock ++ [n]) ++
  ["inline", "resource"].map (fun n => sourceConfigurationBlock ++ [n]) ++
  [nodeConfigurationBlock ++ ["retrieval", "service_configuration", "s3"]] ++
  ["conditional", "data"].map (fun n => connectionConfigurationBlock ++ [n])

/-- The configuration of the acceptance test with two `lambda` elements in the
`configuration` of its first node. -/
def configTwoLambda : Value :=
  testAccFlowConfig_definition (nodeConfigurationObject [("lambda",
    .list [.object [("lambda_arn", .string "arn:aws:lambda:fn1")],
      .object [("lambda_arn", .string "arn:aws:lambda:fn2")]])])

/-- The configuration of the acceptance test with one `lambda` element in the
`configuration` of its first node. -/
def configOneLambda : Value :=
  testAccFlowConfig_definition (nodeConfigurationObject [("lambda",
    .list [.object [("lambda_arn", .string "arn:aws:lambda:fn1")]])])

/-! ## Lemmas on diagnostics and the shared case bodies -/

theorem Diagnostics.hasError_append_single (acc : Diagnostics) (d : Diagnostic) :
    Diagnostics.HasError (if acc.contains d then acc else acc ++ [d])
      = (Diagnostics.HasError acc || (d.Severity == Severity.Error)) := by
  by_cases h : acc.contains d = true
  · simp only [h, if_true]
    by_cases hd : (d.Severity == Severity.Error) = true
    · have : Diagnostics.HasError acc = true := by
        unfold Diagnostics.HasError
        rw [List.any_eq_true]
        exact ⟨d, by simpa using h, hd⟩
      simp [this, hd]
    · simp at hd
      simp [hd]
  · simp only [h]
    simp [Diagnostics.HasError, List.any_append]

theorem Diagnostics.hasError_Append (diags ins : Diagnostics) :
    Diagnostics.HasError (Diagnostics.Append diags ins)
      = (Diagnostics.HasError diags || Diagnostics.HasError ins) := by
  induction ins generalizing diags with
  | nil => simp [Diagnostics.Append, Diagnostics.HasError]
  | cons d rest ih =>
    have h := ih (if diags.contains d then diags else diags ++ [d])
    unfold Diagnostics.Append at h ⊢
    rw [List.foldl_cons, h, Diagnostics.hasError_append_single]
    simp [Diagnostics.HasError, Bool.or_assoc]

theorem Diagnostics.Append_nil (diags : Diagnostics) : Diagnostics.Append diags [] = diags := rfl

theorem Diagnostics.HasError_nil : Diagnostics.HasError [] = false := rfl

theorem ListNestedObjectValueOf.ToPtr_known_single {T : Type} (x : T) :
    (ListNestedObjectValueOf.known [x]).ToPtr = (some x, []) := rfl

theorem ListNestedObjectValueOf.ToPtr_null {T : Type} :
    (ListNestedObjectValueOf.null : ListNestedObjectValueOf T).ToPtr = (none, []) := rfl

/-- On a one-element block the shared `Expand` body returns the wrapped payload when the
payload converter reports no error. -/
theorem expandMember_single {M W U : Type} (x : M) (expand : Option M → W × Diagnostics)
    (mk : W → U) (h : Diagnostics.HasError (expand (some x)).2 = false) :
    expandMember [] (ListNestedObjectValueOf.known [x]) expand mk
      = (some (mk (expand (some x)).1), Diagnostics.Append [] (expand (some x)).2) := by
  have h2 : Diagnostics.HasError (Diagnostics.Append [] (expand (some x)).2) = false := by
    rw [Diagnostics.hasError_Append, h]; rfl
  simp [expandMember, ListNestedObjectValueOf.ToPtr_known_single, Diagnostics.Append_nil, h2,
    Diagnostics.HasError_nil]

/-- On a one-element block the shared `Expand` body returns nil and the diagnostics when the
payload converter reports an error. -/
theorem expandMember_single_error {M W U : Type} (x : M)
    (expand : Option M → W × Diagnostics) (mk : W → U)
    (h : Diagnostics.HasError (expand (some x)).2 = true) :
    expandMember [] (ListNestedObjectValueOf.known [x]) expand mk
      = (none, Diagnostics.Append [] (expand (some x)).2) := by
  have h2 : Diagnostics.HasError (Diagnostics.Append [] (expand (some x)).2) = true := by
    rw [Diagnostics.hasError_Append, h]; rfl
  simp [expandMember, ListNestedObjectValueOf.ToPtr_known_single, Diagnostics.Append_nil, h2,
    Diagnostics.HasError_nil]

/-- The shared `Flatten` body assigns the one-element block when the payload converter
reports no error. -/
theorem flattenMember_ok {W M S : Type} (m : S) (value : W) (flatten : W → M × Diagnostics)
    (set : S → ListNestedObjectValueOf M → S)
    (h : Diagnostics.HasError (flatten value).2 = false) :
    flattenMember [] m value flatten set
      = (set m (ListNestedObjectValueOf.known [(flatten value).1]),
          Diagnostics.Append [] (flatten value).2) := by
  have h2 : Diagnostics.HasError (Diagnostics.Append [] (flatten value).2) = false := by
    rw [Diagnostics.hasError_Append, h]; rfl
  simp [flattenMember, h2, NewListNestedObjectValueOfPtrMust]

/-- The shared `Flatten` body leaves the receiver alone when the payload converter reports an
error. -/
theorem flattenMember_error {W M S : Type} (m : S) (value : W)
    (flatten : W → M × Diagnostics) (set : S → ListNestedObjectValueOf M → S)
    (h : Diagnostics.HasError (flatten value).2 = true) :
    flattenMember [] m value flatten set = (m, Diagnostics.Append [] (flatten value).2) := by
  have h2 : Diagnostics.HasError (Diagnostics.Append [] (flatten value).2) = true := by
    rw [Diagnostics.hasError_Append, h]; rfl
  simp [flattenMember, h2]

/-- Flattening a member into the empty model sets exactly the block of the member's variant,
when the payload converter reports no error. -/
theorem flowNodeConfigurationModel.Flatten_empty {P : FlowNodePayloads}
    (c : FlowNodeConverters P) (v : FlowNodeConfiguration P)
    (h : Diagnostics.HasError (c.flattenPayload v).2 = false) :
    flowNodeConfigurationModel.Flatten c (flowNodeConfigurationModel.empty P) (.member v)
      = (flowNodeConfigurationModel.single (c.flattenPayload v).1,
          Diagnostics.Append [] (c.flattenPayload v).2) := by
  cases v <;>
    simp only [FlowNodeConverters.flattenPayload] at h <;>
    simp only [flowNodeConfigurationModel.Flatten, FlowNodeConverters.flattenPayload,
      flowNodeConfigurationModel.single, flattenMember_ok _ _ _ _ h]

/-- Expanding a single-block model gives the member of that block, when the payload
converter reports no error. -/
theorem flowNodeConfigurationModel.Expand_single {P : FlowNodePayloads}
    (c : FlowNodeConverters P) (b : FlowNodeBlock P)
    (h : Diagnostics.HasError (c.expandPayload b).2 = false) :
    flowNodeConfigurationModel.Expand c (flowNodeConfigurationModel.single b)
      = (some (c.expandPayload b).1, Diagnostics.Append [] (c.expandPayload b).2) := by
  cases b <;>
    simp only [FlowNodeConverters.expandPayload] at h <;>
    simp [flowNodeConfigurationModel.Expand, FlowNodeConverters.expandPayload,
      flowNodeConfigurationModel.single, flowNodeConfigurationModel.empty,
      ListNestedObjectValueOf.IsNull, expandMember_single _ _ _ h]

/-- Expanding a single-block model gives nil and the error, when the payload converter
reports an error. -/
theorem flowNodeConfigurationModel.Expand_single_error {P : FlowNodePayloads}
    (c : FlowNodeConverters P) (b : FlowNodeBlock P)
    (h : Diagnostics.HasError (c.expandPayload b).2 = true) :
    flowNodeConfigurationModel.Expand c (flowNodeConfigurationModel.single b)
      = (none, Diagnostics.Append [] (c.expandPayload b).2) := by
  cases b <;>
    simp only [FlowNodeConverters.expandPayload] at h <;>
    simp [flowNodeConfigurationModel.Expand, FlowNodeConverters.expandPayload,
      flowNodeConfigurationModel.single, flowNodeConfigurationModel.empty,
      ListNestedObjectValueOf.IsNull, expandMember_single_error _ _ _ h]

theorem Diagnostics.hasError_Append_nil_left (d : Diagnostics) :
    Diagnostics.HasError (Diagnostics.Append [] d) = Diagnostics.HasError d := by
  rw [Diagnostics.hasError_Append]; rfl

/-- Flattening a member into any model assigns exactly the block of the member's variant,
when the payload converter reports no error. -/
theorem flowNodeConfigurationModel.Flatten_member {P : FlowNodePayloads}
    (c : FlowNodeConverters P) (m : flowNodeConfigurationModel P) (v : FlowNodeConfiguration P)
    (h : Diagnostics.HasError (c.flattenPayload v).2 = false) :
    flowNodeConfigurationModel.Flatten c m (.member v)
      = (m.withBlock (c.flattenPayload v).1, Diagnostics.Append [] (c.flattenPayload v).2) := by
  cases v <;>
    simp only [FlowNodeConverters.flattenPayload] at h <;>
    simp only [flowNodeConfigurationModel.Flatten, FlowNodeConverters.flattenPayload,
      flowNodeConfigurationModel.withBlock, flattenMember_ok _ _ _ _ h]

theorem flowNodeConfigurationModel.withBlock_empty {P : FlowNodePayloads}
    (b : FlowNodeBlock P) :
    (flowNodeConfigurationModel.empty P).withBlock b = flowNodeConfigurationModel.single b := by
  cases b <;> rfl

theorem FlowNodeConverters.name_flattenPayload {P : FlowNodePayloads}
    (c : FlowNodeConverters P) (v : FlowNodeConfiguration P) :
    memberNamedAfter (c.flattenPayload v).1.name = some v.memberName := by
  cases v <;> rfl

theorem FlowNodeConverters.name_expandPayload {P : FlowNodePayloads}
    (c : FlowNodeConverters P) (b : FlowNodeBlock P) :
    memberNamedAfter b.name = some (c.expandPayload b).1.memberName := by
  cases b <;> rfl

/-! ## Lemmas on warnings, error counts and the schema validators -/

theorem Diagnostics.hasWarning_append_single (acc : Diagnostics) (d : Diagnostic) :
    Diagnostics.HasWarning (if acc.contains d then acc else acc ++ [d])
      = (Diagnostics.HasWarning acc || (d.Severity == Severity.Warning)) := by
  by_cases h : acc.contains d = true
  · simp only [h, if_true]
    by_cases hd : (d.Severity == Severity.Warning) = true
    · have : Diagnostics.HasWarning acc = true := by
        unfold Diagnostics.HasWarning
        rw [List.any_eq_true]
        exact ⟨d, by simpa using h, hd⟩
      simp [this, hd]
    · simp at hd
      simp [hd]
  · simp only [h]
    simp [Diagnostics.HasWarning, List.any_append]

theorem Diagnostics.hasWarning_Append (diags ins : Diagnostics) :
    Diagnostics.HasWarning (Diagnostics.Append diags ins)
      = (Diagnostics.HasWarning diags || Diagnostics.HasWarning ins) := by
  induction ins generalizing diags with
  | nil => simp [Diagnostics.Append, Diagnostics.HasWarning]
  | cons d rest ih =>
    have h := ih (if diags.contains d then diags else diags ++ [d])
    unfold Diagnostics.Append at h ⊢
    rw [List.foldl_cons, h, Diagnostics.hasWarning_append_single]
    simp [Diagnostics.HasWarning, Bool.or_assoc]

theorem Diagnostics.hasError_AddError (diags : Diagnostics) (summary detail : String) :
    Diagnostics.HasError (Diagnostics.AddError diags summary detail) = true := by
  unfold Diagnostics.AddError
  rw [Diagnostics.hasError_Append]
  simp [Diagnostics.HasError]

/-- Adding an error to diagnostics without errors gives exactly one error. -/
theorem Diagnostics.errorsCount_AddError (diags : Diagnostics) (summary detail : String)
    (h : Diagnostics.HasError diags = false) :
    Diagnostics.ErrorsCount (Diagnostics.AddError diags summary detail) = 1 := by
  have hnot : diags.contains (⟨Severity.Error, summary, detail⟩ : Diagnostic) = false := by
    by_contra hc
    simp only [Bool.not_eq_false] at hc
    have : Diagnostics.HasError diags = true := by
      unfold Diagnostics.HasError
      rw [List.any_eq_true]
      exact ⟨_, by simpa using hc, by simp⟩
    rw [h] at this
    exact Bool.noConfusion this
  have hzero : List.countP (fun d : Diagnostic => d.Severity == Severity.Error) diags = 0 := by
    rw [List.countP_eq_zero]
    intro d hd
    unfold Diagnostics.HasError at h
    rw [List.any_eq_false] at h
    exact h d hd
  simp only [Diagnostics.AddError, Diagnostics.Append, List.foldl_cons, List.foldl_nil, hnot,
    Bool.false_eq_true, if_false, Diagnostics.ErrorsCount, List.countP_append, hzero]
  simp [List.countP_cons]

theorem exactlyOneOfPaths_keeps_error (config : Value) (reqPath : List Step)
    (paths : List (List Step)) (st : ExactlyOneOfState)
    (h : Diagnostics.HasError st.diags = true) :
    Diagnostics.HasError (exactlyOneOfPaths config reqPath st paths).diags = true := by
  induction paths generalizing st with
  | nil => simpa [exactlyOneOfPaths] using h
  | cons mp rest ih =>
    unfold exactlyOneOfPaths
    split
    · exact h
    · split
      · exact ih st h
      · split
        · exact ih _ (Diagnostics.hasError_AddError _ _ _)
        · split
          · exact h
          · split
            · exact ih _ h
            · exact ih st h

theorem exactlyOneOfExpressions_keeps_error (s : Schema) (config : Value)
    (reqPath : List Step) (es : List Expression) (st : ExactlyOneOfState)
    (h : Diagnostics.HasError st.diags = true) :
    Diagnostics.HasError (exactlyOneOfExpressions s config reqPath st es).diags = true := by
  induction es generalizing st with
  | nil => simpa [exactlyOneOfExpressions] using h
  | cons e rest ih =>
    unfold exactlyOneOfExpressions
    split
    · exact h
    · have h2 : Diagnostics.HasError
          (Diagnostics.Append st.diags (PathMatches s config e).2) = true := by
        rw [Diagnostics.hasError_Append, h]; rfl
      simp only []
      split
      · exact ih _ h2
      · exact ih _ (exactlyOneOfPaths_keeps_error _ _ _ _ h2)

/-- An `ExactlyOneOf` whose first expression, merged with the path of the validated value,
cannot be applied to the schema reports an error for every value that is not unknown. -/
theorem ExactlyOneOf.Validate_invalid_expression (s : Schema) (config : Value)
    (reqPath : List Step) (reqValue : Value) (e : Expression) (rest : List Expression)
    (hv : reqValue.IsUnknown = false)
    (he : s.ValidPathExpression ((Expression.mk true reqPath).Merge e) = false) :
    Diagnostics.HasError (ExactlyOneOf.Validate s config reqPath reqValue (e :: rest))
      = true := by
  have hstep : ∀ n : Nat, Diagnostics.HasError (exactlyOneOfExpressions s config reqPath
      ⟨n, [], false⟩
      ((Expression.mk true reqPath).MergeExpressions (e :: rest))).diags = true := by
    intro n
    simp only [Expression.MergeExpressions, List.map_cons]
    unfold exactlyOneOfExpressions
    simp only [PathMatches, he, Bool.not_false, if_true]
    simp only [Bool.false_eq_true, if_false]
    have : Diagnostics.HasError [(⟨Severity.Error,
        "Invalid Configuration Path Expression for Schema",
        "Path Expression: " ++ ((Expression.mk true reqPath).Merge e).render⟩ : Diagnostic)]
        = true := rfl
    simp only [this, if_true]
    apply exactlyOneOfExpressions_keeps_error
    rw [Diagnostics.hasError_Append, this]; rfl
  unfold ExactlyOneOf.Validate
  simp only [hv, Bool.false_eq_true, if_false]
  generalize (if (!reqValue.IsNull) = true then 1 else 0) = n
  have hn := hstep n
  generalize exactlyOneOfExpressions s config reqPath ⟨n, [], false⟩
    ((Expression.mk true reqPath).MergeExpressions (e :: rest)) = final at hn ⊢
  split
  · exact hn
  · split
    · exact Diagnostics.hasError_AddError _ _ _
    · split
      · exact Diagnostics.hasError_AddError _ _ _
      · exact hn

/-- The object validators of a block that declares exactly one `ExactlyOneOf`, whose first
expression cannot be applied from the element's path, report an error for every element that
is not unknown. -/
theorem NestedBlockObjectValidate_invalid_expression (s : Schema) (config : Value)
    (block : List String) (decl : BlockDecl) (reqPath : List Step) (v : Value)
    (e : Expression) (rest : List Expression)
    (hb : s.block? block = some decl)
    (hd : decl.ObjectValidators = [.ExactlyOneOf (e :: rest)])
    (hv : GetAttribute config reqPath = some v) (hk : v.IsUnknown = false)
    (he : s.ValidPathExpression ((Expression.mk true reqPath).Merge e) = false) :
    Diagnostics.HasError (NestedBlockObjectValidate s config block reqPath) = true := by
  unfold NestedBlockObjectValidate
  rw [hv, hb]
  simp only [hd, List.foldl_cons, List.foldl_nil, Diagnostics.hasError_Append_nil_left,
    ObjectValidator.ValidateObject]
  exact ExactlyOneOf.Validate_invalid_expression _ _ _ _ _ _ hk he

/-! ## Lemmas on the finder, the status function and the deletion waiter -/

/-- The finder never returns a nil output together with a nil error. -/
theorem findFlowByID_not_both_nil (conn : GetFlowAPI) (id : String) :
    findFlowByID conn id ≠ (none, none) := by
  unfold findFlowByID
  cases h2 : (conn ⟨id⟩).2 with
  | some e =>
    simp only [h2]
    split <;> simp
  | none =>
    cases h1 : (conn ⟨id⟩).1 <;> simp [h1, h2]

/-- A refresh result without result and without error comes from a not-found error of the
finder. -/
theorem statusFlow_nil_nil (conn : GetFlowAPI) (id : String)
    (hr : (statusFlow conn id).Result = none) (he : (statusFlow conn id).Error = none) :
    NotFound (findFlowByID conn id).2 = true := by
  have hne := findFlowByID_not_both_nil conn id
  unfold statusFlow at hr he
  rcases hf : findFlowByID conn id with ⟨out, err⟩
  rw [hf] at hr he hne
  simp only [] at hr he ⊢
  by_cases hn : NotFound err = true
  · exact hn
  · simp only [hn, Bool.false_eq_true, if_false] at hr he
    cases err with
    | some e => simp at he
    | none =>
      cases out with
      | some o => simp at hr
      | none => exact absurd rfl hne

/-- A not-found error of the finder gives the refresh result `(nil, "", nil)`. -/
theorem statusFlow_of_NotFound (conn : GetFlowAPI) (id : String)
    (h : NotFound (findFlowByID conn id).2 = true) :
    statusFlow conn id = ⟨none, "", none⟩ := by
  unfold statusFlow
  rcases hf : findFlowByID conn id with ⟨out, err⟩
  rw [hf] at h
  simp only [] at h ⊢
  simp [h]

theorem outputAsGetFlowOutput_eq (outputRaw : Option GetFlowOutput) (err : Option GoError) :
    outputAsGetFlowOutput outputRaw err = (outputRaw, err) := by
  cases outputRaw <;> rfl

theorem waitFlowDeleted_eq (polls : List GetFlowAPI) (id : String) :
    waitFlowDeleted polls id
      = waitLoop deletedConf ⟨0, 0, ""⟩ (polls.map (fun conn => statusFlow conn id)) := by
  unfold waitFlowDeleted
  simp only [outputAsGetFlowOutput_eq]
  rfl

/-- One step of the deletion wait on a refresh error. -/
theorem waitLoop_deleted_error (st : WaitState) (r : RefreshResult)
    (rest : List RefreshResult) (e : GoError) (h : r.Error = some e) :
    waitLoop deletedConf st (r :: rest) = (r.Result, some e) := by
  unfold waitLoop
  simp [h]

/-- One step of the deletion wait on a not-found refresh. -/
theorem waitLoop_deleted_notFound (st : WaitState) (r : RefreshResult)
    (rest : List RefreshResult) (hst : st.targetOccurence = 0)
    (he : r.Error = none) (hr : r.Result = none) :
    waitLoop deletedConf st (r :: rest) = (none, none) := by
  unfold waitLoop
  simp [he, hr, hst, deletedConf]

/-- One step of the deletion wait on a found flow whose status is pending. -/
theorem waitLoop_deleted_pending (st : WaitState) (r : RefreshResult)
    (rest : List RefreshResult) (o : GetFlowOutput)
    (he : r.Error = none) (hr : r.Result = some o)
    (hs : r.State = statusDeleting ∨ r.State = statusNormal) :
    waitLoop deletedConf st (r :: rest) = waitLoop deletedConf ⟨0, 0, r.State⟩ rest := by
  conv => lhs; unfold waitLoop
  rcases hs with hs | hs <;>
    simp [he, hr, hs, deletedConf, targetLoop, statusDeleting, statusNormal]

/-- One step of the deletion wait on a found flow whose status is not pending. -/
theorem waitLoop_deleted_unexpected (st : WaitState) (r : RefreshResult)
    (rest : List RefreshResult) (o : GetFlowOutput)
    (he : r.Error = none) (hr : r.Result = some o)
    (hs : ¬ (r.State = statusDeleting ∨ r.State = statusNormal)) :
    waitLoop deletedConf st (r :: rest)
      = (some o, some (.UnexpectedStateError r.State [])) := by
  unfold waitLoop
  have h1 : ¬ r.State = "DELETING" := fun h => hs (Or.inl h)
  have h2 : ¬ r.State = "ACTIVE" := fun h => hs (Or.inr h)
  simp [he, hr, h1, h2, deletedConf, targetLoop, statusDeleting, statusNormal]

/-- The deletion wait succeeds only at a not-found refresh that follows pending ones. -/
theorem waitLoop_deleted_success {A : Type} (f : A → RefreshResult) (polls : List A)
    (st : WaitState) (hst : st.targetOccurence = 0)
    (h : (waitLoop deletedConf st (polls.map f)).2 = none) :
    ∃ pre c post, polls = pre ++ c :: post ∧
      (∀ p ∈ pre, (f p).Error = none ∧ (f p).Result.isSome = true ∧
        ((f p).State = statusDeleting ∨ (f p).State = statusNormal)) ∧
      (f c).Result = none ∧ (f c).Error = none := by
  induction polls generalizing st with
  | nil => simp [waitLoop] at h
  | cons c rest ih =>
    rw [List.map_cons] at h
    cases he : (f c).Error with
    | some e =>
      rw [waitLoop_deleted_error st _ _ e he] at h
      simp at h
    | none =>
      cases hr : (f c).Result with
      | none => exact ⟨[], c, rest, rfl, by simp, hr, he⟩
      | some o =>
        by_cases hs : (f c).State = statusDeleting ∨ (f c).State = statusNormal
        · rw [waitLoop_deleted_pending st _ _ o he hr hs] at h
          obtain ⟨pre, c2, post, hp, hpre, hc⟩ := ih ⟨0, 0, (f c).State⟩ rfl h
          refine ⟨c :: pre, c2, post, by rw [hp]; rfl, ?_, hc⟩
          intro p hp2
          rcases List.mem_cons.mp hp2 with hpc | hpp
          · subst hpc
            exact ⟨he, by rw [hr]; rfl, hs⟩
          · exact hpre p hpp
        · rw [waitLoop_deleted_unexpected st _ _ o he hr hs] at h
          simp at h

/-- The outcome of the deletion wait does not depend on the last state recorded, nor on the
not-found counter: the result agrees, and so does whether there is an error. -/
theorem waitLoop_deleted_state_irrelevant (rs : List RefreshResult) (st1 st2 : WaitState)
    (h1 : st1.targetOccurence = 0) (h2 : st2.targetOccurence = 0) :
    (waitLoop deletedConf st1 rs).1 = (waitLoop deletedConf st2 rs).1 ∧
    ((waitLoop deletedConf st1 rs).2 = none ↔ (waitLoop deletedConf st2 rs).2 = none) := by
  cases rs with
  | nil => simp [waitLoop]
  | cons r rest =>
    cases he : r.Error with
    | some e => rw [waitLoop_deleted_error st1 _ _ e he, waitLoop_deleted_error st2 _ _ e he]
                simp
    | none =>
      cases hr : r.Result with
      | none =>
        rw [waitLoop_deleted_notFound st1 _ _ h1 he hr,
          waitLoop_deleted_notFound st2 _ _ h2 he hr]
        simp
      | some o =>
        by_cases hs : r.State = statusDeleting ∨ r.State = statusNormal
        · rw [waitLoop_deleted_pending st1 _ _ o he hr hs,
            waitLoop_deleted_pending st2 _ _ o he hr hs]
          simp
        · rw [waitLoop_deleted_unexpected st1 _ _ o he hr hs,
            waitLoop_deleted_unexpected st2 _ _ o he hr hs]
          simp

/-! ## Lemmas on the Read handler -/

/-- `Read` when the finder reports not found. -/
theorem Read_of_NotFound {D : Type} (msgs : Messages)
    (stateGet : resourceFlowModel D × Diagnostics) (conn : GetFlowAPI)
    (flatten : Option GetFlowOutput → resourceFlowModel D → resourceFlowModel D × Diagnostics)
    (stateSet : resourceFlowModel D → Diagnostics)
    (resp : Response (resourceFlowModel D))
    (hget : Diagnostics.HasError (Diagnostics.Append resp.Diagnostics stateGet.2) = false)
    (hn : NotFound (findFlowByID conn stateGet.1.ID.ValueString).2 = true) :
    Read msgs stateGet conn flatten stateSet resp
      = (⟨Diagnostics.Append (Diagnostics.Append resp.Diagnostics stateGet.2)
            [NewResourceNotFoundWarningDiagnostic msgs
              (findFlowByID conn stateGet.1.ID.ValueString).2], none⟩,
          [Call.StateGet, Call.FindFlowByID stateGet.1.ID.ValueString,
            Call.StateRemoveResource]) := by
  rcases hf : findFlowByID conn stateGet.1.ID.ValueString with ⟨out, err⟩
  rw [hf] at hn
  simp only [] at hn
  simp only [Read, hget, hf, hn, Bool.false_eq_true, if_false, if_true, List.cons_append,
    List.nil_append]

/-- `Read` when the finder reports an error that is not a not-found error. -/
theorem Read_of_error {D : Type} (msgs : Messages)
    (stateGet : resourceFlowModel D × Diagnostics) (conn : GetFlowAPI)
    (flatten : Option GetFlowOutput → resourceFlowModel D → resourceFlowModel D × Diagnostics)
    (stateSet : resourceFlowModel D → Diagnostics)
    (resp : Response (resourceFlowModel D)) (e : GoError)
    (hget : Diagnostics.HasError (Diagnostics.Append resp.Diagnostics stateGet.2) = false)
    (he : (findFlowByID conn stateGet.1.ID.ValueString).2 = some e)
    (hn : NotFound (some e) = false) :
    Read msgs stateGet conn flatten stateSet resp
      = (⟨Diagnostics.AddError (Diagnostics.Append resp.Diagnostics stateGet.2)
            (msgs.ProblemStandardMessage .ErrActionReading stateGet.1.ID (some e))
            (msgs.Error e), resp.State⟩,
          [Call.StateGet, Call.FindFlowByID stateGet.1.ID.ValueString]) := by
  rcases hf : findFlowByID conn stateGet.1.ID.ValueString with ⟨out, err⟩
  rw [hf] at he
  simp only [] at he
  subst he
  simp only [Read, hget, hf, hn, Bool.false_eq_true, if_false, List.cons_append,
    List.nil_append]

/-- `Read` removes the resource only when the finder reports not found. -/
theorem Read_remove_only_NotFound {D : Type} (msgs : Messages)
    (stateGet : resourceFlowModel D × Diagnostics) (conn : GetFlowAPI)
    (flatten : Option GetFlowOutput → resourceFlowModel D → resourceFlowModel D × Diagnostics)
    (stateSet : resourceFlowModel D → Diagnostics)
    (resp : Response (resourceFlowModel D))
    (hn : NotFound (findFlowByID conn stateGet.1.ID.ValueString).2 = false) :
    Call.StateRemoveResource ∉ (Read msgs stateGet conn flatten stateSet resp).2 := by
  rcases hf : findFlowByID conn stateGet.1.ID.ValueString with ⟨out, err⟩
  rw [hf] at hn
  simp only [] at hn
  simp only [Read, hf, hn, Bool.false_eq_true, if_false]
  split
  · simp
  · cases err with
    | some e => simp
    | none =>
      simp only []
      split <;> simp

/-! ## Lemmas on the Delete handler -/

/-- When `DeleteFlow` succeeds and `Delete` ends without an error diagnostic, the deletion
waiter returned no error. -/
theorem Delete_ok_waiter_ok {D : Type} (msgs : Messages)
    (stateGet : resourceFlowModel D × Diagnostics)
    (deleteFlow : DeleteFlowInput → Option GoError) (polls : List GetFlowAPI)
    (resp : Response (resourceFlowModel D))
    (hget : Diagnostics.HasError (Diagnostics.Append resp.Diagnostics stateGet.2) = false)
    (hdel : deleteFlow ⟨stateGet.1.ID.ValueStringPointer⟩ = none)
    (hok : Diagnostics.HasError (Delete msgs stateGet deleteFlow polls resp).1.Diagnostics
      = false) :
    (waitFlowDeleted polls stateGet.1.ID.ValueString).2 = none := by
  rcases hw : waitFlowDeleted polls stateGet.1.ID.ValueString with ⟨out, err⟩
  cases err with
  | none => rfl
  | some e =>
    simp only [Delete, hget, hdel, hw, Bool.false_eq_true, if_false,
      Diagnostics.hasError_AddError] at hok
    exact Bool.noConfusion hok

/-! ## Lemmas on non-null blocks and on the order of the Expand switches -/

theorem flowNodeConfigurationModel.nonNullBlocks_single {P : FlowNodePayloads}
    (b : FlowNodeBlock P) :
    (flowNodeConfigurationModel.single b).nonNullBlocks = [b.name] := by
  cases b <;> rfl

theorem ListNestedObjectValueOf.IsNull_null {T : Type} :
    (ListNestedObjectValueOf.null : ListNestedObjectValueOf T).IsNull = true := rfl

/-- `Expand` of a node-configuration model looks at the first non-null block only. -/
theorem flowNodeConfigurationModel.Expand_firstNonNull {P : FlowNodePayloads}
    (c : FlowNodeConverters P) (m : flowNodeConfigurationModel P) :
    flowNodeConfigurationModel.Expand c m
      = flowNodeConfigurationModel.Expand c m.firstNonNull := by
  unfold flowNodeConfigurationModel.firstNonNull
  by_cases h1 : m.Prompt.IsNull = true
  case neg =>
    simp [flowNodeConfigurationModel.Expand, h1, flowNodeConfigurationModel.empty,
      ListNestedObjectValueOf.IsNull_null]
  by_cases h2 : m.Lambda.IsNull = true
  case neg =>
    simp [flowNodeConfigurationModel.Expand, h1, h2, flowNodeConfigurationModel.empty,
      ListNestedObjectValueOf.IsNull_null]
  by_cases h3 : m.KnowledgeBase.IsNull = true
  case neg =>
    simp [flowNodeConfigurationModel.Expand, h1, h2, h3, flowNodeConfigurationModel.empty,
      ListNestedObjectValueOf.IsNull_null]
  by_cases h4 : m.Condition.IsNull = true
  case neg =>
    simp [flowNodeConfigurationModel.Expand, h1, h2, h3, h4, flowNodeConfigurationModel.empty,
      ListNestedObjectValueOf.IsNull_null]
  by_cases h5 : m.Agent.IsNull = true
  case neg =>
    simp [flowNodeConfigurationModel.Expand, h1, h2, h3, h4, h5,
      flowNodeConfigurationModel.empty, ListNestedObjectValueOf.IsNull_null]
  by_cases h6 : m.Input.IsNull = true
  case neg =>
    simp [flowNodeConfigurationModel.Expand, h1, h2, h3, h4, h5, h6,
      flowNodeConfigurationModel.empty, ListNestedObjectValueOf.IsNull_null]
  by_cases h7 : m.Output.IsNull = true
  case neg =>
    simp [flowNodeConfigurationModel.Expand, h1, h2, h3, h4, h5, h6, h7,
      flowNodeConfigurationModel.empty, ListNestedObjectValueOf.IsNull_null]
  by_cases h8 : m.Retrieval.IsNull = true
  case neg =>
    simp [flowNodeConfigurationModel.Expand, h1, h2, h3, h4, h5, h6, h7, h8,
      flowNodeConfigurationModel.empty, ListNestedObjectValueOf.IsNull_null]
  simp [flowNodeConfigurationModel.Expand, h1, h2, h3, h4, h5, h6, h7, h8,
    flowNodeConfigurationModel.empty, ListNestedObjectValueOf.IsNull_null]

/-- `Expand` of a connection-configuration model looks at the first non-null block only. -/
theorem flowConnectionConfigurationModel.Expand_firstNonNull_connection
    {P : FlowConnectionPayloads}
    (c : FlowConnectionConverters P) (m : flowConnectionConfigurationModel P) :
    flowConnectionConfigurationModel.Expand c m
      = flowConnectionConfigurationModel.Expand c m.firstNonNull := by
  unfold flowConnectionConfigurationModel.firstNonNull
  by_cases h1 : m.Conditional.IsNull = true
  case neg =>
    simp [flowConnectionConfigurationModel.Expand, h1, ListNestedObjectValueOf.IsNull_null]
  by_cases h2 : m.Data.IsNull = true
  case neg =>
    simp [flowConnectionConfigurationModel.Expand, h1, h2, ListNestedObjectValueOf.IsNull_null]
  simp [flowConnectionConfigurationModel.Expand, h1, h2, ListNestedObjectValueOf.IsNull_null]

/-- `Expand` of a prompt-source model looks at the first non-null block only. -/
theorem promptFlowNodeSourceConfigurationModel.Expand_firstNonNull_source
    {P : PromptSourcePayloads} (c : PromptSourceConverters P)
    (m : promptFlowNodeSourceConfigurationModel P) :
    promptFlowNodeSourceConfigurationModel.Expand c m
      = promptFlowNodeSourceConfigurationModel.Expand c m.firstNonNull := by
  unfold promptFlowNodeSourceConfigurationModel.firstNonNull
  by_cases h1 : m.Inline.IsNull = true
  case neg =>
    simp [promptFlowNodeSourceConfigurationModel.Expand, h1,
      ListNestedObjectValueOf.IsNull_null]
  by_cases h2 : m.Resource.IsNull = true
  case neg =>
    simp [promptFlowNodeSourceConfigurationModel.Expand, h1, h2, ListNestedObjectValueOf.IsNull_null]
  simp [promptFlowNodeSourceConfigurationModel.Expand, h1, h2, ListNestedObjectValueOf.IsNull_null]

/-! ## Lemmas on the creation waiter -/

theorem waitFlowCreated_eq (polls : List GetFlowAPI) (id : String) :
    waitFlowCreated polls id
      = waitLoop createdConf ⟨0, 0, ""⟩ (polls.map (fun conn => statusFlow conn id)) := by
  unfold waitFlowCreated
  simp only [outputAsGetFlowOutput_eq]
  rfl

/-- One step of the creation wait on a refresh error. -/
theorem waitLoop_created_error (st : WaitState) (r : RefreshResult)
    (rest : List RefreshResult) (e : GoError) (h : r.Error = some e) :
    waitLoop createdConf st (r :: rest) = (r.Result, some e) := by
  unfold waitLoop
  simp [h]

/-- One step of the creation wait on a not-found refresh: an error after more than twenty
in a row, else the wait goes on with the target counter as it was. -/
theorem waitLoop_created_notFound (st : WaitState) (r : RefreshResult)
    (rest : List RefreshResult) (he : r.Error = none) (hr : r.Result = none) :
    waitLoop createdConf st (r :: rest)
      = if st.notfoundTick + 1 > 20 then
          (none, some (.NotFoundErrorRetries (st.notfoundTick + 1)))
        else waitLoop createdConf
          ⟨st.notfoundTick + 1, st.targetOccurence, r.State⟩ rest := by
  conv => lhs; unfold waitLoop
  simp [he, hr, createdConf]

/-- One step of the creation wait on a found flow in a status other than ACTIVE: the wait
goes on with the target counter as it was. -/
theorem waitLoop_created_other (st : WaitState) (r : RefreshResult)
    (rest : List RefreshResult) (o : GetFlowOutput) (he : r.Error = none)
    (hr : r.Result = some o) (hs : r.State ≠ statusNormal) :
    waitLoop createdConf st (r :: rest)
      = waitLoop createdConf ⟨0, st.targetOccurence, r.State⟩ rest := by
  conv => lhs; unfold waitLoop
  have hs2 : ¬ r.State = "ACTIVE" := hs
  simp [he, hr, hs2, createdConf, targetLoop, statusNormal]

/-- One step of the creation wait on a found flow in status ACTIVE: done at the second
occurrence, else the wait goes on with the target counter increased. -/
theorem waitLoop_created_active (st : WaitState) (r : RefreshResult)
    (rest : List RefreshResult) (o : GetFlowOutput) (he : r.Error = none)
    (hr : r.Result = some o) (hs : r.State = statusNormal) :
    waitLoop createdConf st (r :: rest)
      = if 2 = st.targetOccurence + 1 then (some o, none)
        else waitLoop createdConf ⟨0, st.targetOccurence + 1, r.State⟩ rest := by
  conv => lhs; unfold waitLoop
  have hs2 : r.State = "ACTIVE" := hs
  by_cases h2 : 2 = st.targetOccurence + 1
  · have h3 : st.targetOccurence = 1 := by omega
    simp [he, hr, hs2, createdConf, targetLoop, statusNormal, h3]
  · have h3 : ¬ st.targetOccurence = 1 := by omega
    simp [he, hr, hs2, createdConf, targetLoop, statusNormal, h2, h3]

/-- The creation wait succeeds only at a refresh that reports ACTIVE, when the ACTIVE
refreshes before it, together with the counter at the start, make one; it returns the
result of that refresh. -/
theorem waitLoop_created_success {A : Type} (f : A → RefreshResult) (polls : List A)
    (st : WaitState) (hst : st.targetOccurence ≤ 1)
    (h : (waitLoop createdConf st (polls.map f)).2 = none) :
    ∃ pre c post, polls = pre ++ c :: post ∧
      pre.countP (fun p => (f p).isActive) + st.targetOccurence = 1 ∧
      (f c).isActive = true ∧
      (waitLoop createdConf st (polls.map f)).1 = (f c).Result := by
  induction polls generalizing st with
  | nil => simp [waitLoop] at h
  | cons c rest ih =>
    rw [List.map_cons] at h ⊢
    cases he : (f c).Error with
    | some e =>
      rw [waitLoop_created_error st _ _ e he] at h
      simp at h
    | none =>
      cases hr : (f c).Result with
      | none =>
        have hna : (f c).isActive = false := by simp [RefreshResult.isActive, hr]
        rw [waitLoop_created_notFound st _ _ he hr] at h ⊢
        by_cases hn : st.notfoundTick + 1 > 20
        · simp [hn] at h
        · simp only [hn, if_false] at h ⊢
          obtain ⟨pre, c2, post, hp, hcount, hc, hout⟩ :=
            ih ⟨st.notfoundTick + 1, st.targetOccurence, (f c).State⟩ hst h
          refine ⟨c :: pre, c2, post, by rw [hp]; rfl, ?_, hc, hout⟩
          rw [List.countP_cons, hna]
          simpa using hcount
      | some o =>
        by_cases hs : (f c).State = statusNormal
        · have ha : (f c).isActive = true := by simp [RefreshResult.isActive, he, hr, hs]
          rw [waitLoop_created_active st _ _ o he hr hs] at h ⊢
          by_cases h2 : 2 = st.targetOccurence + 1
          · simp only [h2, if_true]
            exact ⟨[], c, rest, rfl, by simp; omega, ha, hr.symm⟩
          · simp only [h2, if_false] at h ⊢
            have hst0 : st.targetOccurence = 0 := by omega
            obtain ⟨pre, c2, post, hp, hcount, hc, hout⟩ :=
              ih ⟨0, st.targetOccurence + 1, (f c).State⟩ (by simp [hst0]) h
            refine ⟨c :: pre, c2, post, by rw [hp]; rfl, ?_, hc, hout⟩
            rw [List.countP_cons, ha]
            simp only [if_true] at hcount ⊢
            omega
        · have hna : (f c).isActive = false := by
            simp [RefreshResult.isActive, hs]
          rw [waitLoop_created_other st _ _ o he hr hs] at h ⊢
          obtain ⟨pre, c2, post, hp, hcount, hc, hout⟩ :=
            ih ⟨0, st.targetOccurence, (f c).State⟩ hst h
          refine ⟨c :: pre, c2, post, by rw [hp]; rfl, ?_, hc, hout⟩
          rw [List.countP_cons, hna]
          simpa using hcount

/-- A refresh of `statusFlow` that reports an error carries no result. -/
theorem statusFlow_error_result (conn : GetFlowAPI) (id : String) (e : GoError)
    (h : (statusFlow conn id).Error = some e) : (statusFlow conn id).Result = none := by
  unfold statusFlow at h ⊢
  rcases hf : findFlowByID conn id with ⟨out, err⟩
  rw [hf] at h
  simp only at h ⊢
  split
  · rfl
  · rename_i hN
    simp only [hN, if_false] at h
    cases err with
    | some e2 => rfl
    | none =>
      cases out with
      | none => rfl
      | some o => simp at h

/-- The creation wait returns no result when it fails, for refreshes that carry no result
with an error. -/
theorem waitLoop_created_failure {A : Type} (f : A → RefreshResult) (polls : List A)
    (st : WaitState) (hf : ∀ p e, (f p).Error = some e → (f p).Result = none)
    (h : (waitLoop createdConf st (polls.map f)).2 ≠ none) :
    (waitLoop createdConf st (polls.map f)).1 = none := by
  induction polls generalizing st with
  | nil => simp [waitLoop]
  | cons c rest ih =>
    rw [List.map_cons] at h ⊢
    cases he : (f c).Error with
    | some e =>
      rw [waitLoop_created_error st _ _ e he]
      exact hf c e he
    | none =>
      cases hr : (f c).Result with
      | none =>
        rw [waitLoop_created_notFound st _ _ he hr] at h ⊢
        by_cases hn : st.notfoundTick + 1 > 20
        · simp [hn]
        · simp only [hn, if_false] at h ⊢
          exact ih _ h
      | some o =>
        by_cases hs : (f c).State = statusNormal
        · rw [waitLoop_created_active st _ _ o he hr hs] at h ⊢
          by_cases h2 : 2 = st.targetOccurence + 1
          · simp [h2] at h
          · simp only [h2, if_false] at h ⊢
            exact ih _ h
        · rw [waitLoop_created_other st _ _ o he hr hs] at h ⊢
          exact ih _ h

/-! ## Lemmas on the Create handler -/

theorem Diagnostics.mem_AddError (diags : Diagnostics) (summary detail : String) :
    (⟨Severity.Error, summary, detail⟩ : Diagnostic)
      ∈ Diagnostics.AddError diags summary detail := by
  simp only [Diagnostics.AddError, Diagnostics.Append, List.foldl_cons, List.foldl_nil]
  split
  · rename_i h
    simpa using h
  · simp

theorem Diagnostics.hasError_Append_of_left_false (diags ins : Diagnostics)
    (h : Diagnostics.HasError diags = false) :
    Diagnostics.HasError (Diagnostics.Append diags ins) = Diagnostics.HasError ins := by
  rw [Diagnostics.hasError_Append, h]
  rfl

/-! ## Lemmas on the validators of the template blocks -/

theorem Diagnostics.hasError_foldl_of_init {α : Type} (f : Diagnostics → α → Diagnostics)
    (hf : ∀ d x, Diagnostics.HasError d = true → Diagnostics.HasError (f d x) = true)
    (xs : List α) (init : Diagnostics) (h : Diagnostics.HasError init = true) :
    Diagnostics.HasError (xs.foldl f init) = true := by
  induction xs generalizing init with
  | nil => exact h
  | cons x rest ih => exact ih (f init x) (hf init x h)

theorem hasError_sizeAtMost (s : Schema) (config : Value) (reqPath : List Step)
    (o : Option (List Value)) (n : Nat) :
    Diagnostics.HasError (ListValidator.ValidateList s config reqPath (blockValue o) (.SizeAtMost n))
      = decide (n < (blockValue o).elements.length) := by
  cases o with
  | none => rfl
  | some es =>
    by_cases h : n < es.length
    · simp [ListValidator.ValidateList, blockValue, Value.IsNull, Value.IsUnknown, Value.elements, h]
      rfl
    · simp [ListValidator.ValidateList, blockValue, Value.IsNull, Value.IsUnknown, Value.elements, h]
      rfl

theorem BlockValidate_chat (chat text : Option (List Value)) :
    BlockValidate templateSchema (templateConfigurationConfig chat text)
        ["template_configuration", "chat"] (templateMemberPath "chat")
      = Diagnostics.Append
          (Diagnostics.Append []
            (ListValidator.ValidateList templateSchema (templateConfigurationConfig chat text)
              (templateMemberPath "chat") (blockValue chat) (.SizeAtMost 1)))
          (ExactlyOneOf.Validate templateSchema (templateConfigurationConfig chat text)
            (templateMemberPath "chat") (blockValue chat) (siblings ["chat", "text"])) := rfl

theorem BlockValidate_text (chat text : Option (List Value)) :
    BlockValidate templateSchema (templateConfigurationConfig chat text)
        ["template_configuration", "text"] (templateMemberPath "text")
      = Diagnostics.Append []
          (ListValidator.ValidateList templateSchema (templateConfigurationConfig chat text)
            (templateMemberPath "text") (blockValue text) (.SizeAtMost 1)) := rfl

theorem hasError_exactlyOneOf_chat (chat text : Option (List Value)) :
    Diagnostics.HasError (ExactlyOneOf.Validate templateSchema
        (templateConfigurationConfig chat text) (templateMemberPath "chat") (blockValue chat)
        (siblings ["chat", "text"]))
      = (chat.isSome == text.isSome) := by
  cases chat <;> cases text <;> rfl

theorem hasError_validateTemplateConfiguration (chat text : Option (List Value)) :
    Diagnostics.HasError (validateTemplateConfiguration chat text) = false ↔
      (chat.isSome ≠ text.isSome
        ∧ (blockValue chat).elements.length ≤ 1 ∧ (blockValue text).elements.length ≤ 1) := by
  unfold validateTemplateConfiguration
  rw [Diagnostics.hasError_Append, BlockValidate_chat, BlockValidate_text,
    Diagnostics.hasError_Append, Diagnostics.hasError_Append, Diagnostics.hasError_Append,
    hasError_sizeAtMost, hasError_sizeAtMost, hasError_exactlyOneOf_chat,
    Diagnostics.HasError_nil]
  cases chat <;> cases text <;> simp [blockValue, Value.elements]

theorem hasError_ValidateBlockTree_of_own (s : Schema) (config : Value) (fuel : Nat)
    (block : List String) (reqPath : List Step)
    (h : Diagnostics.HasError (BlockValidate s config block reqPath) = true) :
    Diagnostics.HasError (ValidateBlockTree s config (fuel + 1) block reqPath) = true := by
  unfold ValidateBlockTree
  split
  · apply Diagnostics.hasError_foldl_of_init _ _ _ _ h
    intro d i hd
    apply Diagnostics.hasError_foldl_of_init
    · intro d2 b hd2
      rw [Diagnostics.hasError_Append, hd2]; rfl
    · rw [Diagnostics.hasError_Append, hd]; rfl
  · exact h

theorem validateTemplateConfigurationTree_eq (chat text : Option (List Value)) :
    validateTemplateConfigurationTree (templateConfigurationConfig chat text)
      = Diagnostics.Append
          (Diagnostics.Append
            (Diagnostics.Append
              (BlockValidate templateSchema (templateConfigurationConfig chat text)
                ["template_configuration"] [.AttributeName "template_configuration"])
              (NestedBlockObjectValidate templateSchema (templateConfigurationConfig chat text)
                ["template_configuration"]
                [.AttributeName "template_configuration", .ElementKeyInt 0]))
            (ValidateBlockTree templateSchema (templateConfigurationConfig chat text) 6
              ["template_configuration", "chat"] (templateMemberPath "chat")))
          (ValidateBlockTree templateSchema (templateConfigurationConfig chat text) 6
            ["template_configuration", "text"] (templateMemberPath "text")) := rfl

theorem validateTemplateConfigurationTree_members (chat text : Option (List Value))
    (h : Diagnostics.HasError
      (validateTemplateConfigurationTree (templateConfigurationConfig chat text)) = false) :
    Diagnostics.HasError (validateTemplateConfiguration chat text) = false := by
  rw [validateTemplateConfigurationTree_eq, Diagnostics.hasError_Append,
    Diagnostics.hasError_Append, Bool.or_eq_false_iff, Bool.or_eq_false_iff] at h
  obtain ⟨⟨_, hc⟩, ht⟩ := h
  unfold validateTemplateConfiguration
  rw [Diagnostics.hasError_Append, Bool.or_eq_false_iff]
  constructor
  · cases hb : Diagnostics.HasError (BlockValidate templateSchema
        (templateConfigurationConfig chat text) ["template_configuration", "chat"]
        (templateMemberPath "chat")) with
    | false => rfl
    | true =>
      rw [hasError_ValidateBlockTree_of_own _ _ 5 _ _ hb] at hc
      exact absurd hc (by decide)
  · cases hb : Diagnostics.HasError (BlockValidate templateSchema
        (templateConfigurationConfig chat text) ["template_configuration", "text"]
        (templateMemberPath "text")) with
    | false => rfl
    | true =>
      rw [hasError_ValidateBlockTree_of_own _ _ 5 _ _ hb] at ht
      exact absurd ht (by decide)

theorem BlockValidate_input_variable (inputVariable message : Option (List Value)) :
    BlockValidate templateSchema (chatTemplateConfig inputVariable message)
        ["template_configuration", "chat", "input_variable"] (chatMemberPath "input_variable")
      = Diagnostics.Append []
          (ListValidator.ValidateList templateSchema (chatTemplateConfig inputVariable message)
            (chatMemberPath "input_variable") (blockValue inputVariable) (.SizeBetween 0 20)) :=
  rfl

theorem BlockValidate_message (inputVariable message : Option (List Value)) :
    BlockValidate templateSchema (chatTemplateConfig inputVariable message)
        ["template_configuration", "chat", "message"] (chatMemberPath "message")
      = Diagnostics.Append
          (Diagnostics.Append []
            (ListValidator.ValidateList templateSchema (chatTemplateConfig inputVariable message)
              (chatMemberPath "message") (blockValue message) .IsRequired))
          (ListValidator.ValidateList templateSchema (chatTemplateConfig inputVariable message)
            (chatMemberPath "message") (blockValue message) (.SizeAtLeast 1)) := rfl

theorem hasError_sizeBetween (s : Schema) (config : Value) (reqPath : List Step)
    (o : Option (List Value)) (min max : Nat) :
    Diagnostics.HasError
        (ListValidator.ValidateList s config reqPath (blockValue o) (.SizeBetween min max))
      = (o.isSome && (decide ((blockValue o).elements.length < min)
          || decide (max < (blockValue o).elements.length))) := by
  cases o with
  | none => rfl
  | some es =>
    by_cases h1 : es.length < min <;> by_cases h2 : max < es.length <;>
      simp [ListValidator.ValidateList, blockValue, Value.IsNull, Value.IsUnknown,
        Value.elements, h1, h2] <;> rfl

theorem hasError_sizeAtLeast (s : Schema) (config : Value) (reqPath : List Step)
    (o : Option (List Value)) (min : Nat) :
    Diagnostics.HasError
        (ListValidator.ValidateList s config reqPath (blockValue o) (.SizeAtLeast min))
      = (o.isSome && decide ((blockValue o).elements.length < min)) := by
  cases o with
  | none => rfl
  | some es =>
    by_cases h : es.length < min
    · simp [ListValidator.ValidateList, blockValue, Value.IsNull, Value.IsUnknown,
        Value.elements, h]
      rfl
    · simp [ListValidator.ValidateList, blockValue, Value.IsNull, Value.IsUnknown,
        Value.elements, h]
      rfl

theorem hasError_isRequired (s : Schema) (config : Value) (reqPath : List Step)
    (o : Option (List Value)) :
    Diagnostics.HasError (ListValidator.ValidateList s config reqPath (blockValue o) .IsRequired)
      = !o.isSome := by
  cases o <;> rfl

/-! ## Lemmas on the error cases of the union converters and on size validators -/

theorem expandMember_error_nil {M W U : Type} (diags : Diagnostics)
    (block : ListNestedObjectValueOf M) (expand : Option M → W × Diagnostics) (mk : W → U)
    (h : Diagnostics.HasError (expandMember diags block expand mk).2 = true) :
    (expandMember diags block expand mk).1 = none := by
  unfold expandMember at h ⊢
  by_cases h1 : Diagnostics.HasError (Diagnostics.Append diags block.ToPtr.2) = true
  · simp only [h1, if_true]
  · by_cases h2 : Diagnostics.HasError (Diagnostics.Append
        (Diagnostics.Append diags block.ToPtr.2) (expand block.ToPtr.1).2) = true
    · simp [h1, h2]
    · simp only [h1, h2, if_false] at h
      exact absurd h h2

theorem flattenMember_error_unchanged {W M S : Type} (diags : Diagnostics) (m : S) (value : W)
    (flatten : W → M × Diagnostics) (set : S → ListNestedObjectValueOf M → S)
    (h : Diagnostics.HasError (flattenMember diags m value flatten set).2 = true) :
    (flattenMember diags m value flatten set).1 = m := by
  unfold flattenMember at h ⊢
  by_cases h1 : Diagnostics.HasError (Diagnostics.Append diags (flatten value).2) = true
  · simp only [h1, if_true]
  · simp only [h1, if_false] at h
    exact absurd h h1

theorem unsupportedConfigurationType_nil (typeName : String) :
    unsupportedConfigurationType [] typeName
      = [⟨Severity.Error, "Unsupported configuration type",
          "Unsupported configuration type: " ++ typeName⟩] := rfl

theorem Diagnostics.hasError_foldl_Append_false {α : Type} (f : α → Diagnostics)
    (xs : List α) (init : Diagnostics)
    (h : Diagnostics.HasError
      (xs.foldl (fun diags x => Diagnostics.Append diags (f x)) init) = false) :
    ∀ x ∈ xs, Diagnostics.HasError (f x) = false := by
  induction xs generalizing init with
  | nil => intro x hx; cases hx
  | cons y rest ih =>
    intro x hx
    rw [List.foldl_cons] at h
    rcases List.mem_cons.mp hx with rfl | hx
    · cases hy : Diagnostics.HasError (f x) with
      | false => rfl
      | true =>
        have h2 : Diagnostics.HasError (Diagnostics.Append init (f x)) = true := by
          rw [Diagnostics.hasError_Append, hy, Bool.or_true]
        rw [Diagnostics.hasError_foldl_of_init _ (fun d z hd => by
          rw [Diagnostics.hasError_Append, hd, Bool.true_or]) rest _ h2] at h
        exact absurd h (by decide)
    · exact ih _ h x hx

theorem sizeAtMost_elements (s : Schema) (config : Value) (reqPath : List Step) (v : Value)
    (n : Nat)
    (h : Diagnostics.HasError
      (ListValidator.ValidateList s config reqPath v (.SizeAtMost n)) = false) :
    v.elements.length ≤ n := by
  cases v with
  | list es =>
    by_cases hn : n < es.length
    · simp [ListValidator.ValidateList, Value.IsNull, Value.IsUnknown, Value.elements, hn,
        Diagnostics.HasError] at h
    · simpa [Value.elements] using hn
  | _ => simp [Value.elements]

theorem BlockValidate_sizeAtMost (s : Schema) (config : Value) (block : List String)
    (reqPath : List Step) (b : BlockDecl) (v : Value) (n : Nat)
    (hb : s.block? block = some b) (hn : ListValidator.SizeAtMost n ∈ b.Validators)
    (hv : GetAttribute config reqPath = some v)
    (h : Diagnostics.HasError (BlockValidate s config block reqPath) = false) :
    v.elements.length ≤ n := by
  unfold BlockValidate at h
  rw [hb, hv] at h
  exact sizeAtMost_elements s config reqPath v n
    (Diagnostics.hasError_foldl_Append_false _ _ _ h _ hn)

theorem ListNestedObjectValueOf.ToPtr_no_error {T : Type} (l : ListNestedObjectValueOf T)
    (h : l.Elements.length ≤ 1) : Diagnostics.HasError l.ToPtr.2 = false := by
  unfold ListNestedObjectValueOf.ToPtr
  match hl : l.Elements with
  | [] => rfl
  | [x] => rfl
  | x :: y :: rest => rw [hl] at h; simp at h

theorem toPtrBlocks_declared :
    ∀ p ∈ toPtrBlocks, ∃ b, flowSchema.block? p = some b ∧
      ListValidator.SizeAtMost 1 ∈ b.Validators := by
  decide

set_option maxRecDepth 20000 in
/-- The configuration `retrieval { service_configuration {} }` passes the validators of the
`retrieval` block and of the blocks below it. -/
theorem validateRetrievalTree_configRetrievalNoS3 :
    Diagnostics.HasError (validateRetrievalTree configRetrievalNoS3) = false := by
  rfl

/-! ## Claims -/

/-- C1 (as stated) fails: a knowledge-base member whose reranking configuration names a
reranking model flattens into an empty model and expands again without error, to a
knowledge-base member whose payload is not the payload that went in: the model of the
reranking model configuration declares no field, so the model ARN is not kept. No pair of
converters for that model gives back every model configuration. -/
theorem C1_counterexample :
    Diagnostics.HasError ((nestedConverters true).flattenPayload
        knowledgeBaseMemberWithRerankingModel).2 = false ∧
    Diagnostics.HasError ((nestedConverters true).expandPayload
        ((nestedConverters true).flattenPayload knowledgeBaseMemberWithRerankingModel).1).2
      = false ∧
    flowNodeConfigurationModel.Expand (nestedConverters true)
        (flowNodeConfigurationModel.Flatten (nestedConverters true)
          (flowNodeConfigurationModel.empty nestedPayloads)
          (.member knowledgeBaseMemberWithRerankingModel)).1
      = (some (.MemberKnowledgeBase ⟨"KB12345678", some ⟨""⟩⟩), []) ∧
    (FlowNodeConfiguration.MemberKnowledgeBase ⟨"KB12345678", some ⟨""⟩⟩ :
        FlowNodeConfiguration nestedPayloads) ≠ knowledgeBaseMemberWithRerankingModel ∧
    (∀ (flatten : VectorSearchBedrockRerankingModelConfiguration →
          vectorSearchBedrockRerankingModelConfigModel × Diagnostics)
        (expand : Option vectorSearchBedrockRerankingModelConfigModel →
          VectorSearchBedrockRerankingModelConfiguration × Diagnostics),
      ∃ w, (expand (some (flatten w).1)).1 ≠ w) := by
  refine ⟨rfl, rfl, rfl, ?_, ?_⟩
  · intro h
    have h2 : (⟨"KB12345678", some ⟨""⟩⟩ : KnowledgeBaseFlowNodeConfiguration)
        = ⟨"KB12345678",
          some ⟨"arn:aws:bedrock:us-west-2::foundation-model/amazon.rerank-v1:0"⟩⟩ :=
      FlowNodeConfiguration.MemberKnowledgeBase.inj h
    exact absurd h2 (by decide)
  · intro flatten expand
    by_cases h : (expand (some ⟨⟩)).1 = ⟨"a"⟩
    · refine ⟨⟨"b"⟩, fun hb => ?_⟩
      have hb2 : (expand (some ⟨⟩)).1 = ⟨"b"⟩ := hb
      rw [h] at hb2
      exact absurd hb2 (by decide)
    · exact ⟨⟨"a"⟩, h⟩

/-- C1 (amended): for every wire value `v` that is one of the eight `FlowNodeConfiguration`
members and whose payload converts without error (it flattens without error and the
flattened payload expands without error), flattening `v` into an empty
`flowNodeConfigurationModel` succeeds, and expanding the resulting model returns, without
error, a member of the same variant as `v` whose payload is the payload of `v` flattened and
expanded again; that member is `v` itself if and only if the payload converters give the
payload of `v` back unchanged. -/
theorem C1_flatten_then_expand_returns_member {P : FlowNodePayloads}
    (c : FlowNodeConverters P) (v : FlowNodeConfiguration P)
    (hF : Diagnostics.HasError (c.flattenPayload v).2 = false)
    (hE : Diagnostics.HasError (c.expandPayload (c.flattenPayload v).1).2 = false) :
    Diagnostics.HasError
        (flowNodeConfigurationModel.Flatten c (flowNodeConfigurationModel.empty P)
          (.member v)).2 = false ∧
      (flowNodeConfigurationModel.Expand c
        (flowNodeConfigurationModel.Flatten c (flowNodeConfigurationModel.empty P)
          (.member v)).1).1 = some (c.expandPayload (c.flattenPayload v).1).1 ∧
      Diagnostics.HasError (flowNodeConfigurationModel.Expand c
        (flowNodeConfigurationModel.Flatten c (flowNodeConfigurationModel.empty P)
          (.member v)).1).2 = false ∧
      (c.expandPayload (c.flattenPayload v).1).1.memberName = v.memberName ∧
      ((flowNodeConfigurationModel.Expand c
          (flowNodeConfigurationModel.Flatten c (flowNodeConfigurationModel.empty P)
            (.member v)).1).1 = some v
        ↔ (c.expandPayload (c.flattenPayload v).1).1 = v) := by
  have hN : (c.expandPayload (c.flattenPayload v).1).1.memberName = v.memberName := by
    cases v <;> rfl
  rw [flowNodeConfigurationModel.Flatten_empty c v hF]
  simp only [flowNodeConfigurationModel.Expand_single c _ hE,
    Diagnostics.hasError_Append_nil_left, hF, hE, hN, Option.some.injEq, and_self]

/-- C1 (amended) at a prompt member with an inline source, which comes back unchanged. -/
theorem C1_witness :
    Diagnostics.HasError (exampleConverters.flattenPayload
      (.MemberPrompt (some (.MemberInline "anthropic.claude-v2")))).2 = false ∧
    (flowNodeConfigurationModel.Expand exampleConverters
      (flowNodeConfigurationModel.Flatten exampleConverters
        (flowNodeConfigurationModel.empty examplePayloads)
        (.member (.MemberPrompt (some (.MemberInline "anthropic.claude-v2"))))).1).1
      = some (.MemberPrompt (some (.MemberInline "anthropic.claude-v2"))) :=
  ⟨rfl,
    (C1_flatten_then_expand_returns_member exampleConverters
      (.MemberPrompt (some (.MemberInline "anthropic.claude-v2"))) rfl rfl).2.2.2.2.mpr rfl⟩

/-- C2 (as stated) fails: the configuration `retrieval { service_configuration {} }` passes
the validators of the `retrieval` block and of the blocks below it, none of which asks for an
`s3` block, and gives the model whose only non-null block is `retrieval`, holding one
element. The `Expand` method of the element of `service_configuration` returns nil for it, so
the payload converter either reports an error, and `Expand` returns no member, or leaves the
union value nil, and flattening the member gives a `retrieval` element whose
`service_configuration` block is null. Either way no member returned by `Expand` flattens to
the model that was expanded. -/
theorem C2_counterexample :
    Diagnostics.HasError (validateRetrievalTree configRetrievalNoS3) = false ∧
    (flowNodeConfigurationModel.single retrievalBlockNoS3).nonNullBlocks = ["retrieval"] ∧
    retrievalFlowNodeServiceConfigurationModel.Expand exampleRetrievalConverters
        (⟨.null⟩ : retrievalFlowNodeServiceConfigurationModel String) = (none, []) ∧
    ∀ nilIsError : Bool,
      ¬ ∃ v, (flowNodeConfigurationModel.Expand (nestedConverters nilIsError)
            (flowNodeConfigurationModel.single retrievalBlockNoS3)).1 = some v ∧
          (flowNodeConfigurationModel.Flatten (nestedConverters nilIsError)
            (flowNodeConfigurationModel.empty nestedPayloads) (.member v)).1
            = flowNodeConfigurationModel.single retrievalBlockNoS3 := by
  refine ⟨validateRetrievalTree_configRetrievalNoS3, rfl, rfl, ?_⟩
  intro nilIsError
  rintro ⟨v, hv, hm⟩
  cases nilIsError with
  | true => exact absurd hv (by simp [show (flowNodeConfigurationModel.Expand
      (nestedConverters true) (flowNodeConfigurationModel.single retrievalBlockNoS3)).1
        = none from rfl])
  | false =>
    have hE : (flowNodeConfigurationModel.Expand (nestedConverters false)
        (flowNodeConfigurationModel.single retrievalBlockNoS3)).1
          = some (.MemberRetrieval none) := rfl
    rw [hE] at hv
    cases hv
    have h2 : (ListNestedObjectValueOf.known [ListNestedObjectValueOf.null] :
          ListNestedObjectValueOf (ListNestedObjectValueOf
            (retrievalFlowNodeServiceConfigurationModel String)))
        = ListNestedObjectValueOf.known [ListNestedObjectValueOf.known [⟨.null⟩]] :=
      congrArg flowNodeConfigurationModel.Retrieval hm
    simp at h2

/-- C2 (amended): for every `flowNodeConfigurationModel` in which exactly one of the eight
blocks is non-null and holds exactly one element, whose element expands without error and
whose expanded payload flattens without error, `Expand` returns a union member without error,
and flattening that member into an empty model gives, without error, a model in which the
same single block is set and the other seven are null; the block holds the element expanded
and flattened again, so the model equals the one that was expanded if and only if the payload
converters give the element back unchanged. -/
theorem C2_expand_then_flatten_returns_model {P : FlowNodePayloads}
    (c : FlowNodeConverters P) (b : FlowNodeBlock P)
    (hE : Diagnostics.HasError (c.expandPayload b).2 = false)
    (hF : Diagnostics.HasError (c.flattenPayload (c.expandPayload b).1).2 = false) :
    ∃ v, flowNodeConfigurationModel.Expand c (flowNodeConfigurationModel.single b)
          = (some v, Diagnostics.Append [] (c.expandPayload b).2) ∧
      Diagnostics.HasError (Diagnostics.Append [] (c.expandPayload b).2) = false ∧
      Diagnostics.HasError (flowNodeConfigurationModel.Flatten c
        (flowNodeConfigurationModel.empty P) (.member v)).2 = false ∧
      (flowNodeConfigurationModel.Flatten c
        (flowNodeConfigurationModel.empty P) (.member v)).1
        = flowNodeConfigurationModel.single (c.flattenPayload (c.expandPayload b).1).1 ∧
      (c.flattenPayload (c.expandPayload b).1).1.name = b.name ∧
      ((flowNodeConfigurationModel.Flatten c
          (flowNodeConfigurationModel.empty P) (.member v)).1
          = flowNodeConfigurationModel.single b
        ↔ (c.flattenPayload (c.expandPayload b).1).1 = b) := by
  refine ⟨(c.expandPayload b).1, flowNodeConfigurationModel.Expand_single c b hE, ?_, ?_, ?_,
    ?_, ?_⟩
  · rw [Diagnostics.hasError_Append_nil_left, hE]
  · rw [flowNodeConfigurationModel.Flatten_empty c _ hF,
      Diagnostics.hasError_Append_nil_left, hF]
  · rw [flowNodeConfigurationModel.Flatten_empty c _ hF]
  · cases b <;> rfl
  · rw [flowNodeConfigurationModel.Flatten_empty c _ hF]
    cases b <;>
      simp [flowNodeConfigurationModel.single, flowNodeConfigurationModel.empty,
        FlowNodeConverters.expandPayload, FlowNodeConverters.flattenPayload]

/-- C2 (amended) at a model whose only block is `lambda` with one element, which comes back
unchanged. -/
theorem C2_witness :
    Diagnostics.HasError
      (exampleConverters.expandPayload (.lambda "arn:aws:lambda:fn")).2 = false ∧
    ∃ v, flowNodeConfigurationModel.Expand exampleConverters
          (flowNodeConfigurationModel.single (.lambda "arn:aws:lambda:fn"))
          = (some v, Diagnostics.Append []
              (exampleConverters.expandPayload (.lambda "arn:aws:lambda:fn")).2) ∧
      (flowNodeConfigurationModel.Flatten exampleConverters
        (flowNodeConfigurationModel.empty examplePayloads) (.member v)).1
        = flowNodeConfigurationModel.single (.lambda "arn:aws:lambda:fn") := by
  obtain ⟨v, h1, _, _, _, _, h6⟩ :=
    C2_expand_then_flatten_returns_model exampleConverters (.lambda "arn:aws:lambda:fn")
      rfl rfl
  exact ⟨rfl, v, h1, h6.mpr rfl⟩

/-- C3 (as stated) fails: the configuration `retrieval { service_configuration {} }` passes
the validators of the `retrieval` block and of the blocks below it and gives the model whose
only non-null block is `retrieval`, holding one element. The `Expand` method of the element
of `service_configuration` returns nil for it, which the payload converter reports as an
error; `Expand` then returns nil with that error instead of the Retrieval member. -/
theorem C3_counterexample :
    Diagnostics.HasError (validateRetrievalTree configRetrievalNoS3) = false ∧
    (flowNodeConfigurationModel.single retrievalBlockNoS3).nonNullBlocks = ["retrieval"] ∧
    retrievalFlowNodeServiceConfigurationModel.Expand exampleRetrievalConverters
        (⟨.null⟩ : retrievalFlowNodeServiceConfigurationModel String) = (none, []) ∧
    (flowNodeConfigurationModel.Expand (nestedConverters true)
        (flowNodeConfigurationModel.single retrievalBlockNoS3)).1 = none ∧
    Diagnostics.HasError (flowNodeConfigurationModel.Expand (nestedConverters true)
        (flowNodeConfigurationModel.single retrievalBlockNoS3)).2 = true := by
  exact ⟨validateRetrievalTree_configRetrievalNoS3, rfl, rfl, rfl, rfl⟩

/-- C3 (amended): for every `flowNodeConfigurationModel` in which exactly one block is
non-null with one element: when the payload of the element expands without error, `Expand`
returns without error the union member named after that block (prompt gives MemberPrompt,
lambda gives MemberLambdaFunction, knowledge_base gives MemberKnowledgeBase, condition gives
MemberCondition, agent gives MemberAgent, input gives MemberInput, output gives MemberOutput,
retrieval gives MemberRetrieval); when the payload expansion reports an error, `Expand`
returns nil with that error. `Flatten`, for each of the eight members whose payload flattens
without error, assigns the block of the same name and no other block. -/
theorem C3_expand_and_flatten_follow_block_names {P : FlowNodePayloads}
    (c : FlowNodeConverters P) (b : FlowNodeBlock P) (m : flowNodeConfigurationModel P)
    (v : FlowNodeConfiguration P)
    (hv : Diagnostics.HasError (c.flattenPayload v).2 = false) :
    (Diagnostics.HasError (c.expandPayload b).2 = false →
      ∃ r, (flowNodeConfigurationModel.Expand c (flowNodeConfigurationModel.single b)).1
            = some r ∧
        Diagnostics.HasError
          (flowNodeConfigurationModel.Expand c (flowNodeConfigurationModel.single b)).2
            = false ∧
        memberNamedAfter b.name = some r.memberName) ∧
    (Diagnostics.HasError (c.expandPayload b).2 = true →
      flowNodeConfigurationModel.Expand c (flowNodeConfigurationModel.single b)
        = (none, Diagnostics.Append [] (c.expandPayload b).2)) ∧
    (∃ b2, (flowNodeConfigurationModel.Flatten c m (.member v)).1 = m.withBlock b2 ∧
        memberNamedAfter b2.name = some v.memberName) := by
  refine ⟨fun hb => ?_, fun hb => flowNodeConfigurationModel.Expand_single_error c b hb, ?_⟩
  · refine ⟨(c.expandPayload b).1, ?_, ?_, c.name_expandPayload b⟩
    · rw [flowNodeConfigurationModel.Expand_single c b hb]
    · rw [flowNodeConfigurationModel.Expand_single c b hb,
        Diagnostics.hasError_Append_nil_left, hb]
  · refine ⟨(c.flattenPayload v).1, ?_, c.name_flattenPayload v⟩
    rw [flowNodeConfigurationModel.Flatten_member c m v hv]

/-- C3 (amended) at the `knowledge_base` block and the `Retrieval` member. -/
theorem C3_witness :
    Diagnostics.HasError
      (exampleConverters.expandPayload (.knowledge_base "KB12345678")).2 = false ∧
    Diagnostics.HasError
      (exampleConverters.flattenPayload (.MemberRetrieval "bucket")).2 = false ∧
    (∃ r, (flowNodeConfigurationModel.Expand exampleConverters
            (flowNodeConfigurationModel.single (.knowledge_base "KB12345678"))).1 = some r ∧
        Diagnostics.HasError (flowNodeConfigurationModel.Expand exampleConverters
            (flowNodeConfigurationModel.single (.knowledge_base "KB12345678"))).2 = false ∧
        memberNamedAfter "knowledge_base" = some r.memberName) ∧
    (∃ b2, (flowNodeConfigurationModel.Flatten exampleConverters
            (flowNodeConfigurationModel.empty examplePayloads)
            (.member (.MemberRetrieval "bucket"))).1
          = (flowNodeConfigurationModel.empty examplePayloads).withBlock b2 ∧
        memberNamedAfter b2.name = some "FlowNodeConfigurationMemberRetrieval") :=
  ⟨rfl, rfl,
    (C3_expand_and_flatten_follow_block_names exampleConverters (.knowledge_base "KB12345678")
      (flowNodeConfigurationModel.empty examplePayloads) (.MemberRetrieval "bucket") rfl).1
      rfl,
    (C3_expand_and_flatten_follow_block_names exampleConverters (.knowledge_base "KB12345678")
      (flowNodeConfigurationModel.empty examplePayloads) (.MemberRetrieval "bucket")
      rfl).2.2⟩

/-- C4 (as stated) fails: with payload converters that report no error and do not keep the
condition name, a Conditional member flattens into an empty model and expands again without
error, to a Conditional member whose payload is not the payload that went in. -/
theorem C4_counterexample :
    Diagnostics.HasError (lossyConnectionConverters.flattenConditional "HighScore").2
      = false ∧
    Diagnostics.HasError (lossyConnectionConverters.expandConditional
      (some (lossyConnectionConverters.flattenConditional "HighScore").1)).2 = false ∧
    flowConnectionConfigurationModel.Expand lossyConnectionConverters
        (flowConnectionConfigurationModel.Flatten lossyConnectionConverters
          (flowConnectionConfigurationModel.empty exampleConnectionPayloads)
          (.member (.MemberConditional "HighScore"))).1
      = (some (.MemberConditional ""), []) ∧
    (FlowConnectionConfiguration.MemberConditional "" :
        FlowConnectionConfiguration exampleConnectionPayloads)
      ≠ .MemberConditional "HighScore" := by
  refine ⟨rfl, rfl, rfl, fun h => ?_⟩
  have h2 : ("" : String) = "HighScore" := FlowConnectionConfiguration.MemberConditional.inj h
  exact absurd h2 (by decide)

/-- C4 (amended): for every `FlowConnectionConfiguration` member `v` (Conditional or Data)
whose payload converts without error (it flattens without error and the flattened payload
expands without error), flattening `v` into an empty `flowConnectionConfigurationModel`
sets only the `conditional` block for a Conditional member and only the `data` block for a
Data member, each to the one-element list of the flattened payload; `Expand` then returns,
without error, a member of the same variant whose payload is the payload of `v` flattened and
expanded again, and that member is `v` itself if and only if the payload converters give the
payload back unchanged. -/
theorem C4_connection_flatten_then_expand {P : FlowConnectionPayloads}
    (c : FlowConnectionConverters P)
    (wc : P.FlowConditionalConnectionConfiguration) (wd : P.FlowDataConnectionConfiguration)
    (hFc : Diagnostics.HasError (c.flattenConditional wc).2 = false)
    (hEc : Diagnostics.HasError (c.expandConditional (some (c.flattenConditional wc).1)).2
      = false)
    (hFd : Diagnostics.HasError (c.flattenData wd).2 = false)
    (hEd : Diagnostics.HasError (c.expandData (some (c.flattenData wd).1)).2 = false) :
    (flowConnectionConfigurationModel.Flatten c (flowConnectionConfigurationModel.empty P)
          (.member (.MemberConditional wc))
        = (⟨.known [(c.flattenConditional wc).1], .null⟩,
            Diagnostics.Append [] (c.flattenConditional wc).2) ∧
      Diagnostics.HasError (Diagnostics.Append [] (c.flattenConditional wc).2) = false ∧
      (flowConnectionConfigurationModel.Expand c (flowConnectionConfigurationModel.Flatten c
          (flowConnectionConfigurationModel.empty P) (.member (.MemberConditional wc))).1).1
        = some (.MemberConditional (c.expandConditional (some (c.flattenConditional wc).1)).1) ∧
      Diagnostics.HasError (flowConnectionConfigurationModel.Expand c
        (flowConnectionConfigurationModel.Flatten c (flowConnectionConfigurationModel.empty P)
          (.member (.MemberConditional wc))).1).2 = false ∧
      ((flowConnectionConfigurationModel.Expand c (flowConnectionConfigurationModel.Flatten c
          (flowConnectionConfigurationModel.empty P) (.member (.MemberConditional wc))).1).1
          = some (.MemberConditional wc)
        ↔ (c.expandConditional (some (c.flattenConditional wc).1)).1 = wc)) ∧
    (flowConnectionConfigurationModel.Flatten c (flowConnectionConfigurationModel.empty P)
          (.member (.MemberData wd))
        = (⟨.null, .known [(c.flattenData wd).1]⟩,
            Diagnostics.Append [] (c.flattenData wd).2) ∧
      Diagnostics.HasError (Diagnostics.Append [] (c.flattenData wd).2) = false ∧
      (flowConnectionConfigurationModel.Expand c (flowConnectionConfigurationModel.Flatten c
          (flowConnectionConfigurationModel.empty P) (.member (.MemberData wd))).1).1
        = some (.MemberData (c.expandData (some (c.flattenData wd).1)).1) ∧
      Diagnostics.HasError (flowConnectionConfigurationModel.Expand c
        (flowConnectionConfigurationModel.Flatten c (flowConnectionConfigurationModel.empty P)
          (.member (.MemberData wd))).1).2 = false ∧
      ((flowConnectionConfigurationModel.Expand c (flowConnectionConfigurationModel.Flatten c
          (flowConnectionConfigurationModel.empty P) (.member (.MemberData wd))).1).1
          = some (.MemberData wd)
        ↔ (c.expandData (some (c.flattenData wd).1)).1 = wd)) := by
  constructor
  · simp [flowConnectionConfigurationModel.Flatten, flowConnectionConfigurationModel.Expand,
      flowConnectionConfigurationModel.empty, flattenMember_ok _ _ _ _ hFc,
      expandMember_single _ _ _ hEc, ListNestedObjectValueOf.IsNull,
      Diagnostics.hasError_Append_nil_left, hFc, hEc]
  · simp [flowConnectionConfigurationModel.Flatten, flowConnectionConfigurationModel.Expand,
      flowConnectionConfigurationModel.empty, flattenMember_ok _ _ _ _ hFd,
      expandMember_single _ _ _ hEd, ListNestedObjectValueOf.IsNull,
      Diagnostics.hasError_Append_nil_left, hFd, hEd]

/-- C4 (amended) at a Conditional member and a Data member, both of which come back
unchanged. -/
theorem C4_witness :
    Diagnostics.HasError (exampleConnectionConverters.flattenData
      ("document", "modelInput")).2 = false ∧
    (flowConnectionConfigurationModel.Expand exampleConnectionConverters
      (flowConnectionConfigurationModel.Flatten exampleConnectionConverters
        (flowConnectionConfigurationModel.empty exampleConnectionPayloads)
        (.member (.MemberData ("document", "modelInput")))).1).1
      = some (.MemberData ("document", "modelInput")) :=
  ⟨rfl,
    (C4_connection_flatten_then_expand exampleConnectionConverters "HighScore"
      ("document", "modelInput") rfl rfl rfl rfl).2.2.2.2.2.mpr rfl⟩

/-- C5 (as stated) fails: with payload converters that report no error and do not keep the
prompt ARN, a Resource member flattens into an empty model and expands again without error,
to a Resource member whose payload is not the payload that went in. -/
theorem C5_counterexample :
    Diagnostics.HasError (lossyPromptSourceConverters.flattenResource
      "arn:aws:bedrock:prompt/P1").2 = false ∧
    Diagnostics.HasError (lossyPromptSourceConverters.expandResource
      (some (lossyPromptSourceConverters.flattenResource "arn:aws:bedrock:prompt/P1").1)).2
      = false ∧
    promptFlowNodeSourceConfigurationModel.Expand lossyPromptSourceConverters
        (promptFlowNodeSourceConfigurationModel.Flatten lossyPromptSourceConverters
          (promptFlowNodeSourceConfigurationModel.empty examplePromptSourcePayloads)
          (.member (.MemberResource "arn:aws:bedrock:prompt/P1"))).1
      = (some (.MemberResource ""), []) ∧
    (PromptFlowNodeSourceConfiguration.MemberResource "" :
        PromptFlowNodeSourceConfiguration examplePromptSourcePayloads)
      ≠ .MemberResource "arn:aws:bedrock:prompt/P1" := by
  refine ⟨rfl, rfl, rfl, fun h => ?_⟩
  have h2 : ("" : String) = "arn:aws:bedrock:prompt/P1" :=
    PromptFlowNodeSourceConfiguration.MemberResource.inj h
  exact absurd h2 (by decide)

/-- C5 (amended): for every `PromptFlowNodeSourceConfiguration` member `v` (Inline or
Resource) whose payload converts without error (it flattens without error and the flattened
payload expands without error), flattening `v` into an empty
`promptFlowNodeSourceConfigurationModel` and then calling `Expand` returns, without error, a
member of the same variant whose payload is the payload of `v` flattened and expanded again;
that member is `v` itself if and only if the payload converters give the payload back
unchanged. -/
theorem C5_prompt_source_flatten_then_expand {P : PromptSourcePayloads}
    (c : PromptSourceConverters P)
    (wi : P.PromptFlowNodeInlineConfiguration) (wr : P.PromptFlowNodeResourceConfiguration)
    (hFi : Diagnostics.HasError (c.flattenInline wi).2 = false)
    (hEi : Diagnostics.HasError (c.expandInline (some (c.flattenInline wi).1)).2 = false)
    (hFr : Diagnostics.HasError (c.flattenResource wr).2 = false)
    (hEr : Diagnostics.HasError (c.expandResource (some (c.flattenResource wr).1)).2
      = false) :
    (Diagnostics.HasError (promptFlowNodeSourceConfigurationModel.Flatten c
        (promptFlowNodeSourceConfigurationModel.empty P) (.member (.MemberInline wi))).2
        = false ∧
      (promptFlowNodeSourceConfigurationModel.Expand c
        (promptFlowNodeSourceConfigurationModel.Flatten c
          (promptFlowNodeSourceConfigurationModel.empty P) (.member (.MemberInline wi))).1).1
        = some (.MemberInline (c.expandInline (some (c.flattenInline wi).1)).1) ∧
      Diagnostics.HasError (promptFlowNodeSourceConfigurationModel.Expand c
        (promptFlowNodeSourceConfigurationModel.Flatten c
          (promptFlowNodeSourceConfigurationModel.empty P) (.member (.MemberInline wi))).1).2
        = false ∧
      ((promptFlowNodeSourceConfigurationModel.Expand c
        (promptFlowNodeSourceConfigurationModel.Flatten c
          (promptFlowNodeSourceConfigurationModel.empty P) (.member (.MemberInline wi))).1).1
          = some (.MemberInline wi)
        ↔ (c.expandInline (some (c.flattenInline wi).1)).1 = wi)) ∧
    (Diagnostics.HasError (promptFlowNodeSourceConfigurationModel.Flatten c
        (promptFlowNodeSourceConfigurationModel.empty P) (.member (.MemberResource wr))).2
        = false ∧
      (promptFlowNodeSourceConfigurationModel.Expand c
        (promptFlowNodeSourceConfigurationModel.Flatten c
          (promptFlowNodeSourceConfigurationModel.empty P)
          (.member (.MemberResource wr))).1).1
        = some (.MemberResource (c.expandResource (some (c.flattenResource wr).1)).1) ∧
      Diagnostics.HasError (promptFlowNodeSourceConfigurationModel.Expand c
        (promptFlowNodeSourceConfigurationModel.Flatten c
          (promptFlowNodeSourceConfigurationModel.empty P)
          (.member (.MemberResource wr))).1).2 = false ∧
      ((promptFlowNodeSourceConfigurationModel.Expand c
        (promptFlowNodeSourceConfigurationModel.Flatten c
          (promptFlowNodeSourceConfigurationModel.empty P)
          (.member (.MemberResource wr))).1).1 = some (.MemberResource wr)
        ↔ (c.expandResource (some (c.flattenResource wr).1)).1 = wr)) := by
  constructor
  · simp [promptFlowNodeSourceConfigurationModel.Flatten,
      promptFlowNodeSourceConfigurationModel.Expand,
      promptFlowNodeSourceConfigurationModel.empty, flattenMember_ok _ _ _ _ hFi,
      expandMember_single _ _ _ hEi, ListNestedObjectValueOf.IsNull,
      Diagnostics.hasError_Append_nil_left, hFi, hEi]
  · simp [promptFlowNodeSourceConfigurationModel.Flatten,
      promptFlowNodeSourceConfigurationModel.Expand,
      promptFlowNodeSourceConfigurationModel.empty, flattenMember_ok _ _ _ _ hFr,
      expandMember_single _ _ _ hEr, ListNestedObjectValueOf.IsNull,
      Diagnostics.hasError_Append_nil_left, hFr, hEr]

/-- C5 (amended) at a Resource member, which comes back unchanged. -/
theorem C5_witness :
    Diagnostics.HasError (examplePromptSourceConverters.flattenResource
      "arn:aws:bedrock:prompt/P1").2 = false ∧
    (promptFlowNodeSourceConfigurationModel.Expand examplePromptSourceConverters
      (promptFlowNodeSourceConfigurationModel.Flatten examplePromptSourceConverters
        (promptFlowNodeSourceConfigurationModel.empty examplePromptSourcePayloads)
        (.member (.MemberResource "arn:aws:bedrock:prompt/P1"))).1).1
      = some (.MemberResource "arn:aws:bedrock:prompt/P1") :=
  ⟨rfl,
    (C5_prompt_source_flatten_then_expand examplePromptSourceConverters
      "anthropic.claude-v2" "arn:aws:bedrock:prompt/P1" rfl rfl rfl rfl).2.2.2.2.mpr rfl⟩

/-- C6 (as stated) fails: with payload converters that report no error and do not keep the
bucket name, an S3 member flattens into an empty model and expands again without error, to
an S3 member whose payload is not the payload that went in. -/
theorem C6_counterexample :
    Diagnostics.HasError (lossyRetrievalConverters.flattenS3 "my-bucket").2 = false ∧
    Diagnostics.HasError (lossyRetrievalConverters.expandS3
      (some (lossyRetrievalConverters.flattenS3 "my-bucket").1)).2 = false ∧
    retrievalFlowNodeServiceConfigurationModel.Expand lossyRetrievalConverters
        (retrievalFlowNodeServiceConfigurationModel.Flatten lossyRetrievalConverters
          (retrievalFlowNodeServiceConfigurationModel.empty String)
          (.member (.MemberS3 "my-bucket"))).1
      = (some (.MemberS3 ""), []) ∧
    (RetrievalFlowNodeServiceConfiguration.MemberS3 "" :
        RetrievalFlowNodeServiceConfiguration String) ≠ .MemberS3 "my-bucket" := by
  refine ⟨rfl, rfl, rfl, fun h => ?_⟩
  have h2 : ("" : String) = "my-bucket" := RetrievalFlowNodeServiceConfiguration.MemberS3.inj h
  exact absurd h2 (by decide)

/-- C6 (amended): for every `RetrievalFlowNodeServiceConfigurationMemberS3` value whose
payload converts without error (it flattens without error and the flattened payload expands
without error), flattening it into an empty `retrievalFlowNodeServiceConfigurationModel` and
then calling `Expand` returns, without error, an S3 member whose payload is the payload that
went in flattened and expanded again; it is the payload that went in if and only if the
payload converters give it back unchanged. -/
theorem C6_retrieval_service_flatten_then_expand {W M : Type}
    (c : RetrievalServiceConverters W M) (w : W)
    (hF : Diagnostics.HasError (c.flattenS3 w).2 = false)
    (hE : Diagnostics.HasError (c.expandS3 (some (c.flattenS3 w).1)).2 = false) :
    Diagnostics.HasError (retrievalFlowNodeServiceConfigurationModel.Flatten c
        (retrievalFlowNodeServiceConfigurationModel.empty M) (.member (.MemberS3 w))).2
        = false ∧
      (retrievalFlowNodeServiceConfigurationModel.Expand c
        (retrievalFlowNodeServiceConfigurationModel.Flatten c
          (retrievalFlowNodeServiceConfigurationModel.empty M) (.member (.MemberS3 w))).1).1
        = some (.MemberS3 (c.expandS3 (some (c.flattenS3 w).1)).1) ∧
      Diagnostics.HasError (retrievalFlowNodeServiceConfigurationModel.Expand c
        (retrievalFlowNodeServiceConfigurationModel.Flatten c
          (retrievalFlowNodeServiceConfigurationModel.empty M) (.member (.MemberS3 w))).1).2
        = false ∧
      ((retrievalFlowNodeServiceConfigurationModel.Expand c
        (retrievalFlowNodeServiceConfigurationModel.Flatten c
          (retrievalFlowNodeServiceConfigurationModel.empty M) (.member (.MemberS3 w))).1).1
          = some (.MemberS3 w)
        ↔ (c.expandS3 (some (c.flattenS3 w).1)).1 = w) := by
  simp [retrievalFlowNodeServiceConfigurationModel.Flatten,
    retrievalFlowNodeServiceConfigurationModel.Expand,
    retrievalFlowNodeServiceConfigurationModel.empty, flattenMember_ok _ _ _ _ hF,
    expandMember_single _ _ _ hE, ListNestedObjectValueOf.IsNull,
    Diagnostics.hasError_Append_nil_left, hF, hE]

/-- C6 (amended) at an S3 member naming a bucket, which comes back unchanged. -/
theorem C6_witness :
    Diagnostics.HasError (exampleRetrievalConverters.flattenS3 "my-bucket").2 = false ∧
    (retrievalFlowNodeServiceConfigurationModel.Expand exampleRetrievalConverters
      (retrievalFlowNodeServiceConfigurationModel.Flatten exampleRetrievalConverters
        (retrievalFlowNodeServiceConfigurationModel.empty String)
        (.member (.MemberS3 "my-bucket"))).1).1
      = some (.MemberS3 "my-bucket") :=
  ⟨rfl,
    (C6_retrieval_service_flatten_then_expand exampleRetrievalConverters "my-bucket"
      rfl rfl).2.2.2.mpr rfl⟩

/-- C7 (defect in the code): the claim says a configured union container block passes
validation when exactly one of its member blocks is present. In the schema the
`ExactlyOneOf` validators are attached to the nested object of the container, so each
expression `MatchRelative().AtParent().AtName(x)` leads from the element
`...configuration[k]` to `...configuration.x`, which the schema does not have. Hence for
every configuration, the validators of an element of the node `configuration` block, of the
`source_configuration` block and of the connection `configuration` block report an error,
whichever member blocks the element holds, as long as the element is not unknown. -/
theorem C7_exactly_one_of_rejects_every_container_element (config : Value) (i k : Nat)
    (v : Value) (hk : v.IsUnknown = false) :
    (GetAttribute config (nodeConfigurationPath i k) = some v →
      Diagnostics.HasError (NestedBlockObjectValidate flowSchema config
        nodeConfigurationBlock (nodeConfigurationPath i k)) = true) ∧
    (GetAttribute config (sourceConfigurationPath i k) = some v →
      Diagnostics.HasError (NestedBlockObjectValidate flowSchema config
        sourceConfigurationBlock (sourceConfigurationPath i k)) = true) ∧
    (GetAttribute config (connectionConfigurationPath i k) = some v →
      Diagnostics.HasError (NestedBlockObjectValidate flowSchema config
        connectionConfigurationBlock (connectionConfigurationPath i k)) = true) := by
  refine ⟨fun hv => ?_, fun hv => ?_, fun hv => ?_⟩
  · exact NestedBlockObjectValidate_invalid_expression flowSchema config
      nodeConfigurationBlock
      ⟨nodeConfigurationBlock, [.SizeAtMost 1], [], [nodeConfigurationExactlyOneOf]⟩
      _ v _ _ (by decide) rfl hv hk rfl
  · exact NestedBlockObjectValidate_invalid_expression flowSchema config
      sourceConfigurationBlock
      ⟨sourceConfigurationBlock, [.SizeAtMost 1], [], [sourceConfigurationExactlyOneOf]⟩
      _ v _ _ (by decide) rfl hv hk rfl
  · exact NestedBlockObjectValidate_invalid_expression flowSchema config
      connectionConfigurationBlock
      ⟨connectionConfigurationBlock, [.SizeAtMost 1], [], [connectionConfigurationExactlyOneOf]⟩
      _ v _ _ (by decide) rfl hv hk rfl

/-- C7 at the configuration of the acceptance test `testAccFlowConfig_definition`: the
`configuration` block of its first node holds exactly the member `input`, and its
validators report an error. -/
theorem C7_witness :
    (nodeConfigurationObject [("input", .list [.object []])]).IsUnknown = false ∧
    GetAttribute
      (testAccFlowConfig_definition (nodeConfigurationObject [("input", .list [.object []])]))
      (nodeConfigurationPath 0 0)
      = some (nodeConfigurationObject [("input", .list [.object []])]) ∧
    Diagnostics.HasError (NestedBlockObjectValidate flowSchema
      (testAccFlowConfig_definition (nodeConfigurationObject [("input", .list [.object []])]))
      nodeConfigurationBlock (nodeConfigurationPath 0 0)) = true :=
  ⟨rfl, rfl,
    (C7_exactly_one_of_rejects_every_container_element
      (testAccFlowConfig_definition (nodeConfigurationObject [("input", .list [.object []])]))
      0 0 (nodeConfigurationObject [("input", .list [.object []])]) rfl).1 rfl⟩

/-- C8: when `Read` gets as far as calling `findFlowByID` (reading the prior state reports
no error), it removes the resource from state and reports a warning but no error diagnostic
exactly when `findFlowByID` returns a not-found error (`tfresource.NotFound`); for every
other error from `findFlowByID`, `Read` reports an error diagnostic, does not remove the
resource, does not write the state and leaves the state as it was. -/
theorem C8_read_removes_state_exactly_on_not_found {D : Type} (msgs : Messages)
    (stateGet : resourceFlowModel D × Diagnostics) (conn : GetFlowAPI)
    (flatten : Option GetFlowOutput → resourceFlowModel D → resourceFlowModel D × Diagnostics)
    (stateSet : resourceFlowModel D → Diagnostics)
    (resp : Response (resourceFlowModel D))
    (hget : Diagnostics.HasError (Diagnostics.Append resp.Diagnostics stateGet.2) = false) :
    ((Call.StateRemoveResource ∈ (Read msgs stateGet conn flatten stateSet resp).2 ∧
        (Read msgs stateGet conn flatten stateSet resp).1.State = none ∧
        Diagnostics.HasWarning (Read msgs stateGet conn flatten stateSet resp).1.Diagnostics
          = true ∧
        Diagnostics.HasError (Read msgs stateGet conn flatten stateSet resp).1.Diagnostics
          = false)
      ↔ NotFound (findFlowByID conn stateGet.1.ID.ValueString).2 = true) ∧
    (∀ e, (findFlowByID conn stateGet.1.ID.ValueString).2 = some e →
      NotFound (some e) = false →
      Diagnostics.HasError (Read msgs stateGet conn flatten stateSet resp).1.Diagnostics
          = true ∧
        Call.StateRemoveResource ∉ (Read msgs stateGet conn flatten stateSet resp).2 ∧
        Call.StateSet ∉ (Read msgs stateGet conn flatten stateSet resp).2 ∧
        (Read msgs stateGet conn flatten stateSet resp).1.State = resp.State) := by
  constructor
  · by_cases hn : NotFound (findFlowByID conn stateGet.1.ID.ValueString).2 = true
    · simp only [hn, iff_true]
      rw [Read_of_NotFound msgs stateGet conn flatten stateSet resp hget hn]
      refine ⟨by simp, rfl, ?_, ?_⟩
      · rw [Diagnostics.hasWarning_Append]
        simp [Diagnostics.HasWarning, NewResourceNotFoundWarningDiagnostic]
      · rw [Diagnostics.hasError_Append, hget]
        simp [Diagnostics.HasError, NewResourceNotFoundWarningDiagnostic]
    · constructor
      · intro h
        exact absurd h.1 (Read_remove_only_NotFound msgs stateGet conn flatten stateSet resp
          (by simpa using hn))
      · intro h
        exact absurd h hn
  · intro e he hn
    rw [Read_of_error msgs stateGet conn flatten stateSet resp e hget he hn]
    exact ⟨Diagnostics.hasError_AddError _ _ _, by simp, by simp, rfl⟩

/-- C8 at a flow that the service no longer has, and at a failing call. -/
theorem C8_witness :
    Diagnostics.HasError
      (Diagnostics.Append ([] : Diagnostics) (exampleState, ([] : Diagnostics)).2) = false ∧
    (Read exampleMessages (exampleState, []) (apiWithError flowNotFoundError) exampleFlatten
      (fun _ => []) ⟨[], some exampleState⟩).1.State = none ∧
    Diagnostics.HasError (Read exampleMessages (exampleState, [])
      (apiWithError (.Other "AccessDeniedException")) exampleFlatten
      (fun _ => []) ⟨[], some exampleState⟩).1.Diagnostics = true :=
  ⟨rfl,
    (((C8_read_removes_state_exactly_on_not_found exampleMessages (exampleState, [])
      (apiWithError flowNotFoundError) exampleFlatten (fun _ => [])
      ⟨[], some exampleState⟩ rfl).1).2 rfl).2.1,
    ((C8_read_removes_state_exactly_on_not_found exampleMessages (exampleState, [])
      (apiWithError (.Other "AccessDeniedException")) exampleFlatten (fun _ => [])
      ⟨[], some exampleState⟩ rfl).2 (.Other "AccessDeniedException") rfl rfl).1⟩

/-- C9: when `Delete` gets as far as calling `DeleteFlow` (reading the prior state reports
no error) and the call fails with a `ResourceNotFoundException`, `Delete` returns with no
error diagnostic and does not run the deletion waiter; when the call fails with any other
error, `Delete` reports exactly one error diagnostic and does not run the waiter. -/
theorem C9_delete_on_failed_call {D : Type} (msgs : Messages)
    (stateGet : resourceFlowModel D × Diagnostics)
    (deleteFlow : DeleteFlowInput → Option GoError) (polls : List GetFlowAPI)
    (resp : Response (resourceFlowModel D)) (e : GoError)
    (hget : Diagnostics.HasError (Diagnostics.Append resp.Diagnostics stateGet.2) = false)
    (he : deleteFlow ⟨stateGet.1.ID.ValueStringPointer⟩ = some e) :
    (IsAResourceNotFoundException e = true →
      Diagnostics.HasError (Delete msgs stateGet deleteFlow polls resp).1.Diagnostics = false ∧
      (Delete msgs stateGet deleteFlow polls resp).2.any Call.isWaitFlowDeleted = false) ∧
    (IsAResourceNotFoundException e = false →
      Diagnostics.ErrorsCount (Delete msgs stateGet deleteFlow polls resp).1.Diagnostics = 1 ∧
      (Delete msgs stateGet deleteFlow polls resp).2.any Call.isWaitFlowDeleted = false) := by
  constructor
  · intro hr
    simp [Delete, hget, he, hr, Call.isWaitFlowDeleted]
  · intro hr
    simp [Delete, hget, he, hr, Call.isWaitFlowDeleted,
      Diagnostics.errorsCount_AddError _ _ _ hget]

/-- C9 at a call that fails because access is denied. -/
theorem C9_witness :
    Diagnostics.ErrorsCount (Delete exampleMessages (exampleState, [])
      (fun _ => some (.Other "AccessDeniedException")) [apiWithError flowNotFoundError]
      ⟨[], some exampleState⟩).1.Diagnostics = 1 ∧
    (Delete exampleMessages (exampleState, [])
      (fun _ => some (.Other "AccessDeniedException")) [apiWithError flowNotFoundError]
      ⟨[], some exampleState⟩).2.any Call.isWaitFlowDeleted = false :=
  (C9_delete_on_failed_call exampleMessages (exampleState, [])
    (fun _ => some (.Other "AccessDeniedException")) [apiWithError flowNotFoundError]
    ⟨[], some exampleState⟩ (.Other "AccessDeniedException") rfl rfl).2 rfl

/-- C10: `waitFlowDeleted` returns without error only after a poll of `statusFlow` has
reported the flow as not found, all polls before it having reported a found flow in status
DELETING or ACTIVE; a poll that reports DELETING or ACTIVE does not decide the wait, which
goes on with the next poll; a poll that reports an error, or a found flow in any other
status, makes the wait return an error; hence whenever `Delete` finishes without an error
diagnostic after a successful `DeleteFlow` call, some call of `findFlowByID` has reported
not-found. -/
theorem C10_wait_deleted_succeeds_only_after_not_found {D : Type} (msgs : Messages)
    (stateGet : resourceFlowModel D × Diagnostics)
    (deleteFlow : DeleteFlowInput → Option GoError) (polls : List GetFlowAPI)
    (resp : Response (resourceFlowModel D)) (id : String) (c : GetFlowAPI) :
    ((waitFlowDeleted polls id).2 = none →
      ∃ pre c2 post, polls = pre ++ c2 :: post ∧
        (∀ p ∈ pre, (statusFlow p id).Error = none ∧ (statusFlow p id).Result.isSome = true ∧
          ((statusFlow p id).State = statusDeleting ∨ (statusFlow p id).State = statusNormal)) ∧
        statusFlow c2 id = ⟨none, "", none⟩ ∧
        NotFound (findFlowByID c2 id).2 = true) ∧
    ((statusFlow c id).Error = none → (statusFlow c id).Result.isSome = true →
      ((statusFlow c id).State = statusDeleting ∨ (statusFlow c id).State = statusNormal) →
      (waitFlowDeleted (c :: polls) id).1 = (waitFlowDeleted polls id).1 ∧
      ((waitFlowDeleted (c :: polls) id).2 = none ↔ (waitFlowDeleted polls id).2 = none)) ∧
    (((statusFlow c id).Error ≠ none ∨
        ((statusFlow c id).Result.isSome = true ∧
          ¬ ((statusFlow c id).State = statusDeleting ∨
            (statusFlow c id).State = statusNormal))) →
      (waitFlowDeleted (c :: polls) id).2 ≠ none) ∧
    (Diagnostics.HasError (Diagnostics.Append resp.Diagnostics stateGet.2) = false →
      deleteFlow ⟨stateGet.1.ID.ValueStringPointer⟩ = none →
      Diagnostics.HasError (Delete msgs stateGet deleteFlow polls resp).1.Diagnostics = false →
      ∃ c2 ∈ polls, NotFound (findFlowByID c2 stateGet.1.ID.ValueString).2 = true) := by
  have hsucc : ∀ (ps : List GetFlowAPI) (i : String), (waitFlowDeleted ps i).2 = none →
      ∃ pre c2 post, ps = pre ++ c2 :: post ∧
        (∀ p ∈ pre, (statusFlow p i).Error = none ∧ (statusFlow p i).Result.isSome = true ∧
          ((statusFlow p i).State = statusDeleting ∨ (statusFlow p i).State = statusNormal)) ∧
        statusFlow c2 i = ⟨none, "", none⟩ ∧
        NotFound (findFlowByID c2 i).2 = true := by
    intro ps i h
    rw [waitFlowDeleted_eq] at h
    obtain ⟨pre, c2, post, hp, hpre, hr, he⟩ :=
      waitLoop_deleted_success (fun conn => statusFlow conn i) ps ⟨0, 0, ""⟩ rfl h
    have hn := statusFlow_nil_nil c2 i hr he
    exact ⟨pre, c2, post, hp, hpre, statusFlow_of_NotFound c2 i hn, hn⟩
  refine ⟨hsucc polls id, ?_, ?_, ?_⟩
  · intro he hr hs
    obtain ⟨o, ho⟩ := Option.isSome_iff_exists.mp hr
    rw [waitFlowDeleted_eq, waitFlowDeleted_eq, List.map_cons,
      waitLoop_deleted_pending _ _ _ o he ho hs]
    exact waitLoop_deleted_state_irrelevant _ _ _ rfl rfl
  · intro h
    rw [waitFlowDeleted_eq, List.map_cons]
    rcases h with he | ⟨hr, hs⟩
    · cases hE : (statusFlow c id).Error with
      | none => exact absurd hE he
      | some e =>
        rw [waitLoop_deleted_error _ _ _ e hE]
        simp
    · obtain ⟨o, ho⟩ := Option.isSome_iff_exists.mp hr
      cases hE : (statusFlow c id).Error with
      | some e =>
        rw [waitLoop_deleted_error _ _ _ e hE]
        simp
      | none =>
        rw [waitLoop_deleted_unexpected _ _ _ o hE ho hs]
        simp
  · intro hget hdel hok
    have hw := Delete_ok_waiter_ok msgs stateGet deleteFlow polls resp hget hdel hok
    obtain ⟨pre, c2, post, hp, _, _, hn⟩ := hsucc polls stateGet.1.ID.ValueString hw
    exact ⟨c2, by rw [hp]; simp, hn⟩

/-- C10 at a deletion that is polled three times: ACTIVE, DELETING, then not found. -/
theorem C10_witness :
    (waitFlowDeleted [apiWithStatus "ACTIVE", apiWithStatus "DELETING",
        apiWithError flowNotFoundError] "FLOW123456").2 = none ∧
    Diagnostics.HasError (Delete exampleMessages (exampleState, []) (fun _ => none)
      [apiWithStatus "ACTIVE", apiWithStatus "DELETING", apiWithError flowNotFoundError]
      ⟨[], some exampleState⟩).1.Diagnostics = false ∧
    (∃ c2 ∈ [apiWithStatus "ACTIVE", apiWithStatus "DELETING",
        apiWithError flowNotFoundError],
      NotFound (findFlowByID c2 exampleState.ID.ValueString).2 = true) ∧
    (waitFlowDeleted [apiWithStatus "Prepared", apiWithError flowNotFoundError]
      "FLOW123456").2 ≠ none :=
  ⟨rfl, rfl,
    (C10_wait_deleted_succeeds_only_after_not_found exampleMessages (exampleState, [])
      (fun _ => none)
      [apiWithStatus "ACTIVE", apiWithStatus "DELETING", apiWithError flowNotFoundError]
      ⟨[], some exampleState⟩ "FLOW123456" (apiWithStatus "ACTIVE")).2.2.2 rfl rfl rfl,
    (C10_wait_deleted_succeeds_only_after_not_found exampleMessages (exampleState, [])
      (fun _ => none) [apiWithError flowNotFoundError]
      ⟨[], some exampleState⟩ "FLOW123456" (apiWithStatus "Prepared")).2.2.1
      (Or.inr ⟨rfl, by decide⟩)⟩

/-- C11: `findFlowByID` classifies the result of the `GetFlow` call, for every id: an error
that is a `ResourceNotFoundException` becomes a not-found error carrying the original error
as `LastError` and the request as `LastRequest`; any other error is returned unchanged; a
nil output with a nil error becomes an empty-result error; otherwise the output is returned
unchanged with a nil error. In every error case the returned output is nil. -/
theorem C11_findFlowByID_classifies_get_flow_result (conn : GetFlowAPI) (id : String) :
    (∀ out e, conn ⟨id⟩ = (out, some e) → IsAResourceNotFoundException e = true →
      findFlowByID conn id = (none, some (.NotFoundError e ⟨id⟩))) ∧
    (∀ out e, conn ⟨id⟩ = (out, some e) → IsAResourceNotFoundException e = false →
      findFlowByID conn id = (none, some e)) ∧
    (conn ⟨id⟩ = (none, none) →
      findFlowByID conn id = (none, some (.EmptyResultError ⟨id⟩))) ∧
    (∀ o, conn ⟨id⟩ = (some o, none) → findFlowByID conn id = (some o, none)) ∧
    (∀ e, (findFlowByID conn id).2 = some e → (findFlowByID conn id).1 = none) := by
  refine ⟨?_, ?_, ?_, ?_, ?_⟩
  · intro out e h hr
    simp [findFlowByID, h, hr]
  · intro out e h hr
    simp [findFlowByID, h, hr]
  · intro h
    simp [findFlowByID, h, NewEmptyResultError]
  · intro o h
    simp [findFlowByID, h]
  · intro e
    unfold findFlowByID
    cases h2 : (conn ⟨id⟩).2 with
    | some e2 =>
      simp only [h2]
      split <;> simp
    | none =>
      cases h1 : (conn ⟨id⟩).1 <;> simp [h1, h2]

/-- C11 at a service that answers with a wrapped `ResourceNotFoundException`. -/
theorem C11_witness :
    apiWithError flowNotFoundError ⟨"FLOW123456"⟩ = (none, some flowNotFoundError) ∧
    IsAResourceNotFoundException flowNotFoundError = true ∧
    findFlowByID (apiWithError flowNotFoundError) "FLOW123456"
      = (none, some (.NotFoundError flowNotFoundError ⟨"FLOW123456"⟩)) :=
  ⟨rfl, rfl,
    (C11_findFlowByID_classifies_get_flow_result (apiWithError flowNotFoundError)
      "FLOW123456").1 none flowNotFoundError rfl rfl⟩

/-- C18: for every id, the refresh function returned by `statusFlow` maps the result of
`findFlowByID` as follows: a not-found error gives `(nil, "", nil)`, so a flow that the
service reports as missing is never reported as an error; any other error gives
`(nil, "", that error)`; a success gives the output itself, the output's `Status` as a
string unchanged, and a nil error. -/
theorem C18_statusFlow_maps_finder_result (conn : GetFlowAPI) (id : String) :
    (NotFound (findFlowByID conn id).2 = true → statusFlow conn id = ⟨none, "", none⟩) ∧
    (∀ out e, conn ⟨id⟩ = (out, some e) → IsAResourceNotFoundException e = true →
      (statusFlow conn id).Error = none) ∧
    (∀ e, (findFlowByID conn id).2 = some e → NotFound (some e) = false →
      statusFlow conn id = ⟨none, "", some e⟩) ∧
    (∀ o, findFlowByID conn id = (some o, none) →
      statusFlow conn id = ⟨some o, o.Status, none⟩) := by
  refine ⟨statusFlow_of_NotFound conn id, ?_, ?_, ?_⟩
  · intro out e h hr
    have hf : findFlowByID conn id = (none, some (.NotFoundError e ⟨id⟩)) := by
      simp [findFlowByID, h, hr]
    rw [statusFlow_of_NotFound conn id (by rw [hf]; rfl)]
  · intro e he hn
    unfold statusFlow
    rcases hf : findFlowByID conn id with ⟨out, err⟩
    rw [hf] at he
    simp only [] at he
    subst he
    simp [hn]
  · intro o h
    unfold statusFlow
    simp [h, NotFound]

/-- C18 at a flow in status ACTIVE and at a call that is denied. -/
theorem C18_witness :
    findFlowByID (apiWithStatus "ACTIVE") "FLOW123456"
      = (some ⟨"FLOW123456", "tf-acc-test", "ACTIVE"⟩, none) ∧
    statusFlow (apiWithStatus "ACTIVE") "FLOW123456"
      = ⟨some ⟨"FLOW123456", "tf-acc-test", "ACTIVE"⟩, "ACTIVE", none⟩ ∧
    statusFlow (apiWithError (.Other "AccessDeniedException")) "FLOW123456"
      = ⟨none, "", some (.Other "AccessDeniedException")⟩ :=
  ⟨rfl,
    (C18_statusFlow_maps_finder_result (apiWithStatus "ACTIVE") "FLOW123456").2.2.2
      ⟨"FLOW123456", "tf-acc-test", "ACTIVE"⟩ rfl,
    (C18_statusFlow_maps_finder_result (apiWithError (.Other "AccessDeniedException"))
      "FLOW123456").2.2.1 (.Other "AccessDeniedException") rfl rfl⟩

/-- C19: for every `flowNodeConfigurationModel` `m` (empty or not) and every supported union
member `v` whose payload flattens without error, `Flatten` assigns the block of `m` that
corresponds to the variant of `v` a list of exactly one element and leaves the other seven
blocks of `m` as they were; flattening into an empty model gives a model whose only non-null
block is that one. The same holds for `flowConnectionConfigurationModel`,
`promptFlowNodeSourceConfigurationModel` and `retrievalFlowNodeServiceConfigurationModel`. -/
theorem C19_flatten_assigns_only_the_member_block {P : FlowNodePayloads}
    {PC : FlowConnectionPayloads} {PS : PromptSourcePayloads} {W M : Type}
    (c : FlowNodeConverters P) (m : flowNodeConfigurationModel P)
    (v : FlowNodeConfiguration P)
    (cc : FlowConnectionConverters PC) (mc : flowConnectionConfigurationModel PC)
    (wc : PC.FlowConditionalConnectionConfiguration) (wd : PC.FlowDataConnectionConfiguration)
    (cs : PromptSourceConverters PS) (ms : promptFlowNodeSourceConfigurationModel PS)
    (wi : PS.PromptFlowNodeInlineConfiguration) (wr : PS.PromptFlowNodeResourceConfiguration)
    (cr : RetrievalServiceConverters W M) (mr : retrievalFlowNodeServiceConfigurationModel M)
    (w3 : W)
    (hv : Diagnostics.HasError (c.flattenPayload v).2 = false)
    (hc : Diagnostics.HasError (cc.flattenConditional wc).2 = false)
    (hd : Diagnostics.HasError (cc.flattenData wd).2 = false)
    (hi : Diagnostics.HasError (cs.flattenInline wi).2 = false)
    (hr : Diagnostics.HasError (cs.flattenResource wr).2 = false)
    (h3 : Diagnostics.HasError (cr.flattenS3 w3).2 = false) :
    ((flowNodeConfigurationModel.Flatten c m (.member v)).1
        = m.withBlock (c.flattenPayload v).1 ∧
      (flowNodeConfigurationModel.Flatten c (flowNodeConfigurationModel.empty P)
        (.member v)).1.nonNullBlocks = [(c.flattenPayload v).1.name]) ∧
    ((flowConnectionConfigurationModel.Flatten cc mc (.member (.MemberConditional wc))).1
        = { mc with Conditional := .known [(cc.flattenConditional wc).1] } ∧
      (flowConnectionConfigurationModel.Flatten cc mc (.member (.MemberData wd))).1
        = { mc with Data := .known [(cc.flattenData wd).1] } ∧
      (flowConnectionConfigurationModel.Flatten cc (flowConnectionConfigurationModel.empty PC)
        (.member (.MemberConditional wc))).1.nonNullBlocks = ["conditional"] ∧
      (flowConnectionConfigurationModel.Flatten cc (flowConnectionConfigurationModel.empty PC)
        (.member (.MemberData wd))).1.nonNullBlocks = ["data"]) ∧
    ((promptFlowNodeSourceConfigurationModel.Flatten cs ms (.member (.MemberInline wi))).1
        = { ms with Inline := .known [(cs.flattenInline wi).1] } ∧
      (promptFlowNodeSourceConfigurationModel.Flatten cs ms (.member (.MemberResource wr))).1
        = { ms with Resource := .known [(cs.flattenResource wr).1] } ∧
      (promptFlowNodeSourceConfigurationModel.Flatten cs
        (promptFlowNodeSourceConfigurationModel.empty PS)
        (.member (.MemberInline wi))).1.nonNullBlocks = ["inline"] ∧
      (promptFlowNodeSourceConfigurationModel.Flatten cs
        (promptFlowNodeSourceConfigurationModel.empty PS)
        (.member (.MemberResource wr))).1.nonNullBlocks = ["resource"]) ∧
    ((retrievalFlowNodeServiceConfigurationModel.Flatten cr mr (.member (.MemberS3 w3))).1
        = { mr with S3 := .known [(cr.flattenS3 w3).1] } ∧
      (retrievalFlowNodeServiceConfigurationModel.Flatten cr
        (retrievalFlowNodeServiceConfigurationModel.empty M)
        (.member (.MemberS3 w3))).1.nonNullBlocks = ["s3"]) := by
  refine ⟨⟨?_, ?_⟩, ⟨?_, ?_, ?_, ?_⟩, ⟨?_, ?_, ?_, ?_⟩, ⟨?_, ?_⟩⟩
  · rw [flowNodeConfigurationModel.Flatten_member c m v hv]
  · rw [flowNodeConfigurationModel.Flatten_empty c v hv,
      flowNodeConfigurationModel.nonNullBlocks_single]
  · simp only [flowConnectionConfigurationModel.Flatten, flattenMember_ok _ _ _ _ hc]
  · simp only [flowConnectionConfigurationModel.Flatten, flattenMember_ok _ _ _ _ hd]
  · simp only [flowConnectionConfigurationModel.Flatten, flattenMember_ok _ _ _ _ hc]
    rfl
  · simp only [flowConnectionConfigurationModel.Flatten, flattenMember_ok _ _ _ _ hd]
    rfl
  · simp only [promptFlowNodeSourceConfigurationModel.Flatten, flattenMember_ok _ _ _ _ hi]
  · simp only [promptFlowNodeSourceConfigurationModel.Flatten, flattenMember_ok _ _ _ _ hr]
  · simp only [promptFlowNodeSourceConfigurationModel.Flatten, flattenMember_ok _ _ _ _ hi]
    rfl
  · simp only [promptFlowNodeSourceConfigurationModel.Flatten, flattenMember_ok _ _ _ _ hr]
    rfl
  · simp only [retrievalFlowNodeServiceConfigurationModel.Flatten,
      flattenMember_ok _ _ _ _ h3]
  · simp only [retrievalFlowNodeServiceConfigurationModel.Flatten,
      flattenMember_ok _ _ _ _ h3]
    rfl

/-- C19 at a model that already holds a `lambda` block, flattened with an Agent member: the
`agent` block is assigned and the `lambda` block stays. -/
theorem C19_witness :
    (flowNodeConfigurationModel.Flatten exampleConverters
        (flowNodeConfigurationModel.single (.lambda "arn:aws:lambda:fn"))
        (.member (.MemberAgent "arn:aws:bedrock:agent-alias/A1"))).1
      = (flowNodeConfigurationModel.single (.lambda "arn:aws:lambda:fn")).withBlock
          (.agent "arn:aws:bedrock:agent-alias/A1") ∧
    (flowNodeConfigurationModel.Flatten exampleConverters
        (flowNodeConfigurationModel.single (.lambda "arn:aws:lambda:fn"))
        (.member (.MemberAgent "arn:aws:bedrock:agent-alias/A1"))).1.nonNullBlocks
      = ["lambda", "agent"] :=
  ⟨(C19_flatten_assigns_only_the_member_block exampleConverters
      (flowNodeConfigurationModel.single (.lambda "arn:aws:lambda:fn"))
      (.MemberAgent "arn:aws:bedrock:agent-alias/A1")
      exampleConnectionConverters (flowConnectionConfigurationModel.empty _)
      "cond" ("document", "modelInput")
      examplePromptSourceConverters (promptFlowNodeSourceConfigurationModel.empty _)
      "anthropic.claude-v2" "arn:aws:bedrock:prompt/P1"
      exampleRetrievalConverters (retrievalFlowNodeServiceConfigurationModel.empty _)
      "my-bucket" rfl rfl rfl rfl rfl rfl).1.1, rfl⟩

/-- C20: `Expand` of a `flowNodeConfigurationModel` is decided by the first non-null block in
the order prompt, lambda, knowledge_base, condition, agent, input, output, retrieval: it
returns what it returns for the model that holds that block alone, whatever the later
blocks are, which is the member of that block when the block holds one element whose payload
expands without error. Likewise `flowConnectionConfigurationModel.Expand` prefers
conditional over data: with one `conditional` element whose payload expands without error it
returns the Conditional member whatever the `data` block holds, and it returns the Data
member of a one-element `data` block only when the `conditional` block is null; and
`promptFlowNodeSourceConfigurationModel.Expand` prefers inline over resource in the same
way. Consequently `Expand` after `Flatten(m, v)` need not return the variant of `v`:
flattening an Agent member into a model that already holds a `lambda` block and expanding
gives the LambdaFunction member. -/
theorem C20_expand_prefers_first_non_null_block {P : FlowNodePayloads}
    {PC : FlowConnectionPayloads} {PS : PromptSourcePayloads}
    (c : FlowNodeConverters P) (m : flowNodeConfigurationModel P)
    (cc : FlowConnectionConverters PC) (mc : flowConnectionConfigurationModel PC)
    (cs : PromptSourceConverters PS) (ms : promptFlowNodeSourceConfigurationModel PS) :
    flowNodeConfigurationModel.Expand c m
      = flowNodeConfigurationModel.Expand c m.firstNonNull ∧
    (∀ b, m.firstNonNull = flowNodeConfigurationModel.single b →
      Diagnostics.HasError (c.expandPayload b).2 = false →
      (flowNodeConfigurationModel.Expand c m).1 = some (c.expandPayload b).1) ∧
    flowConnectionConfigurationModel.Expand cc mc
      = flowConnectionConfigurationModel.Expand cc mc.firstNonNull ∧
    promptFlowNodeSourceConfigurationModel.Expand cs ms
      = promptFlowNodeSourceConfigurationModel.Expand cs ms.firstNonNull ∧
    (flowNodeConfigurationModel.Expand exampleConverters
      (flowNodeConfigurationModel.Flatten exampleConverters
        (flowNodeConfigurationModel.single (.lambda "arn:aws:lambda:fn"))
        (.member (.MemberAgent "arn:aws:bedrock:agent-alias/A1"))).1).1
      = some (.MemberLambdaFunction "arn:aws:lambda:fn") ∧
    (∀ x, mc.Conditional = .known [x] →
      Diagnostics.HasError (cc.expandConditional (some x)).2 = false →
      (flowConnectionConfigurationModel.Expand cc mc).1
        = some (.MemberConditional (cc.expandConditional (some x)).1)) ∧
    (∀ y, mc.Conditional = .null → mc.Data = .known [y] →
      Diagnostics.HasError (cc.expandData (some y)).2 = false →
      (flowConnectionConfigurationModel.Expand cc mc).1
        = some (.MemberData (cc.expandData (some y)).1)) ∧
    (∀ x, ms.Inline = .known [x] →
      Diagnostics.HasError (cs.expandInline (some x)).2 = false →
      (promptFlowNodeSourceConfigurationModel.Expand cs ms).1
        = some (.MemberInline (cs.expandInline (some x)).1)) ∧
    (∀ y, ms.Inline = .null → ms.Resource = .known [y] →
      Diagnostics.HasError (cs.expandResource (some y)).2 = false →
      (promptFlowNodeSourceConfigurationModel.Expand cs ms).1
        = some (.MemberResource (cs.expandResource (some y)).1)) := by
  refine ⟨flowNodeConfigurationModel.Expand_firstNonNull c m, ?_,
    flowConnectionConfigurationModel.Expand_firstNonNull_connection cc mc,
    promptFlowNodeSourceConfigurationModel.Expand_firstNonNull_source cs ms, rfl,
    ?_, ?_, ?_, ?_⟩
  · intro b hb he
    rw [flowNodeConfigurationModel.Expand_firstNonNull c m, hb,
      flowNodeConfigurationModel.Expand_single c b he]
  · intro x hx he
    simp [flowConnectionConfigurationModel.Expand, hx, ListNestedObjectValueOf.IsNull,
      expandMember_single _ _ _ he]
  · intro y hn hy he
    simp [flowConnectionConfigurationModel.Expand, hn, hy, ListNestedObjectValueOf.IsNull,
      expandMember_single _ _ _ he]
  · intro x hx he
    simp [promptFlowNodeSourceConfigurationModel.Expand, hx, ListNestedObjectValueOf.IsNull,
      expandMember_single _ _ _ he]
  · intro y hn hy he
    simp [promptFlowNodeSourceConfigurationModel.Expand, hn, hy,
      ListNestedObjectValueOf.IsNull, expandMember_single _ _ _ he]

/-- C20 at a node model that holds a `lambda` block and an `agent` block, for which `Expand`
returns the LambdaFunction member, and at a connection model that holds a `conditional` block
and a `data` block, for which `Expand` returns the Conditional member. -/
theorem C20_witness :
    (modelLambdaAndAgent.firstNonNull = flowNodeConfigurationModel.single lambdaBlock ∧
      Diagnostics.HasError (exampleConverters.expandPayload lambdaBlock).2 = false ∧
      (flowNodeConfigurationModel.Expand exampleConverters modelLambdaAndAgent).1
        = some (exampleConverters.expandPayload lambdaBlock).1) ∧
    (flowConnectionConfigurationModel.Expand exampleConnectionConverters
        connectionModelBoth).1 = some (.MemberConditional "HighScore") :=
  ⟨⟨rfl, rfl, (C20_expand_prefers_first_non_null_block exampleConverters modelLambdaAndAgent
      exampleConnectionConverters (flowConnectionConfigurationModel.empty _)
      examplePromptSourceConverters (promptFlowNodeSourceConfigurationModel.empty _)).2.1
      lambdaBlock rfl rfl⟩,
    (C20_expand_prefers_first_non_null_block exampleConverters modelLambdaAndAgent
      exampleConnectionConverters connectionModelBoth
      examplePromptSourceConverters
      (promptFlowNodeSourceConfigurationModel.empty _)).2.2.2.2.2.1 "HighScore" rfl rfl⟩

/-- C17 (as stated) fails, in two ways. `waitFlowCreated` returns success on the polls
ACTIVE, not found, ACTIVE, in which no two consecutive polls report ACTIVE. And it does not
always return the `GetFlowOutput` of the last poll: when the polls end after one ACTIVE poll
the wait times out and the output is nil, although that poll returned a `GetFlowOutput`. -/
theorem C17_counterexample :
    (waitFlowCreated [apiWithStatus "ACTIVE", apiWithError flowNotFoundError,
          apiWithStatus "ACTIVE"] "FLOW123456"
        = (some ⟨"FLOW123456", "tf-acc-test", "ACTIVE"⟩, none) ∧
      [apiWithStatus "ACTIVE", apiWithError flowNotFoundError, apiWithStatus "ACTIVE"].map
          (fun conn => (statusFlow conn "FLOW123456").isActive)
        = [true, false, true]) ∧
    (waitFlowCreated [apiWithStatus "ACTIVE"] "FLOW123456"
        = (none, some (.TimeoutError "ACTIVE" ["ACTIVE"])) ∧
      (statusFlow (apiWithStatus "ACTIVE") "FLOW123456").Result
        = some ⟨"FLOW123456", "tf-acc-test", "ACTIVE"⟩) := by
  refine ⟨⟨rfl, rfl⟩, rfl, rfl⟩

/-- C17 (amended): `waitFlowCreated` returns success only when `statusFlow` has reported the
status ACTIVE on two polls, the second of them being the last poll made; a poll between the
two that finds no flow does not reset the count, so the two need not be consecutive. On
success it returns the `GetFlowOutput` of that last poll; when the wait fails it returns a
nil output, whatever the last poll returned. In both cases the error is the error of
`WaitForStateContext`, unchanged. -/
theorem C17_wait_created_success_needs_two_active_polls (polls : List GetFlowAPI)
    (id : String) :
    ((waitFlowCreated polls id).2 = none →
      ∃ pre c post, polls = pre ++ c :: post ∧
        pre.countP (fun p => (statusFlow p id).isActive) = 1 ∧
        (statusFlow c id).isActive = true ∧
        (waitFlowCreated polls id).1 = (statusFlow c id).Result ∧
        (waitFlowCreated polls id).1.isSome = true) ∧
    ((waitFlowCreated polls id).2 ≠ none → (waitFlowCreated polls id).1 = none) ∧
    waitFlowCreated polls id
      = StateChangeConf.WaitForStateContext ⟨[], [statusNormal], 20, 2⟩
          (polls.map (fun conn => statusFlow conn id)) := by
  refine ⟨?_, ?_, ?_⟩
  · intro h
    rw [waitFlowCreated_eq] at h ⊢
    obtain ⟨pre, c, post, hp, hcount, hc, hout⟩ :=
      waitLoop_created_success (fun conn => statusFlow conn id) polls ⟨0, 0, ""⟩
        (by simp) h
    refine ⟨pre, c, post, hp, by simpa using hcount, hc, hout, ?_⟩
    rw [hout]
    simp only [RefreshResult.isActive, Bool.and_eq_true] at hc
    exact hc.1.2
  · intro h
    rw [waitFlowCreated_eq] at h ⊢
    exact waitLoop_created_failure (fun conn => statusFlow conn id) polls ⟨0, 0, ""⟩
      (fun p e he => statusFlow_error_result p id e he) h
  · unfold waitFlowCreated
    simp only [outputAsGetFlowOutput_eq]

/-- C17 (amended) at the polls ACTIVE, ACTIVE, which succeed with the output of the second
poll, and at the single poll ACTIVE, which times out with a nil output. -/
theorem C17_witness :
    ((waitFlowCreated [apiWithStatus "ACTIVE", apiWithStatus "ACTIVE"] "FLOW123456").2 = none ∧
      ∃ pre c post, [apiWithStatus "ACTIVE", apiWithStatus "ACTIVE"] = pre ++ c :: post ∧
        pre.countP (fun p => (statusFlow p "FLOW123456").isActive) = 1 ∧
        (statusFlow c "FLOW123456").isActive = true ∧
        (waitFlowCreated [apiWithStatus "ACTIVE", apiWithStatus "ACTIVE"] "FLOW123456").1
          = (statusFlow c "FLOW123456").Result ∧
        (waitFlowCreated [apiWithStatus "ACTIVE", apiWithStatus "ACTIVE"]
          "FLOW123456").1.isSome = true) ∧
    ((waitFlowCreated [apiWithStatus "ACTIVE"] "FLOW123456").2 ≠ none ∧
      (waitFlowCreated [apiWithStatus "ACTIVE"] "FLOW123456").1 = none) :=
  ⟨⟨rfl, (C17_wait_created_success_needs_two_active_polls
      [apiWithStatus "ACTIVE", apiWithStatus "ACTIVE"] "FLOW123456").1 rfl⟩,
    ⟨by decide, (C17_wait_created_success_needs_two_active_polls
      [apiWithStatus "ACTIVE"] "FLOW123456").2.1 (by decide)⟩⟩

/-- C12: `Create`, handed a response without error diagnostics, writes the resource state
(calls `resp.State.Set` with the plan) if and only if every step succeeds: reading the plan,
expanding it to the create request, the `CreateFlow` call returning a non-nil output with no
error, flattening that output into the plan, and `waitFlowCreated` returning no error. If
any step fails, `Create` reports an error diagnostic, leaves the state as it was and
performs no later step: its calls end with the failing step. In particular a nil
`CreateFlow` output is reported as the error "empty output". -/
theorem C12_create_writes_state_iff_every_step_succeeds {D I O : Type} (msgs : Messages)
    (planGet : resourceFlowModel D × Diagnostics)
    (expand : resourceFlowModel D → I × Diagnostics) (getTagsIn : I → I)
    (createFlow : I → Option O × Option GoError)
    (flatten : O → resourceFlowModel D → resourceFlowModel D × Diagnostics)
    (polls : List GetFlowAPI) (stateSet : resourceFlowModel D → Diagnostics)
    (resp : Response (resourceFlowModel D))
    (r : Response (resourceFlowModel D) × List Call)
    (hr : r = Create msgs planGet expand getTagsIn createFlow flatten polls stateSet resp)
    (h0 : Diagnostics.HasError resp.Diagnostics = false) :
    (Call.StateSet ∈ r.2 ↔
      createStepsSucceed planGet expand getTagsIn createFlow flatten polls) ∧
    (¬ createStepsSucceed planGet expand getTagsIn createFlow flatten polls →
      Diagnostics.HasError r.1.Diagnostics = true ∧ r.1.State = resp.State) ∧
    (Diagnostics.HasError planGet.2 = true → r.2 = [Call.PlanGet]) ∧
    (Diagnostics.HasError planGet.2 = false →
      Diagnostics.HasError (expand planGet.1).2 = true →
      r.2 = [Call.PlanGet, Call.FlexExpand]) ∧
    (Diagnostics.HasError planGet.2 = false →
      Diagnostics.HasError (expand planGet.1).2 = false →
      (∀ o, createFlow (getTagsIn (expand planGet.1).1) ≠ (some o, none)) →
      r.2 = [Call.PlanGet, Call.FlexExpand, Call.CreateFlow]) ∧
    (Diagnostics.HasError planGet.2 = false →
      Diagnostics.HasError (expand planGet.1).2 = false →
      createFlow (getTagsIn (expand planGet.1).1) = (none, none) →
      (⟨Severity.Error, msgs.ProblemStandardMessage .ErrActionCreating planGet.1.Name none,
        "empty output"⟩ : Diagnostic) ∈ r.1.Diagnostics) ∧
    (∀ o, Diagnostics.HasError planGet.2 = false →
      Diagnostics.HasError (expand planGet.1).2 = false →
      createFlow (getTagsIn (expand planGet.1).1) = (some o, none) →
      Diagnostics.HasError (flatten o planGet.1).2 = true →
      r.2 = [Call.PlanGet, Call.FlexExpand, Call.CreateFlow, Call.FlexFlatten]) ∧
    (∀ o, Diagnostics.HasError planGet.2 = false →
      Diagnostics.HasError (expand planGet.1).2 = false →
      createFlow (getTagsIn (expand planGet.1).1) = (some o, none) →
      Diagnostics.HasError (flatten o planGet.1).2 = false →
      (waitFlowCreated polls (flatten o planGet.1).1.ID.ValueString).2 ≠ none →
      r.2 = [Call.PlanGet, Call.FlexExpand, Call.CreateFlow, Call.FlexFlatten,
        Call.WaitFlowCreated (flatten o planGet.1).1.ID.ValueString]) ∧
    (∀ o, Diagnostics.HasError planGet.2 = false →
      Diagnostics.HasError (expand planGet.1).2 = false →
      createFlow (getTagsIn (expand planGet.1).1) = (some o, none) →
      Diagnostics.HasError (flatten o planGet.1).2 = false →
      (waitFlowCreated polls (flatten o planGet.1).1.ID.ValueString).2 = none →
      r.2 = [Call.PlanGet, Call.FlexExpand, Call.CreateFlow, Call.FlexFlatten,
        Call.WaitFlowCreated (flatten o planGet.1).1.ID.ValueString, Call.StateSet] ∧
      r.1.State = (if Diagnostics.HasError (stateSet (flatten o planGet.1).1) then resp.State
        else some (flatten o planGet.1).1)) := by
  subst hr
  have a1 : Diagnostics.HasError (Diagnostics.Append resp.Diagnostics planGet.2)
      = Diagnostics.HasError planGet.2 :=
    Diagnostics.hasError_Append_of_left_false _ _ h0
  by_cases h1 : Diagnostics.HasError planGet.2 = true
  · have a1t := a1.trans h1
    simp [Create, createStepsSucceed, a1t, h1]
  have h1f : Diagnostics.HasError planGet.2 = false := by simpa using h1
  have a1f := a1.trans h1f
  have a2 : Diagnostics.HasError
      (Diagnostics.Append (Diagnostics.Append resp.Diagnostics planGet.2) (expand planGet.1).2)
      = Diagnostics.HasError (expand planGet.1).2 :=
    Diagnostics.hasError_Append_of_left_false _ _ a1f
  by_cases h2 : Diagnostics.HasError (expand planGet.1).2 = true
  · have a2t := a2.trans h2
    simp [Create, createStepsSucceed, a1f, h1f, a2t, h2]
  have h2f : Diagnostics.HasError (expand planGet.1).2 = false := by simpa using h2
  have a2f := a2.trans h2f
  rcases hc : createFlow (getTagsIn (expand planGet.1).1) with ⟨out, err⟩
  cases err with
  | some e =>
    simp [Create, createStepsSucceed, a1f, h1f, a2f, h2f, hc, Diagnostics.hasError_AddError]
  | none =>
    cases out with
    | none =>
      simp [Create, createStepsSucceed, a1f, h1f, a2f, h2f, hc, Diagnostics.hasError_AddError,
        Diagnostics.mem_AddError]
    | some o =>
      have a3 : Diagnostics.HasError (Diagnostics.Append
          (Diagnostics.Append (Diagnostics.Append resp.Diagnostics planGet.2)
            (expand planGet.1).2) (flatten o planGet.1).2)
          = Diagnostics.HasError (flatten o planGet.1).2 :=
        Diagnostics.hasError_Append_of_left_false _ _ a2f
      by_cases h3 : Diagnostics.HasError (flatten o planGet.1).2 = true
      · have a3t := a3.trans h3
        simp [Create, createStepsSucceed, a1f, h1f, a2f, h2f, hc, a3t, h3]
      have h3f : Diagnostics.HasError (flatten o planGet.1).2 = false := by simpa using h3
      have a3f := a3.trans h3f
      rcases hw : waitFlowCreated polls (flatten o planGet.1).1.ID.ValueString with ⟨wo, we⟩
      cases we with
      | some e =>
        simp [Create, createStepsSucceed, a1f, h1f, a2f, h2f, hc, a3f, h3f, hw,
          Diagnostics.hasError_AddError]
      | none =>
        simp [Create, createStepsSucceed, a1f, h1f, a2f, h2f, hc, a3f, h3f, hw]

/-- C12 at a creation whose steps all succeed, and at one whose `CreateFlow` call returns a
nil output. -/
theorem C12_witness :
    createStepsSucceed (examplePlan, ([] : Diagnostics)) exampleExpand id
      (fun _ => ((some "FLOW123456" : Option String), (none : Option GoError)))
      exampleFlattenId [apiWithStatus "ACTIVE", apiWithStatus "ACTIVE"] ∧
    Call.StateSet ∈ (Create exampleMessages (examplePlan, []) exampleExpand id
      (fun _ => ((some "FLOW123456" : Option String), (none : Option GoError)))
      exampleFlattenId [apiWithStatus "ACTIVE", apiWithStatus "ACTIVE"] (fun _ => [])
      ⟨[], none⟩).2 ∧
    (Create exampleMessages (examplePlan, []) exampleExpand id
      (fun _ => ((none : Option String), (none : Option GoError)))
      exampleFlattenId [apiWithStatus "ACTIVE", apiWithStatus "ACTIVE"] (fun _ => [])
      ⟨[], none⟩).2 = [Call.PlanGet, Call.FlexExpand, Call.CreateFlow] :=
  ⟨⟨rfl, rfl, "FLOW123456", rfl, rfl, rfl⟩,
    (C12_create_writes_state_iff_every_step_succeeds exampleMessages (examplePlan, [])
      exampleExpand id
      (fun _ => ((some "FLOW123456" : Option String), (none : Option GoError)))
      exampleFlattenId [apiWithStatus "ACTIVE", apiWithStatus "ACTIVE"] (fun _ => [])
      ⟨[], none⟩ _ rfl rfl).1.2 ⟨rfl, rfl, "FLOW123456", rfl, rfl, rfl⟩,
    (C12_create_writes_state_iff_every_step_succeeds exampleMessages (examplePlan, [])
      exampleExpand id
      (fun _ => ((none : Option String), (none : Option GoError)))
      exampleFlattenId [apiWithStatus "ACTIVE", apiWithStatus "ACTIVE"] (fun _ => [])
      ⟨[], none⟩ _ rfl rfl).2.2.2.2.1 rfl rfl (by intro o h; cases h)⟩

/-- C13 (as stated) fails, in two ways. The plan differs from the prior state and the
`UpdateFlow` call returns an error: `Update` sends the request, reports the error and returns
without running `waitFlowUpdated`. And whether a request is sent is decided by what
`flex.Diff` reports, not by the plan differing from the state: with a comparison that leaves
the tags out, a plan that differs from the state in its tags sends no request. -/
theorem C13_counterexample :
    ((exampleDiff examplePlan exampleState).1 = true ∧
      Call.UpdateFlow ∈ (Update exampleMessages (examplePlan, []) (exampleState, [])
        exampleDiff exampleExpand
        (fun _ => ((none : Option String), some (GoError.Other "ValidationException")))
        exampleFlattenId [apiWithStatus "ACTIVE", apiWithStatus "ACTIVE"] (fun _ => [])
        ⟨[], some exampleState⟩).2 ∧
      (Update exampleMessages (examplePlan, []) (exampleState, [])
        exampleDiff exampleExpand
        (fun _ => ((none : Option String), some (GoError.Other "ValidationException")))
        exampleFlattenId [apiWithStatus "ACTIVE", apiWithStatus "ACTIVE"] (fun _ => [])
        ⟨[], some exampleState⟩).2.any Call.isWaitFlowUpdated = false) ∧
    (planWithNewTags ≠ exampleState ∧
      (diffIgnoringTags planWithNewTags exampleState).1 = false ∧
      Call.UpdateFlow ∉ (Update exampleMessages (planWithNewTags, []) (exampleState, [])
        diffIgnoringTags exampleExpand
        (fun _ => ((some "FLOW123456" : Option String), (none : Option GoError)))
        exampleFlattenId [apiWithStatus "ACTIVE", apiWithStatus "ACTIVE"] (fun _ => [])
        ⟨[], some exampleState⟩).2) := by
  refine ⟨⟨rfl, by decide, rfl⟩, ?_, rfl, by decide⟩
  intro h
  have h2 : (some [("Environment", "test")] : Option (List (String × String))) = none :=
    congrArg resourceFlowModel.Tags h
  exact absurd h2 (by decide)

/-- C13 (amended): when reading the plan and the state and comparing them with `flex.Diff`
report no error, `Update` sends an `UpdateFlow` request if and only if `flex.Diff` reports
changes between the plan and the prior state and the plan expands without error; when it
reports no changes no request is sent. `Update` then runs `waitFlowUpdated` when no request
was needed or the request succeeded (a non-nil output, no error, and the output flattens into
the plan without error); when the request fails it reports an error and runs neither the
waiter nor the write. It writes the plan to state only if the waiter ran and returned no
error. -/
theorem C13_update_sends_request_iff_diff_reports_changes {D I O : Type} (msgs : Messages)
    (planGet stateGet : resourceFlowModel D × Diagnostics)
    (diff : resourceFlowModel D → resourceFlowModel D → Bool × Diagnostics)
    (expand : resourceFlowModel D → I × Diagnostics)
    (updateFlow : I → Option O × Option GoError)
    (flatten : O → resourceFlowModel D → resourceFlowModel D × Diagnostics)
    (polls : List GetFlowAPI) (stateSet : resourceFlowModel D → Diagnostics)
    (resp : Response (resourceFlowModel D))
    (r : Response (resourceFlowModel D) × List Call)
    (hr : r = Update msgs planGet stateGet diff expand updateFlow flatten polls stateSet resp)
    (h0 : Diagnostics.HasError resp.Diagnostics = false)
    (hp : Diagnostics.HasError planGet.2 = false)
    (hs : Diagnostics.HasError stateGet.2 = false)
    (hd : Diagnostics.HasError (diff planGet.1 stateGet.1).2 = false) :
    (Call.UpdateFlow ∈ r.2 ↔
      ((diff planGet.1 stateGet.1).1 = true ∧
        Diagnostics.HasError (expand planGet.1).2 = false)) ∧
    ((diff planGet.1 stateGet.1).1 = false →
      Call.UpdateFlow ∉ r.2 ∧
      Call.WaitFlowUpdated planGet.1.ID.ValueString ∈ r.2 ∧
      (Call.StateSet ∈ r.2 ↔ (waitFlowUpdated polls planGet.1.ID.ValueString).2 = none)) ∧
    (∀ o, (diff planGet.1 stateGet.1).1 = true →
      updateRequestSucceeds planGet.1 expand updateFlow flatten o →
      Call.WaitFlowUpdated (flatten o planGet.1).1.ID.ValueString ∈ r.2 ∧
      (Call.StateSet ∈ r.2 ↔
        (waitFlowUpdated polls (flatten o planGet.1).1.ID.ValueString).2 = none)) ∧
    ((diff planGet.1 stateGet.1).1 = true →
      (∀ o, ¬ updateRequestSucceeds planGet.1 expand updateFlow flatten o) →
      Diagnostics.HasError r.1.Diagnostics = true ∧
      r.2.any Call.isWaitFlowUpdated = false ∧
      Call.StateSet ∉ r.2 ∧ r.1.State = resp.State) := by
  subst hr
  have a1 : Diagnostics.HasError
      (Diagnostics.Append (Diagnostics.Append resp.Diagnostics planGet.2) stateGet.2)
      = false := by
    rw [Diagnostics.hasError_Append, Diagnostics.hasError_Append, h0, hp, hs]
    rfl
  have a2 : Diagnostics.HasError (Diagnostics.Append
      (Diagnostics.Append (Diagnostics.Append resp.Diagnostics planGet.2) stateGet.2)
      (diff planGet.1 stateGet.1).2) = false := by
    rw [Diagnostics.hasError_Append, a1, hd]
    rfl
  rcases hdf : diff planGet.1 stateGet.1 with ⟨changes, dd⟩
  rw [hdf] at a2
  simp only [] at a2
  cases changes with
  | false =>
    rcases hw : waitFlowUpdated polls planGet.1.ID.ValueString with ⟨wo, we⟩
    cases we <;>
      simp [Update, updateWait, a1, a2, hdf, hw, Call.isWaitFlowUpdated]
  | true =>
    have a3 : Diagnostics.HasError (Diagnostics.Append (Diagnostics.Append
        (Diagnostics.Append (Diagnostics.Append resp.Diagnostics planGet.2) stateGet.2) dd)
        (expand planGet.1).2) = Diagnostics.HasError (expand planGet.1).2 :=
      Diagnostics.hasError_Append_of_left_false _ _ a2
    by_cases h2 : Diagnostics.HasError (expand planGet.1).2 = true
    · have a3t := a3.trans h2
      simp [Update, updateChanges, updateRequestSucceeds, a1, a2, hdf, a3t, h2,
        Call.isWaitFlowUpdated]
    have h2f : Diagnostics.HasError (expand planGet.1).2 = false := by simpa using h2
    have a3f := a3.trans h2f
    rcases hc : updateFlow (expand planGet.1).1 with ⟨out, err⟩
    cases err with
    | some e =>
      simp [Update, updateChanges, updateRequestSucceeds, a1, a2, hdf, a3f, h2f, hc,
        Diagnostics.hasError_AddError, Call.isWaitFlowUpdated]
    | none =>
      cases out with
      | none =>
        simp [Update, updateChanges, updateRequestSucceeds, a1, a2, hdf, a3f, h2f, hc,
          Diagnostics.hasError_AddError, Call.isWaitFlowUpdated]
      | some o =>
        have a4 : Diagnostics.HasError (Diagnostics.Append (Diagnostics.Append
            (Diagnostics.Append (Diagnostics.Append
              (Diagnostics.Append resp.Diagnostics planGet.2) stateGet.2) dd)
            (expand planGet.1).2) (flatten o planGet.1).2)
            = Diagnostics.HasError (flatten o planGet.1).2 :=
          Diagnostics.hasError_Append_of_left_false _ _ a3f
        by_cases h3 : Diagnostics.HasError (flatten o planGet.1).2 = true
        · have a4t := a4.trans h3
          simp [Update, updateChanges, updateRequestSucceeds, a1, a2, hdf, a3f, h2f, hc,
            a4t, h3, Call.isWaitFlowUpdated]
        have h3f : Diagnostics.HasError (flatten o planGet.1).2 = false := by simpa using h3
        have a4f := a4.trans h3f
        rcases hw : waitFlowUpdated polls (flatten o planGet.1).1.ID.ValueString
          with ⟨wo, we⟩
        cases we <;>
          simp [Update, updateChanges, updateWait, updateRequestSucceeds, a1, a2, hdf, a3f,
            h2f, hc, a4f, h3f, hw, Call.isWaitFlowUpdated]

/-- C13 (amended) at a plan for which the comparison with the prior state reports no
changes: no request is sent and the waiter runs. -/
theorem C13_witness :
    (exampleDiff exampleState exampleState).1 = false ∧
    Call.UpdateFlow ∉ (Update exampleMessages (exampleState, []) (exampleState, [])
      exampleDiff exampleExpand
      (fun _ => ((some "FLOW123456" : Option String), (none : Option GoError)))
      exampleFlattenId [apiWithStatus "ACTIVE", apiWithStatus "ACTIVE"] (fun _ => [])
      ⟨[], some exampleState⟩).2 ∧
    Call.WaitFlowUpdated "FLOW123456" ∈ (Update exampleMessages (exampleState, [])
      (exampleState, []) exampleDiff exampleExpand
      (fun _ => ((some "FLOW123456" : Option String), (none : Option GoError)))
      exampleFlattenId [apiWithStatus "ACTIVE", apiWithStatus "ACTIVE"] (fun _ => [])
      ⟨[], some exampleState⟩).2 :=
  ⟨rfl,
    ((C13_update_sends_request_iff_diff_reports_changes exampleMessages (exampleState, [])
      (exampleState, []) exampleDiff exampleExpand
      (fun _ => ((some "FLOW123456" : Option String), (none : Option GoError)))
      exampleFlattenId [apiWithStatus "ACTIVE", apiWithStatus "ACTIVE"] (fun _ => [])
      ⟨[], some exampleState⟩ _ rfl rfl rfl rfl rfl).2.1 rfl).1,
    ((C13_update_sends_request_iff_diff_reports_changes exampleMessages (exampleState, [])
      (exampleState, []) exampleDiff exampleExpand
      (fun _ => ((some "FLOW123456" : Option String), (none : Option GoError)))
      exampleFlattenId [apiWithStatus "ACTIVE", apiWithStatus "ACTIVE"] (fun _ => [])
      ⟨[], some exampleState⟩ _ rfl rfl rfl rfl rfl).2.1 rfl).2.1⟩

/-- C14 (counterexample): a `template_configuration` block whose `chat` block has one
element with no `message` block, and whose `text` block is absent, has exactly one of `chat`
and `text` present and at most one element in each; all the same it does not pass
validation, so passing is not equivalent to these two conditions. -/
theorem C14_counterexample :
    ¬ (Diagnostics.HasError (validateTemplateConfigurationTree
          (templateConfigurationConfig (some [emptyChatElement]) none)) = false
        ↔ ((some [emptyChatElement] : Option (List Value)).isSome
              ≠ (none : Option (List Value)).isSome
            ∧ (blockValue (some [emptyChatElement])).elements.length ≤ 1
            ∧ (blockValue none).elements.length ≤ 1)) := by
  intro h
  have h1 := h.mpr ⟨by decide, by decide, by decide⟩
  have h2 : Diagnostics.HasError (validateTemplateConfigurationTree
      (templateConfigurationConfig (some [emptyChatElement]) none)) = true := by decide
  rw [h2] at h1
  exact absurd h1 (by decide)

/-- C14 (amended): for a `template_configuration` element with the given `chat` and `text`
blocks, the list validators declared on `chat` and on `text` report no error if and only if
exactly one of `chat` and `text` is present and each of them holds at most one element; and
the block passes validation as a whole, the blocks nested in `chat` and `text` included,
only if that holds. -/
theorem C14_chat_text_validators_accept_iff_exactly_one_present
    (chat text : Option (List Value)) :
    (Diagnostics.HasError (validateTemplateConfiguration chat text) = false
      ↔ (chat.isSome ≠ text.isSome
          ∧ (blockValue chat).elements.length ≤ 1 ∧ (blockValue text).elements.length ≤ 1))
    ∧ (Diagnostics.HasError
          (validateTemplateConfigurationTree (templateConfigurationConfig chat text)) = false
        → (chat.isSome ≠ text.isSome
            ∧ (blockValue chat).elements.length ≤ 1
            ∧ (blockValue text).elements.length ≤ 1)) :=
  ⟨hasError_validateTemplateConfiguration chat text,
    fun h => (hasError_validateTemplateConfiguration chat text).mp
      (validateTemplateConfigurationTree_members chat text h)⟩

/-- C14 (witness): a `template_configuration` block with a one-element `text` block and no
`chat` block passes validation as a whole, and exactly one of the two blocks is present. -/
theorem C14_witness :
    Diagnostics.HasError (validateTemplateConfigurationTree
        (templateConfigurationConfig none (some [exampleTextElement]))) = false
      ∧ ((none : Option (List Value)).isSome
            ≠ (some [exampleTextElement] : Option (List Value)).isSome
          ∧ (blockValue none).elements.length ≤ 1
          ∧ (blockValue (some [exampleTextElement])).elements.length ≤ 1) :=
  ⟨by decide,
    (C14_chat_text_validators_accept_iff_exactly_one_present none
      (some [exampleTextElement])).2 (by decide)⟩

/-- C15: in an element of the `chat` block, the validators of `input_variable` report no
error exactly when the list has between 0 and 20 elements (an absent block has none), and
the validators of `message` report no error exactly when the block is present with at least
one element. -/
theorem C15_chat_input_variable_and_message_sizes
    (inputVariable message : Option (List Value)) :
    (Diagnostics.HasError (BlockValidate templateSchema
        (chatTemplateConfig inputVariable message)
        ["template_configuration", "chat", "input_variable"]
        (chatMemberPath "input_variable")) = false
      ↔ 0 ≤ (blockValue inputVariable).elements.length
        ∧ (blockValue inputVariable).elements.length ≤ 20)
    ∧ (Diagnostics.HasError (BlockValidate templateSchema
        (chatTemplateConfig inputVariable message)
        ["template_configuration", "chat", "message"] (chatMemberPath "message")) = false
      ↔ message.isSome = true ∧ 1 ≤ (blockValue message).elements.length) := by
  rw [BlockValidate_input_variable, BlockValidate_message, Diagnostics.hasError_Append,
    Diagnostics.hasError_Append, Diagnostics.hasError_Append, hasError_sizeBetween,
    hasError_sizeAtLeast, hasError_isRequired, Diagnostics.HasError_nil]
  constructor
  · cases inputVariable <;> simp [blockValue, Value.elements]
  · cases message with
    | none => simp [blockValue, Value.elements]
    | some es => cases es <;> simp [blockValue, Value.elements]

/-- C15 (witness): an `input_variable` list of 21 elements is rejected and one of 20 is
accepted; an absent `message` block and an empty one are rejected, one with an element is
accepted. -/
theorem C15_witness :
    Diagnostics.HasError (BlockValidate templateSchema
        (chatTemplateConfig (some (List.replicate 21 (.object []))) none)
        ["template_configuration", "chat", "input_variable"]
        (chatMemberPath "input_variable")) = true
    ∧ Diagnostics.HasError (BlockValidate templateSchema
        (chatTemplateConfig (some (List.replicate 20 (.object []))) none)
        ["template_configuration", "chat", "input_variable"]
        (chatMemberPath "input_variable")) = false
    ∧ Diagnostics.HasError (BlockValidate templateSchema (chatTemplateConfig none none)
        ["template_configuration", "chat", "message"] (chatMemberPath "message")) = true
    ∧ Diagnostics.HasError (BlockValidate templateSchema (chatTemplateConfig none (some []))
        ["template_configuration", "chat", "message"] (chatMemberPath "message")) = true
    ∧ Diagnostics.HasError (BlockValidate templateSchema
        (chatTemplateConfig none (some [.object []]))
        ["template_configuration", "chat", "message"] (chatMemberPath "message")) = false := by
  have h21 := C15_chat_input_variable_and_message_sizes
    (some (List.replicate 21 (.object []))) none
  have h20 := C15_chat_input_variable_and_message_sizes
    (some (List.replicate 20 (.object []))) none
  have hNone := C15_chat_input_variable_and_message_sizes none none
  have hEmpty := C15_chat_input_variable_and_message_sizes none (some [])
  have hOne := C15_chat_input_variable_and_message_sizes none (some [.object []])
  refine ⟨?_, h20.1.mpr (by decide), ?_, ?_, hOne.2.mpr (by decide)⟩
  · cases hb : Diagnostics.HasError (BlockValidate templateSchema
        (chatTemplateConfig (some (List.replicate 21 (.object []))) none)
        ["template_configuration", "chat", "input_variable"]
        (chatMemberPath "input_variable")) with
    | true => rfl
    | false => exact absurd (h21.1.mp hb) (by decide)
  · cases hb : Diagnostics.HasError (BlockValidate templateSchema (chatTemplateConfig none none)
        ["template_configuration", "chat", "message"] (chatMemberPath "message")) with
    | true => rfl
    | false => exact absurd (hNone.2.mp hb) (by decide)
  · cases hb : Diagnostics.HasError (BlockValidate templateSchema
        (chatTemplateConfig none (some []))
        ["template_configuration", "chat", "message"] (chatMemberPath "message")) with
    | true => rfl
    | false => exact absurd (hEmpty.2.mp hb) (by decide)

/-- C21: for each of the four union models, `Expand` on a model whose blocks are all null
returns a nil result with no diagnostics, and `Expand` returns a nil result whenever the
diagnostics it returns hold an error. -/
theorem C21_expand_nil_on_null_model_and_on_error {P : FlowNodePayloads}
    {PC : FlowConnectionPayloads} {PS : PromptSourcePayloads} {W M : Type}
    (c : FlowNodeConverters P) (m : flowNodeConfigurationModel P)
    (cc : FlowConnectionConverters PC) (mc : flowConnectionConfigurationModel PC)
    (cs : PromptSourceConverters PS) (ms : promptFlowNodeSourceConfigurationModel PS)
    (cr : RetrievalServiceConverters W M) (mr : retrievalFlowNodeServiceConfigurationModel M) :
    ((m.Prompt.IsNull = true ∧ m.Lambda.IsNull = true ∧ m.KnowledgeBase.IsNull = true ∧
        m.Condition.IsNull = true ∧ m.Agent.IsNull = true ∧ m.Input.IsNull = true ∧
        m.Output.IsNull = true ∧ m.Retrieval.IsNull = true →
      flowNodeConfigurationModel.Expand c m = (none, [])) ∧
     (Diagnostics.HasError (flowNodeConfigurationModel.Expand c m).2 = true →
      (flowNodeConfigurationModel.Expand c m).1 = none)) ∧
    ((mc.Conditional.IsNull = true ∧ mc.Data.IsNull = true →
      flowConnectionConfigurationModel.Expand cc mc = (none, [])) ∧
     (Diagnostics.HasError (flowConnectionConfigurationModel.Expand cc mc).2 = true →
      (flowConnectionConfigurationModel.Expand cc mc).1 = none)) ∧
    ((ms.Inline.IsNull = true ∧ ms.Resource.IsNull = true →
      promptFlowNodeSourceConfigurationModel.Expand cs ms = (none, [])) ∧
     (Diagnostics.HasError (promptFlowNodeSourceConfigurationModel.Expand cs ms).2 = true →
      (promptFlowNodeSourceConfigurationModel.Expand cs ms).1 = none)) ∧
    ((mr.S3.IsNull = true →
      retrievalFlowNodeServiceConfigurationModel.Expand cr mr = (none, [])) ∧
     (Diagnostics.HasError (retrievalFlowNodeServiceConfigurationModel.Expand cr mr).2 = true →
      (retrievalFlowNodeServiceConfigurationModel.Expand cr mr).1 = none)) := by
  refine ⟨⟨?_, ?_⟩, ⟨?_, ?_⟩, ⟨?_, ?_⟩, ⟨?_, ?_⟩⟩
  · rintro ⟨h1, h2, h3, h4, h5, h6, h7, h8⟩
    simp [flowNodeConfigurationModel.Expand, h1, h2, h3, h4, h5, h6, h7, h8]
  · unfold flowNodeConfigurationModel.Expand
    dsimp only
    split_ifs <;> first | exact expandMember_error_nil _ _ _ _ | exact fun _ => rfl
  · rintro ⟨h1, h2⟩
    simp [flowConnectionConfigurationModel.Expand, h1, h2]
  · unfold flowConnectionConfigurationModel.Expand
    dsimp only
    split_ifs <;> first | exact expandMember_error_nil _ _ _ _ | exact fun _ => rfl
  · rintro ⟨h1, h2⟩
    simp [promptFlowNodeSourceConfigurationModel.Expand, h1, h2]
  · unfold promptFlowNodeSourceConfigurationModel.Expand
    dsimp only
    split_ifs <;> first | exact expandMember_error_nil _ _ _ _ | exact fun _ => rfl
  · intro h1
    simp [retrievalFlowNodeServiceConfigurationModel.Expand, h1]
  · unfold retrievalFlowNodeServiceConfigurationModel.Expand
    dsimp only
    split_ifs <;> first | exact expandMember_error_nil _ _ _ _ | exact fun _ => rfl

/-- C21 at the empty node model, which expands to nil without diagnostics, and at a node
model whose `lambda` block holds two elements, for which `Expand` reports an error and
returns nil. -/
theorem C21_witness :
    flowNodeConfigurationModel.Expand exampleConverters
        (flowNodeConfigurationModel.empty examplePayloads) = (none, []) ∧
    Diagnostics.HasError
        (flowNodeConfigurationModel.Expand exampleConverters modelTwoLambda).2 = true ∧
    (flowNodeConfigurationModel.Expand exampleConverters modelTwoLambda).1 = none :=
  ⟨(C21_expand_nil_on_null_model_and_on_error exampleConverters
      (flowNodeConfigurationModel.empty examplePayloads)
      exampleConnectionConverters (flowConnectionConfigurationModel.empty _)
      examplePromptSourceConverters (promptFlowNodeSourceConfigurationModel.empty _)
      exampleRetrievalConverters (retrievalFlowNodeServiceConfigurationModel.empty _)).1.1
      ⟨rfl, rfl, rfl, rfl, rfl, rfl, rfl, rfl⟩,
    rfl,
    (C21_expand_nil_on_null_model_and_on_error exampleConverters modelTwoLambda
      exampleConnectionConverters (flowConnectionConfigurationModel.empty _)
      examplePromptSourceConverters (promptFlowNodeSourceConfigurationModel.empty _)
      exampleRetrievalConverters (retrievalFlowNodeServiceConfigurationModel.empty _)).1.2
      rfl⟩

/-- C22: for each of the four union models, whenever the diagnostics returned by `Flatten`
hold an error the model is the one handed in: a value that is not one of the supported
union members gives exactly one diagnostic, an error with summary "Unsupported
configuration type", and a member whose payload fails to flatten gives the diagnostics of
the payload converter, no block having been assigned. -/
theorem C22_flatten_error_leaves_model_unchanged {P : FlowNodePayloads}
    {PC : FlowConnectionPayloads} {PS : PromptSourcePayloads} {W M : Type}
    (c : FlowNodeConverters P) (m : flowNodeConfigurationModel P)
    (v : GoAny (FlowNodeConfiguration P))
    (cc : FlowConnectionConverters PC) (mc : flowConnectionConfigurationModel PC)
    (vc : GoAny (FlowConnectionConfiguration PC))
    (cs : PromptSourceConverters PS) (ms : promptFlowNodeSourceConfigurationModel PS)
    (vs : GoAny (PromptFlowNodeSourceConfiguration PS))
    (cr : RetrievalServiceConverters W M) (mr : retrievalFlowNodeServiceConfigurationModel M)
    (vr : GoAny (RetrievalFlowNodeServiceConfiguration W)) :
    ((Diagnostics.HasError (flowNodeConfigurationModel.Flatten c m v).2 = true →
        (flowNodeConfigurationModel.Flatten c m v).1 = m) ∧
      (∀ typeName, flowNodeConfigurationModel.Flatten c m (.other typeName)
        = (m, [⟨Severity.Error, "Unsupported configuration type",
            "Unsupported configuration type: " ++ typeName⟩])) ∧
      (∀ w, Diagnostics.HasError (c.flattenPayload w).2 = true →
        flowNodeConfigurationModel.Flatten c m (.member w)
          = (m, Diagnostics.Append [] (c.flattenPayload w).2))) ∧
    ((Diagnostics.HasError (flowConnectionConfigurationModel.Flatten cc mc vc).2 = true →
        (flowConnectionConfigurationModel.Flatten cc mc vc).1 = mc) ∧
      (∀ typeName, flowConnectionConfigurationModel.Flatten cc mc (.other typeName)
        = (mc, [⟨Severity.Error, "Unsupported configuration type",
            "Unsupported configuration type: " ++ typeName⟩])) ∧
      (∀ w, Diagnostics.HasError (cc.flattenConditional w).2 = true →
        flowConnectionConfigurationModel.Flatten cc mc (.member (.MemberConditional w))
          = (mc, Diagnostics.Append [] (cc.flattenConditional w).2)) ∧
      (∀ w, Diagnostics.HasError (cc.flattenData w).2 = true →
        flowConnectionConfigurationModel.Flatten cc mc (.member (.MemberData w))
          = (mc, Diagnostics.Append [] (cc.flattenData w).2))) ∧
    ((Diagnostics.HasError (promptFlowNodeSourceConfigurationModel.Flatten cs ms vs).2 = true →
        (promptFlowNodeSourceConfigurationModel.Flatten cs ms vs).1 = ms) ∧
      (∀ typeName, promptFlowNodeSourceConfigurationModel.Flatten cs ms (.other typeName)
        = (ms, [⟨Severity.Error, "Unsupported configuration type",
            "Unsupported configuration type: " ++ typeName⟩])) ∧
      (∀ w, Diagnostics.HasError (cs.flattenInline w).2 = true →
        promptFlowNodeSourceConfigurationModel.Flatten cs ms (.member (.MemberInline w))
          = (ms, Diagnostics.Append [] (cs.flattenInline w).2)) ∧
      (∀ w, Diagnostics.HasError (cs.flattenResource w).2 = true →
        promptFlowNodeSourceConfigurationModel.Flatten cs ms (.member (.MemberResource w))
          = (ms, Diagnostics.Append [] (cs.flattenResource w).2))) ∧
    ((Diagnostics.HasError
          (retrievalFlowNodeServiceConfigurationModel.Flatten cr mr vr).2 = true →
        (retrievalFlowNodeServiceConfigurationModel.Flatten cr mr vr).1 = mr) ∧
      (∀ typeName, retrievalFlowNodeServiceConfigurationModel.Flatten cr mr (.other typeName)
        = (mr, [⟨Severity.Error, "Unsupported configuration type",
            "Unsupported configuration type: " ++ typeName⟩])) ∧
      (∀ w, Diagnostics.HasError (cr.flattenS3 w).2 = true →
        retrievalFlowNodeServiceConfigurationModel.Flatten cr mr (.member (.MemberS3 w))
          = (mr, Diagnostics.Append [] (cr.flattenS3 w).2))) := by
  refine ⟨⟨?_, fun _ => rfl, ?_⟩, ⟨?_, fun _ => rfl, ?_, ?_⟩, ⟨?_, fun _ => rfl, ?_, ?_⟩,
    ⟨?_, fun _ => rfl, ?_⟩⟩
  · unfold flowNodeConfigurationModel.Flatten
    dsimp only
    split <;> first | exact flattenMember_error_unchanged _ _ _ _ _ | exact fun _ => rfl
  · intro w h
    cases w <;>
      simp only [FlowNodeConverters.flattenPayload] at h <;>
      simp only [flowNodeConfigurationModel.Flatten, FlowNodeConverters.flattenPayload,
        flattenMember_error _ _ _ _ h]
  · unfold flowConnectionConfigurationModel.Flatten
    dsimp only
    split <;> first | exact flattenMember_error_unchanged _ _ _ _ _ | exact fun _ => rfl
  · intro w h
    simp only [flowConnectionConfigurationModel.Flatten, flattenMember_error _ _ _ _ h]
  · intro w h
    simp only [flowConnectionConfigurationModel.Flatten, flattenMember_error _ _ _ _ h]
  · unfold promptFlowNodeSourceConfigurationModel.Flatten
    dsimp only
    split <;> first | exact flattenMember_error_unchanged _ _ _ _ _ | exact fun _ => rfl
  · intro w h
    simp only [promptFlowNodeSourceConfigurationModel.Flatten, flattenMember_error _ _ _ _ h]
  · intro w h
    simp only [promptFlowNodeSourceConfigurationModel.Flatten, flattenMember_error _ _ _ _ h]
  · unfold retrievalFlowNodeServiceConfigurationModel.Flatten
    dsimp only
    split <;> first | exact flattenMember_error_unchanged _ _ _ _ _ | exact fun _ => rfl
  · intro w h
    simp only [retrievalFlowNodeServiceConfigurationModel.Flatten,
      flattenMember_error _ _ _ _ h]

/-- C22 at a node model holding a `lambda` block, handed a pointer to a member instead of a
member: one error diagnostic and the model as it was; and at a retrieval-service model whose
payload converter fails on a bucket name: the converter's error and the model as it was. -/
theorem C22_witness :
    (flowNodeConfigurationModel.Flatten exampleConverters
        (flowNodeConfigurationModel.single lambdaBlock)
        (.other "*types.FlowNodeConfigurationMemberAgent")).1
      = flowNodeConfigurationModel.single lambdaBlock ∧
    (flowNodeConfigurationModel.Flatten exampleConverters
        (flowNodeConfigurationModel.single lambdaBlock)
        (.other "*types.FlowNodeConfigurationMemberAgent")).2
      = [⟨Severity.Error, "Unsupported configuration type",
          "Unsupported configuration type: *types.FlowNodeConfigurationMemberAgent"⟩] ∧
    retrievalFlowNodeServiceConfigurationModel.Flatten failingRetrievalConverters
        (retrievalFlowNodeServiceConfigurationModel.empty String) (.member (.MemberS3 "my-bucket"))
      = (retrievalFlowNodeServiceConfigurationModel.empty String,
          [⟨Severity.Error, "Incompatible Types", "bucket name"⟩]) :=
  ⟨(C22_flatten_error_leaves_model_unchanged exampleConverters
      (flowNodeConfigurationModel.single lambdaBlock)
      (.other "*types.FlowNodeConfigurationMemberAgent")
      exampleConnectionConverters (flowConnectionConfigurationModel.empty _) (.other "nil")
      examplePromptSourceConverters (promptFlowNodeSourceConfigurationModel.empty _)
      (.other "nil")
      failingRetrievalConverters (retrievalFlowNodeServiceConfigurationModel.empty String)
      (.member (.MemberS3 "my-bucket"))).1.1 rfl,
    rfl,
    (C22_flatten_error_leaves_model_unchanged exampleConverters
      (flowNodeConfigurationModel.single lambdaBlock)
      (.other "*types.FlowNodeConfigurationMemberAgent")
      exampleConnectionConverters (flowConnectionConfigurationModel.empty _) (.other "nil")
      examplePromptSourceConverters (promptFlowNodeSourceConfigurationModel.empty _)
      (.other "nil")
      failingRetrievalConverters (retrievalFlowNodeServiceConfigurationModel.empty String)
      (.member (.MemberS3 "my-bucket"))).2.2.2.2.2 "my-bucket" rfl⟩

/-- C24: every block that an `Expand` method converts to a single object with `ToPtr` is
declared in the flow schema with the validator `SizeAtMost(1)`; so whenever the list
validators of such a block report no error for the value the configuration holds at the
path of the block, that value has at most one element, and `ToPtr` on a block with as many
elements reports no error. -/
theorem C24_toPtr_blocks_hold_at_most_one_element :
    (∀ p ∈ toPtrBlocks, ∃ b, flowSchema.block? p = some b ∧
      ListValidator.SizeAtMost 1 ∈ b.Validators) ∧
    (∀ p ∈ toPtrBlocks, ∀ (config : Value) (reqPath : List Step) (v : Value),
      GetAttribute config reqPath = some v →
      Diagnostics.HasError (BlockValidate flowSchema config p reqPath) = false →
      v.elements.length ≤ 1 ∧
      ∀ (T : Type) (l : ListNestedObjectValueOf T),
        l.Elements.length = v.elements.length → Diagnostics.HasError l.ToPtr.2 = false) := by
  refine ⟨toPtrBlocks_declared, ?_⟩
  intro p hp config reqPath v hv h
  obtain ⟨b, hb, hn⟩ := toPtrBlocks_declared p hp
  have hlen := BlockValidate_sizeAtMost flowSchema config p reqPath b v 1 hb hn hv h
  exact ⟨hlen, fun T l hl => ListNestedObjectValueOf.ToPtr_no_error l (hl ▸ hlen)⟩

/-- C24 at the `lambda` block of the first node of the acceptance-test configuration: with
one element the list validators report no error and `ToPtr` on the one-element block
reports none; with two elements the list validators report an error. -/
theorem C24_witness :
    Diagnostics.HasError (BlockValidate flowSchema configOneLambda
        (nodeConfigurationBlock ++ ["lambda"])
        (nodeConfigurationPath 0 0 ++ [.AttributeName "lambda"])) = false ∧
    Diagnostics.HasError
        (ListNestedObjectValueOf.known ["arn:aws:lambda:fn1"]).ToPtr.2 = false ∧
    Diagnostics.HasError (BlockValidate flowSchema configTwoLambda
        (nodeConfigurationBlock ++ ["lambda"])
        (nodeConfigurationPath 0 0 ++ [.AttributeName "lambda"])) = true :=
  ⟨by decide,
    (C24_toPtr_blocks_hold_at_most_one_element.2 (nodeConfigurationBlock ++ ["lambda"])
      (by decide) configOneLambda (nodeConfigurationPath 0 0 ++ [.AttributeName "lambda"])
      (.list [.object [("lambda_arn", .string "arn:aws:lambda:fn1")]]) (by rfl)
      (by decide)).2 String (.known ["arn:aws:lambda:fn1"]) rfl,
    by decide⟩

end bedrockagent
